import Mathlib

/-!
# OpenGLCourse: the shader build-and-diagnose pipeline

A shallow embedding of the shader splitter (`ParseShaders`), the stage
compiler (`CompileShader`), the program linker (`CreateShader`), the
error-capture layer (`ClearError`, `LogCall`, `ASSERT`, `GLCall`) and the draw
phase of `main` of `Course/3/2_uniforms/src/main.cpp`, with theorems about them.
The other copies of the splitter (`Course/2/3_shader_files`,
`Course/2/4_index_buffers`, `Course/3/1_error_handling`) and the draw phase of
`main` of `Course/3/1_error_handling/src/main.cpp` are embedded as well.

Conventions.
* A `std::string` is a list of characters (`Str`).
* An `std::ifstream` is the text that is still unread; a file that cannot be
  opened reads as the empty text.
* Undefined behaviour of the C++ code (an out-of-range array subscript) makes
  the embedded function return `none`.
* A raised `SIGTRAP` ends the process: the program installs no handler, and the
  statements of `main` after the raise are not executed.
-/

namespace OpenGLCourse

/-- A `std::string`. -/
abbrev Str := List Char

/-! ## std::string and std::getline -/

/-- The call `hay.find(needle)` of `std::string`: the least position at which
`needle` occurs in `hay`, `none` standing for `std::string::npos`. -/
def find (hay needle : Str) : Option Nat :=
  if needle.isPrefixOf hay then some 0
  else
    match hay with
    | [] => none
    | _ :: rest => (find rest needle).map (· + 1)

/-- The call `getline(input, line)`: `none` when the stream has nothing left
(the call fails and the loop ends); otherwise the characters up to the next
newline, which is consumed and not stored, and the rest of the stream. -/
def getline (input : Str) : Option (Str × Str) :=
  match input with
  | [] => none
  | _ :: _ =>
    some (input.takeWhile (· ≠ '\n'), (input.dropWhile (· ≠ '\n')).drop 1)

/-! ## ParseShaders -/

/-- The fields of `struct ShaderProgramSource`. -/
structure ShaderProgramSource where
  VertexSource : Str
  FragmentSource : Str
deriving DecidableEq, Repr

/-- The local `enum class ShaderType` of `ParseShaders`. -/
inductive ShaderType where
  | NONE
  | VERTEX
  | FRAGMENT
deriving DecidableEq, Repr

/-- The cast `(int)type`: `NONE = -1`, `VERTEX = 0`, `FRAGMENT = 1`. -/
def ShaderType.toInt : ShaderType → Int
  | .NONE => -1
  | .VERTEX => 0
  | .FRAGMENT => 1

/-- The locals of `ParseShaders` that the loop updates, and what the loop has
written to `std::cerr`. -/
structure ParseState where
  type : ShaderType
  ss0 : Str
  ss1 : Str
  cerr : List Str
deriving DecidableEq, Repr

/-- The statement `ss[i] << line << '\n'` on the array `std::stringstream ss[2]`:
`none` when the subscript is outside the array. -/
def ssAppend (st : ParseState) (i : Int) (line : Str) : Option ParseState :=
  if i = 0 then some { st with ss0 := st.ss0 ++ line ++ ['\n'] }
  else if i = 1 then some { st with ss1 := st.ss1 ++ line ++ ['\n'] }
  else none

/-- One iteration of the body of the `while (getline(input, line))` loop. -/
def parseLine (st : ParseState) (line : Str) : Option ParseState :=
  if find line "#shader".toList ≠ none then
    if find line "vertex".toList ≠ none then
      some { st with type := ShaderType.VERTEX }
    else if find line "fragment".toList ≠ none then
      some { st with type := ShaderType.FRAGMENT }
    else
      some { st with cerr := st.cerr ++ ["Unrecognised shader type.\n".toList] }
  else
    ssAppend st st.type.toInt line

/-- The loop `while (getline(input, line)) { ... }` of `ParseShaders`. -/
def parseLoop (st : ParseState) (input : Str) : Option ParseState :=
  match h : getline input with
  | none => some st
  | some (line, rest) =>
    match parseLine st line with
    | none => none
    | some st' => parseLoop st' rest
termination_by input.length
decreasing_by
  cases input with
  | nil => simp [getline] at h
  | cons c cs =>
    simp only [getline, Option.some.injEq, Prod.mk.injEq] at h
    have hle := (List.dropWhile_sublist (l := c :: cs) (fun x => decide (x ≠ '\n'))).length_le
    rw [← h.2, List.length_drop]
    simp only [List.length_cons] at hle ⊢
    omega

/-- The body of `ParseShaders` applied to the text of the file: `none` when the body
has undefined behaviour, otherwise the returned struct `{ss[0].str(), ss[1].str()}`
and what was written to `std::cerr`. -/
def ParseShaders (input : Str) : Option (ShaderProgramSource × List Str) :=
  match parseLoop { type := ShaderType.NONE, ss0 := [], ss1 := [], cerr := [] } input with
  | none => none
  | some st => some ({ VertexSource := st.ss0, FragmentSource := st.ss1 }, st.cerr)

/-- The loop body run over a list of lines, first line first. -/
def parseLines (st : ParseState) : List Str → Option ParseState
  | [] => some st
  | l :: ls => (parseLine st l).bind (fun st' => parseLines st' ls)

/-- The part of the loop state that decides the returned struct: the active
section and the two buffers. -/
def ParseState.core (st : ParseState) : ShaderType × Str × Str :=
  (st.type, st.ss0, st.ss1)

/-- The text whose lines are `ls`, each line terminated by a newline. -/
def document : List Str → Str
  | [] => []
  | l :: ls => l ++ '\n' :: document ls

/-! ## The OpenGL context, the error channel and the halt signal

The OpenGL implementation is an external collaborator. Its objects and its
pending-error queue are modelled after the OpenGL reference pages of the calls
the program makes; what the implementation is free to choose (object names, the
verdict of the GLSL compiler and linker) is a parameter, `Platform`. -/

abbrev GLenum := Nat
abbrev GLuint := Nat

def GL_NO_ERROR : GLenum := 0
def GL_INVALID_ENUM : GLenum := 0x0500
def GL_INVALID_VALUE : GLenum := 0x0501
def GL_INVALID_OPERATION : GLenum := 0x0502
def GL_FRAGMENT_SHADER : GLenum := 0x8B30
def GL_VERTEX_SHADER : GLenum := 0x8B31
def GL_COMPILE_STATUS : GLenum := 0x8B81
def GL_INFO_LOG_LENGTH : GLenum := 0x8B84
def GL_FALSE : Int := 0
def GL_TRUE : Int := 1
def SIGTRAP : Nat := 5

/-- An error code waiting in the queue: any code but `GL_NO_ERROR`. -/
abbrev GLError := { e : GLenum // e ≠ GL_NO_ERROR }

def invalidEnum : GLError := ⟨GL_INVALID_ENUM, by decide⟩
def invalidValue : GLError := ⟨GL_INVALID_VALUE, by decide⟩
def invalidOperation : GLError := ⟨GL_INVALID_OPERATION, by decide⟩

/-- A shader object (a stage unit). -/
structure ShaderObject where
  name : GLuint
  type : GLenum
  source : Str
  compileStatus : Bool
  infoLog : Str
  deleteStatus : Bool
deriving DecidableEq, Repr

/-- A program object. -/
structure ProgramObject where
  name : GLuint
  attached : List GLuint
  linkStatus : Bool
  validateStatus : Bool
deriving DecidableEq, Repr

/-- The state of the current OpenGL context: the live shader and program objects
(newest first) and the pending-error queue (oldest first). -/
structure GLContext where
  shaders : List ShaderObject
  programs : List ProgramObject
  errors : List GLError
deriving DecidableEq, Repr

/-- What the program does that can be observed from outside, in order: calls of
the OpenGL API, text written to `std::cerr`, signals raised. -/
inductive Event where
  | glGetError (ret : GLenum)
  | glCreateShader (type : GLenum) (ret : GLuint)
  | glShaderSource (shader : GLuint) (string : Str)
  | glCompileShader (shader : GLuint)
  | glGetShaderiv (shader : GLuint) (pname : GLenum)
  | glGetShaderInfoLog (shader : GLuint) (bufSize : Int)
  | glDeleteShader (shader : GLuint)
  | glCreateProgram (ret : GLuint)
  | glAttachShader (program shader : GLuint)
  | glLinkProgram (program : GLuint)
  | glValidateProgram (program : GLuint)
  | glDetachShader (program shader : GLuint)
  | cerr (text : Str)
  | raise (sig : Nat)
  | glUseProgram (program : GLuint)
  | glGetUniformLocation (program : GLuint) (name : Str) (ret : Int)
  | glUniform4f (location : Int)
  | glDrawElements
  | glClear
deriving DecidableEq, Repr

/-- The context together with the events so far (oldest first). -/
structure World where
  gl : GLContext
  trace : List Event
deriving DecidableEq, Repr

/-- The choices left to the OpenGL implementation and to the machine. -/
structure Platform where
  /-- The name `glCreateShader` returns in a context; 0 when creation fails. -/
  shaderName : GLContext → GLenum → GLuint
  /-- The name `glCreateProgram` returns in a context; 0 when creation fails. -/
  programName : GLContext → GLuint
  /-- The GLSL compiler: compile status and information log for a stage and a source. -/
  compile : GLenum → Str → Bool × Str
  /-- The verdict of the linker on a program of a context. -/
  link : GLContext → GLuint → Bool
  /-- The verdict of validation on a program of a context. -/
  validate : GLContext → GLuint → Bool
  /-- The value read from an `int` local that no call has written. -/
  uninitInt : Int
  /-- The text read from a `char` buffer that no call has written. -/
  uninitText : Str

def World.log (w : World) (e : Event) : World :=
  { w with trace := w.trace ++ [e] }

/-- The implementation records an error: the code joins the end of the queue. -/
def World.fail (w : World) (e : GLError) : World :=
  { w with gl := { w.gl with errors := w.gl.errors ++ [e] } }

def GLContext.findShader (c : GLContext) (n : GLuint) : Option ShaderObject :=
  c.shaders.find? (fun o => o.name == n)

def GLContext.findProgram (c : GLContext) (n : GLuint) : Option ProgramObject :=
  c.programs.find? (fun o => o.name == n)

def GLContext.isShader (c : GLContext) (n : GLuint) : Bool :=
  (c.findShader n).isSome

def GLContext.isProgram (c : GLContext) (n : GLuint) : Bool :=
  (c.findProgram n).isSome

/-- The name is attached to some program of the context. -/
def GLContext.isAttached (c : GLContext) (n : GLuint) : Bool :=
  c.programs.any (fun p => p.attached.contains n)

/-- The name is in use in the context. -/
def GLContext.inUse (c : GLContext) (n : GLuint) : Bool :=
  c.isShader n || c.isProgram n || c.isAttached n

def updateShader (f : ShaderObject → ShaderObject) (n : GLuint) :
    List ShaderObject → List ShaderObject
  | [] => []
  | o :: os => if o.name = n then f o :: os else o :: updateShader f n os

def updateProgram (f : ProgramObject → ProgramObject) (n : GLuint) :
    List ProgramObject → List ProgramObject
  | [] => []
  | o :: os => if o.name = n then f o :: os else o :: updateProgram f n os

def removeShader (n : GLuint) : List ShaderObject → List ShaderObject
  | [] => []
  | o :: os => if o.name = n then os else o :: removeShader n os

def World.setShaders (w : World) (l : List ShaderObject) : World :=
  { w with gl := { w.gl with shaders := l } }

def World.setPrograms (w : World) (l : List ProgramObject) : World :=
  { w with gl := { w.gl with programs := l } }

/-- The error a call records for a name that should be a shader object and is not:
`GL_INVALID_OPERATION` for the name of a program, `GL_INVALID_VALUE` for a value
OpenGL did not generate. -/
def notShaderError (c : GLContext) (n : GLuint) : GLError :=
  if c.isProgram n then invalidOperation else invalidValue

/-- The error a call records for a name that should be a program object and is not. -/
def notProgramError (c : GLContext) (n : GLuint) : GLError :=
  if c.isShader n then invalidOperation else invalidValue

/-- The call `glGetError()`: returns and removes the oldest pending code, or returns
`GL_NO_ERROR` when none is pending. -/
def glGetError (w : World) : GLenum × World :=
  match w.gl.errors with
  | [] => (GL_NO_ERROR, w.log (Event.glGetError GL_NO_ERROR))
  | e :: es =>
    (e.val, { gl := { w.gl with errors := es }, trace := w.trace ++ [Event.glGetError e.val] })

/-- The call `glCreateShader(type)`: a new empty shader object under the name the
implementation chooses, or 0 and no object. -/
def glCreateShader (pf : Platform) (type : GLenum) (w : World) : GLuint × World :=
  let n := pf.shaderName w.gl type
  let w1 := w.log (Event.glCreateShader type n)
  if n = 0 then (0, w1)
  else
    (n, w1.setShaders
      ({ name := n, type := type, source := [], compileStatus := false, infoLog := [],
         deleteStatus := false } :: w1.gl.shaders))

/-- The call `glShaderSource(shader, 1, &string, nullptr)`. -/
def glShaderSource (shader : GLuint) (string : Str) (w : World) : World :=
  let w1 := w.log (Event.glShaderSource shader string)
  if w1.gl.isShader shader then
    w1.setShaders (updateShader (fun o => { o with source := string }) shader w1.gl.shaders)
  else w1.fail (notShaderError w1.gl shader)

/-- The call `glCompileShader(shader)`: stores the compiler's status and log. -/
def glCompileShader (pf : Platform) (shader : GLuint) (w : World) : World :=
  let w1 := w.log (Event.glCompileShader shader)
  if w1.gl.isShader shader then
    w1.setShaders (updateShader (fun o =>
      { o with compileStatus := (pf.compile o.type o.source).1,
               infoLog := (pf.compile o.type o.source).2 }) shader w1.gl.shaders)
  else w1.fail (notShaderError w1.gl shader)

/-- The call `glGetShaderiv(shader, pname, &params)` for the two parameters the
program queries: the value written to `params`, or `none` when the call records an
error and writes nothing. The log length counts the terminating null character and
is 0 for an empty log. -/
def glGetShaderiv (shader : GLuint) (pname : GLenum) (w : World) : Option Int × World :=
  let w1 := w.log (Event.glGetShaderiv shader pname)
  match w1.gl.findShader shader with
  | none => (none, w1.fail (notShaderError w1.gl shader))
  | some o =>
    if pname = GL_COMPILE_STATUS then
      (some (if o.compileStatus then GL_TRUE else GL_FALSE), w1)
    else if pname = GL_INFO_LOG_LENGTH then
      (some (if o.infoLog = [] then 0 else (o.infoLog.length + 1 : Nat)), w1)
    else (none, w1.fail invalidEnum)

/-- The call `glGetShaderInfoLog(shader, bufSize, &length, infoLog)`: the text the
buffer holds afterwards as a C string, or `none` when nothing is written to it. -/
def glGetShaderInfoLog (shader : GLuint) (bufSize : Int) (w : World) : Option Str × World :=
  let w1 := w.log (Event.glGetShaderInfoLog shader bufSize)
  match w1.gl.findShader shader with
  | none => (none, w1.fail (notShaderError w1.gl shader))
  | some o =>
    if bufSize < 0 then (none, w1.fail invalidValue)
    else if bufSize = 0 then (none, w1)
    else (some (o.infoLog.take (bufSize.toNat - 1)), w1)

/-- The call `glDeleteShader(shader)`: 0 is silently ignored; an attached shader is
only flagged for deletion; any other shader object is deleted. -/
def glDeleteShader (shader : GLuint) (w : World) : World :=
  let w1 := w.log (Event.glDeleteShader shader)
  if shader = 0 then w1
  else if w1.gl.isShader shader then
    if w1.gl.isAttached shader then
      w1.setShaders (updateShader (fun o => { o with deleteStatus := true }) shader w1.gl.shaders)
    else w1.setShaders (removeShader shader w1.gl.shaders)
  else w1.fail (notShaderError w1.gl shader)

/-- The call `glCreateProgram()`. -/
def glCreateProgram (pf : Platform) (w : World) : GLuint × World :=
  let n := pf.programName w.gl
  let w1 := w.log (Event.glCreateProgram n)
  if n = 0 then (0, w1)
  else
    (n, w1.setPrograms
      ({ name := n, attached := [], linkStatus := false, validateStatus := false }
        :: w1.gl.programs))

/-- The call `glAttachShader(program, shader)`. -/
def glAttachShader (program shader : GLuint) (w : World) : World :=
  let w1 := w.log (Event.glAttachShader program shader)
  match w1.gl.findProgram program, w1.gl.findShader shader with
  | some p, some _ =>
    if p.attached.contains shader then w1.fail invalidOperation
    else
      w1.setPrograms
        (updateProgram (fun o => { o with attached := o.attached ++ [shader] }) program
          w1.gl.programs)
  | none, _ => w1.fail (notProgramError w1.gl program)
  | some _, none => w1.fail (notShaderError w1.gl shader)

/-- The call `glLinkProgram(program)`. -/
def glLinkProgram (pf : Platform) (program : GLuint) (w : World) : World :=
  let w1 := w.log (Event.glLinkProgram program)
  if w1.gl.isProgram program then
    w1.setPrograms
      (updateProgram (fun o => { o with linkStatus := pf.link w1.gl program }) program
        w1.gl.programs)
  else w1.fail (notProgramError w1.gl program)

/-- The call `glValidateProgram(program)`. -/
def glValidateProgram (pf : Platform) (program : GLuint) (w : World) : World :=
  let w1 := w.log (Event.glValidateProgram program)
  if w1.gl.isProgram program then
    w1.setPrograms
      (updateProgram (fun o => { o with validateStatus := pf.validate w1.gl program }) program
        w1.gl.programs)
  else w1.fail (notProgramError w1.gl program)

/-- The call `glDetachShader(program, shader)`: detaches, and deletes the shader if
it was flagged for deletion and is attached to no other program. -/
def glDetachShader (program shader : GLuint) (w : World) : World :=
  let w1 := w.log (Event.glDetachShader program shader)
  match w1.gl.findProgram program, w1.gl.findShader shader with
  | some p, some o =>
    if p.attached.contains shader then
      let w2 := w1.setPrograms
        (updateProgram (fun q => { q with attached := q.attached.erase shader }) program
          w1.gl.programs)
      if o.deleteStatus && !w2.gl.isAttached shader then
        w2.setShaders (removeShader shader w2.gl.shaders)
      else w2
    else w1.fail invalidOperation
  | none, _ => w1.fail (notProgramError w1.gl program)
  | some _, none => w1.fail (notShaderError w1.gl shader)

/-- The statement `std::cerr << ... ;` with the whole text it writes. -/
def cerrWrite (text : Str) (w : World) : World :=
  w.log (Event.cerr text)

/-- The call `raise(sig)`. -/
def raise (sig : Nat) (w : World) : World :=
  w.log (Event.raise sig)

/-- The texts written to `std::cerr` in a trace, in order. -/
def cerrOf (t : List Event) : List Str :=
  t.filterMap (fun e => match e with
    | Event.cerr text => some text
    | _ => none)

/-- The signals raised in a trace, in order. -/
def signalsOf (t : List Event) : List Nat :=
  t.filterMap (fun e => match e with
    | Event.raise sig => some sig
    | _ => none)

/-- The arguments of the `glAttachShader` calls in a trace, in order. -/
def attachCallsOf (t : List Event) : List (GLuint × GLuint) :=
  t.filterMap (fun e => match e with
    | Event.glAttachShader program shader => some (program, shader)
    | _ => none)

/-! ## The error-capture layer -/

/-- The function `ClearError`: `while (glGetError() != GL_NO_ERROR);`. -/
def ClearError (w : World) : World :=
  match h : glGetError w with
  | (e, w') => if he : e ≠ GL_NO_ERROR then ClearError w' else w'
termination_by w.gl.errors.length
decreasing_by
  unfold glGetError at h
  cases hq : w.gl.errors with
  | nil =>
    rw [hq] at h
    simp only [Prod.mk.injEq] at h
    exact absurd h.1.symm he
  | cons c cs =>
    rw [hq] at h
    simp only [Prod.mk.injEq] at h
    rw [← h.2]
    simp

/-- The text of the diagnostic record that `LogCall` writes to `std::cerr`. -/
def diagnosticRecord (error : GLenum) (func file : Str) (line : Int) : Str :=
  "OpenGL error (".toList ++ (Nat.repr error).toList ++ "): In function ".toList ++ func
    ++ " in file ".toList ++ file ++ " on line ".toList ++ (Int.repr line).toList ++ ['\n']

/-- The function `LogCall`. The body of its `while (GLenum error = glGetError())`
loop ends in `return false`, so the loop polls once: a pending code is written
and `false` returned; with `GL_NO_ERROR` the loop is left and `true` returned. -/
def LogCall (func file : Str) (line : Int) (w : World) : Bool × World :=
  match glGetError w with
  | (error, w') =>
    if error ≠ 0 then (false, cerrWrite (diagnosticRecord error func file line) w')
    else (true, w')

/-- The macro `ASSERT(x)`: `if (!(x)) raise(SIGTRAP);`. -/
def ASSERT (x : Bool) (w : World) : World :=
  if !x then raise SIGTRAP w else w

/-- The macro `GLCall(x)`: `ClearError(); x; ASSERT(LogCall(#x, __FILE__, __LINE__))`.
The wrapped expression is any action on the world, `xText` is its source text
`#x`, and `file`, `line` are `__FILE__` and `__LINE__` at the call site. The
value of `x` is discarded by the expression statement `x;`. -/
def GLCall {α : Type} (x : World → α × World) (xText file : Str) (line : Int)
    (w : World) : World :=
  let w1 := ClearError w
  let w2 := (x w1).2
  let r := LogCall xText file line w2
  ASSERT r.1 r.2

/-! ## The stage compiler and the program linker -/

/-- The C string `source.c_str()` as the implementation reads it when the length
argument is `nullptr`: the characters before the first null character. -/
def cstr (source : Str) : Str :=
  source.takeWhile (fun c => c != Char.ofNat 0)

/-- The function `CompileShader`. -/
def CompileShader (pf : Platform) (type : GLenum) (source : Str) (w : World) :
    GLuint × World :=
  let (id, w1) := glCreateShader pf type w
  let src := cstr source
  let w2 := glShaderSource id src w1
  let w3 := glCompileShader pf id w2
  let (r, w4) := glGetShaderiv id GL_COMPILE_STATUS w3
  let result : Int := r.getD pf.uninitInt
  if result = GL_FALSE then
    let (r', w5) := glGetShaderiv id GL_INFO_LOG_LENGTH w4
    let length : Int := r'.getD pf.uninitInt
    let (m, w6) := glGetShaderInfoLog id length w5
    let message : Str := m.getD pf.uninitText
    let w7 := cerrWrite ("Failed to compile ".toList
      ++ (if type = GL_VERTEX_SHADER then "vertex".toList else "fragment".toList)
      ++ " shader!\n".toList) w6
    let w8 := cerrWrite (message ++ ['\n']) w7
    let w9 := glDeleteShader id w8
    (0, w9)
  else (id, w4)

/-- The function `CreateShader`. -/
def CreateShader (pf : Platform) (vertexSource fragmentSource : Str) (w : World) :
    GLuint × World :=
  let (program, w1) := glCreateProgram pf w
  let (vs, w2) := CompileShader pf GL_VERTEX_SHADER vertexSource w1
  let (fs, w3) := CompileShader pf GL_FRAGMENT_SHADER fragmentSource w2
  let w4 := glAttachShader program vs w3
  let w5 := glAttachShader program fs w4
  let w6 := glLinkProgram pf program w5
  let w7 := glValidateProgram pf program w6
  let w8 := glDetachShader program vs w7
  let w9 := glDetachShader program fs w8
  let w10 := glDeleteShader vs w9
  let w11 := glDeleteShader fs w10
  (program, w11)

/-- The implementation hands out only names that are not in use: a name returned
by `glCreateShader` or `glCreateProgram` is 0 (creation failed) or names no live
object and is attached to no program. -/
def Platform.fresh (pf : Platform) : Prop :=
  (∀ (c : GLContext) (t : GLenum), pf.shaderName c t = 0 ∨ c.inUse (pf.shaderName c t) = false)
  ∧ (∀ c : GLContext, pf.programName c = 0 ∨ c.inUse (pf.programName c) = false)

/-- Every name that occurs in a context: the names of the shader and program
objects and the attached names. -/
def GLContext.allNames (c : GLContext) : List GLuint :=
  c.shaders.map (·.name) ++ c.programs.map (·.name) ++ (c.programs.map (·.attached)).flatten

/-- A platform for examples: the name handed out is one more than every name that
occurs in the context, a source compiles exactly when it is the text `ok`, and a
program links and validates. -/
def examplePlatform : Platform where
  shaderName := fun c _ => 1 + c.allNames.foldr max 0
  programName := fun c => 1 + c.allNames.foldr max 0
  compile := fun _ src => if src = "ok".toList then (true, []) else (false, "syntax error".toList)
  link := fun _ _ => true
  validate := fun _ _ => true
  uninitInt := 7
  uninitText := "?".toList

/-- A world with no object, no pending error and no event. -/
def emptyWorld : World :=
  { gl := { shaders := [], programs := [], errors := [] }, trace := [] }

/-! ## Lines of a document -/

/-- The lines that the loop `while (getline(input, line))` reads from a text, in
order. -/
def getlines (input : Str) : List Str :=
  match h : getline input with
  | none => []
  | some (line, rest) => line :: getlines rest
termination_by input.length
decreasing_by
  cases input with
  | nil => simp [getline] at h
  | cons c cs =>
    simp only [getline, Option.some.injEq, Prod.mk.injEq] at h
    have hle := (List.dropWhile_sublist (l := c :: cs) (fun x => decide (x ≠ '\n'))).length_le
    rw [← h.2, List.length_drop]
    simp only [List.length_cons] at hle ⊢
    omega

/-- The line contains the token `#shader`: the loop takes its directive branch. -/
def isDirective (line : Str) : Bool :=
  decide (find line "#shader".toList ≠ none)

/-- The line is a directive that names neither `vertex` nor `fragment`. -/
def isUnrecognised (line : Str) : Bool :=
  isDirective line && decide (find line "vertex".toList = none)
    && decide (find line "fragment".toList = none)

/-- The text `needle` occurs somewhere in the text `hay`. -/
def occursIn (needle hay : Str) : Prop :=
  ∃ a b : Str, hay = a ++ needle ++ b

/-! ## The draw phase of the uniforms example

The part of `main` of `Course/3/2_uniforms` from `ParseShaders` to the draw loop.
Window and buffer setup before it and the teardown after it are outside the
model, and so are `std::cout`, the colour arguments of `glUniform4f` (floating
point), `glfwSwapBuffers` and `glfwPollEvents`. -/

/-- What the OpenGL implementation decides for the calls of the draw phase. -/
structure DrawPlatform where
  /-- The location of a uniform name in a program; `none` when the name is no active
  uniform of the program, in which case `glGetUniformLocation` returns -1. -/
  uniformLocation : World → GLuint → Str → Option Nat
  /-- The error codes that `glUseProgram` records. -/
  useProgramErrors : World → GLuint → List GLError
  /-- The error codes that `glGetUniformLocation` records. -/
  uniformLocationErrors : World → GLuint → Str → List GLError
  /-- The error codes that `glUniform4f` records. -/
  uniform4fErrors : World → Int → List GLError
  /-- The error codes that `glDrawElements` records. -/
  drawElementsErrors : World → List GLError
  /-- The error codes that `glClear` records. -/
  clearErrors : World → List GLError

/-- The implementation records several errors, oldest first. -/
def World.failAll (w : World) (es : List GLError) : World :=
  { w with gl := { w.gl with errors := w.gl.errors ++ es } }

/-- The call `glUseProgram(program)`. -/
def glUseProgram (dp : DrawPlatform) (program : GLuint) (w : World) : World :=
  (w.log (Event.glUseProgram program)).failAll (dp.useProgramErrors w program)

/-- The call `glGetUniformLocation(program, name)`: a location, which is not
negative, or -1. -/
def glGetUniformLocation (dp : DrawPlatform) (program : GLuint) (name : Str) (w : World) :
    Int × World :=
  let ret : Int :=
    match dp.uniformLocation w program name with
    | some n => (n : Int)
    | none => -1
  (ret, (w.log (Event.glGetUniformLocation program name ret)).failAll
    (dp.uniformLocationErrors w program name))

/-- The call `glUniform4f(location, v0, v1, v2, v3)`. -/
def glUniform4f (dp : DrawPlatform) (location : Int) (w : World) : World :=
  (w.log (Event.glUniform4f location)).failAll (dp.uniform4fErrors w location)

/-- The call `glDrawElements(GL_TRIANGLES, 6, GL_UNSIGNED_INT, nullptr)`. -/
def glDrawElements (dp : DrawPlatform) (w : World) : World :=
  (w.log Event.glDrawElements).failAll (dp.drawElementsErrors w)

/-- The call `glClear(GL_COLOR_BUFFER_BIT)`. -/
def glClear (dp : DrawPlatform) (w : World) : World :=
  (w.log Event.glClear).failAll (dp.clearErrors w)

/-- The locations passed to `glUniform4f` in a trace, in order. -/
def uniform4fCallsOf (t : List Event) : List Int :=
  t.filterMap (fun e => match e with
    | Event.glUniform4f location => some location
    | _ => none)

/-- No signal has been raised: the process is running. The program installs no
handler for `SIGTRAP`, whose default action ends the process. -/
def alive (w : World) : Bool :=
  (signalsOf w.trace).isEmpty

/-- A statement of `main`: it is executed only if the process is still running. -/
def stmt (f : World → World) (w : World) : World :=
  if alive w then f w else w

/-- One iteration of the draw loop of the uniforms example; `file` is `__FILE__`. -/
def drawFrame (dp : DrawPlatform) (file : Str) (location : Int) (w : World) : World :=
  let w1 := stmt (glClear dp) w
  let w2 := stmt (GLCall (fun v => ((), glUniform4f dp location v))
    "glUniform4f(location, pink, 0.0f, pink, 1.0f)".toList file 264) w1
  let w3 := stmt (GLCall (fun v => ((), glDrawElements dp v))
    "glDrawElements(GL_TRIANGLES, 6, GL_UNSIGNED_INT, nullptr)".toList file 267) w2
  w3

/-- The draw loop `while (!glfwWindowShouldClose(window))` run for `frames`
iterations. -/
def drawLoop (dp : DrawPlatform) (file : Str) (location : Int) : Nat → World → World
  | 0, w => w
  | frames + 1, w => drawLoop dp file location frames (drawFrame dp file location w)

/-- The statement `ASSERT(location != -1);` and the draw loop after it. -/
def uniformsDraw (dp : DrawPlatform) (file : Str) (location : Int) (frames : Nat)
    (w : World) : World :=
  drawLoop dp file location frames (stmt (ASSERT (decide (location ≠ -1))) w)

/-- The statements of `main` from `ParseShaders` to the lookup of `u_Color`: the
looked-up location and the world after it; `none` when `ParseShaders` has no
defined result. -/
def uniformsSetup (pf : Platform) (dp : DrawPlatform) (fileText : Str) (w : World) :
    Option (Int × World) :=
  match ParseShaders fileText with
  | none => none
  | some (source, errs) =>
    let w1 := errs.foldl (fun v t => cerrWrite t v) w
    let (shader, w2) := CreateShader pf source.VertexSource source.FragmentSource w1
    let w3 := glUseProgram dp shader w2
    some (glGetUniformLocation dp shader "u_Color".toList w3)

/-- The model of `main` of the uniforms example, the draw loop run for `frames`
iterations. -/
def uniformsMain (pf : Platform) (dp : DrawPlatform) (file fileText : Str) (frames : Nat)
    (w : World) : Option World :=
  match uniformsSetup pf dp fileText w with
  | none => none
  | some (location, w') => some (uniformsDraw dp file location frames w')

/-- A draw platform for examples: `u_Color` is at location 0 and no call records an
error. -/
def exampleDrawPlatform : DrawPlatform where
  uniformLocation := fun _ _ _ => some 0
  useProgramErrors := fun _ _ => []
  uniformLocationErrors := fun _ _ _ => []
  uniform4fErrors := fun _ _ => []
  drawElementsErrors := fun _ => []
  clearErrors := fun _ => []

/-- A draw platform for examples on which `u_Color` is not found. -/
def noUniformDrawPlatform : DrawPlatform where
  uniformLocation := fun _ _ _ => none
  useProgramErrors := fun _ _ => []
  uniformLocationErrors := fun _ _ _ => []
  uniform4fErrors := fun _ _ => []
  drawElementsErrors := fun _ => []
  clearErrors := fun _ => []

/-! ## The sections of a document, in the words of the specification -/

/-- The section that a line selects when it is a recognised directive: `none` for
a line that is no directive or names neither stage. -/
def selectedBy (line : Str) : Option ShaderType :=
  if isDirective line then
    if find line "vertex".toList ≠ none then some ShaderType.VERTEX
    else if find line "fragment".toList ≠ none then some ShaderType.FRAGMENT
    else none
  else none

/-- The section selected by the nearest recognised directive among the lines
`before` (first line first); `NONE` when there is no recognised directive. -/
def activeSection (before : List Str) : ShaderType :=
  ((before.reverse.filterMap selectedBy).head?).getD ShaderType.NONE

/-- The text of a section: over the lines that follow the lines `before`, in
order, every line that is no directive and whose nearest preceding recognised
directive selected `target`, followed by a newline. -/
def sectionText (target : ShaderType) (before : List Str) : List Str → Str
  | [] => []
  | l :: rest =>
    (if !isDirective l && decide (activeSection before = target) then l ++ ['\n'] else [])
      ++ sectionText target (before ++ [l]) rest

/-! ## The other copies of the splitter -/

/-- The loop `while (getline(stream, line)) { ... }` with a given loop body. -/
def splitLoop (body : ParseState → Str → Option ParseState) (st : ParseState)
    (input : Str) : Option ParseState :=
  match h : getline input with
  | none => some st
  | some (line, rest) =>
    match body st line with
    | none => none
    | some st' => splitLoop body st' rest
termination_by input.length
decreasing_by
  cases input with
  | nil => simp [getline] at h
  | cons c cs =>
    simp only [getline, Option.some.injEq, Prod.mk.injEq] at h
    have hle := (List.dropWhile_sublist (l := c :: cs) (fun x => decide (x ≠ '\n'))).length_le
    rw [← h.2, List.length_drop]
    simp only [List.length_cons] at hle ⊢
    omega

/-- The fields of `struct ShaderProgramSource` of `Course/2/3_shader_files`. -/
structure ShaderFiles.ShaderProgramSource where
  VertexShader : Str
  FragmentShader : Str
deriving DecidableEq, Repr

/-- The loop body of `ParseShader` of `Course/2/3_shader_files`: a directive that
names no stage does nothing. -/
def ShaderFiles.parseLine (st : ParseState) (line : Str) : Option ParseState :=
  if find line "#shader".toList ≠ none then
    if find line "vertex".toList ≠ none then
      some { st with type := ShaderType.VERTEX }
    else if find line "fragment".toList ≠ none then
      some { st with type := ShaderType.FRAGMENT }
    else
      some st
  else
    ssAppend st st.type.toInt line

/-- The function `ParseShader` of `Course/2/3_shader_files`. -/
def ShaderFiles.ParseShader (input : Str) : Option ShaderFiles.ShaderProgramSource :=
  match splitLoop ShaderFiles.parseLine
      { type := ShaderType.NONE, ss0 := [], ss1 := [], cerr := [] } input with
  | none => none
  | some st => some { VertexShader := st.ss0, FragmentShader := st.ss1 }

/-- The fields of `struct ShaderProgramSource` of `Course/2/4_index_buffers`. -/
structure IndexBuffers.ShaderProgramSource where
  VertexShader : Str
  FragmentShader : Str
deriving DecidableEq, Repr

/-- The loop body of `ParseShader` of `Course/2/4_index_buffers`. -/
def IndexBuffers.parseLine (st : ParseState) (line : Str) : Option ParseState :=
  if find line "#shader".toList ≠ none then
    if find line "vertex".toList ≠ none then
      some { st with type := ShaderType.VERTEX }
    else if find line "fragment".toList ≠ none then
      some { st with type := ShaderType.FRAGMENT }
    else
      some st
  else
    ssAppend st st.type.toInt line

/-- The function `ParseShader` of `Course/2/4_index_buffers`. -/
def IndexBuffers.ParseShader (input : Str) : Option IndexBuffers.ShaderProgramSource :=
  match splitLoop IndexBuffers.parseLine
      { type := ShaderType.NONE, ss0 := [], ss1 := [], cerr := [] } input with
  | none => none
  | some st => some { VertexShader := st.ss0, FragmentShader := st.ss1 }

/-- The loop body of `ParseShaders` of `Course/3/1_error_handling`. -/
def ErrorHandling.parseLine (st : ParseState) (line : Str) : Option ParseState :=
  if find line "#shader".toList ≠ none then
    if find line "vertex".toList ≠ none then
      some { st with type := ShaderType.VERTEX }
    else if find line "fragment".toList ≠ none then
      some { st with type := ShaderType.FRAGMENT }
    else
      some { st with cerr := st.cerr ++ ["Unrecognised shader type.\n".toList] }
  else
    ssAppend st st.type.toInt line

/-- The function `ParseShaders` of `Course/3/1_error_handling`: the returned struct
and what was written to `std::cerr`. -/
def ErrorHandling.ParseShaders (input : Str) : Option (ShaderProgramSource × List Str) :=
  match splitLoop ErrorHandling.parseLine
      { type := ShaderType.NONE, ss0 := [], ss1 := [], cerr := [] } input with
  | none => none
  | some st => some ({ VertexSource := st.ss0, FragmentSource := st.ss1 }, st.cerr)

/-- A loop body run over a list of lines, first line first. -/
def runLines (body : ParseState → Str → Option ParseState) (st : ParseState) :
    List Str → Option ParseState
  | [] => some st
  | l :: ls => (body st l).bind (fun st' => runLines body st' ls)

/-! ## The calls of the build in a trace -/

/-- The handles passed to `glDeleteShader` in a trace, in order. -/
def deleteCallsOf (t : List Event) : List GLuint :=
  t.filterMap (fun e => match e with
    | Event.glDeleteShader shader => some shader
    | _ => none)

/-- The handles returned by `glCreateShader` in a trace, in order. -/
def createdShadersOf (t : List Event) : List GLuint :=
  t.filterMap (fun e => match e with
    | Event.glCreateShader _ ret => some ret
    | _ => none)

/-- The arguments of the `glDetachShader` calls in a trace, in order. -/
def detachCallsOf (t : List Event) : List (GLuint × GLuint) :=
  t.filterMap (fun e => match e with
    | Event.glDetachShader program shader => some (program, shader)
    | _ => none)

/-- The event is one that `CompileShader` can cause: one of its six API calls or
a write to `std::cerr`. -/
def Event.isCompileStep : Event → Bool
  | Event.glCreateShader _ _ => true
  | Event.glShaderSource _ _ => true
  | Event.glCompileShader _ => true
  | Event.glGetShaderiv _ _ => true
  | Event.glGetShaderInfoLog _ _ => true
  | Event.glDeleteShader _ => true
  | Event.cerr _ => true
  | _ => false

/-- The test `result == GL_FALSE` of `CompileShader`, on the value that the
compile-status query leaves in `result`. -/
def compileFailed (pf : Platform) (type : GLenum) (source : Str) (w : World) : Bool :=
  decide (((glGetShaderiv (glCreateShader pf type w).1 GL_COMPILE_STATUS
    (glCompileShader pf (glCreateShader pf type w).1
      (glShaderSource (glCreateShader pf type w).1 (cstr source)
        (glCreateShader pf type w).2))).1.getD pf.uninitInt) = GL_FALSE)

/-! ## The draw phase of the error-handling example

The part of `main` of `Course/3/1_error_handling` from `ParseShaders` to the draw
loop; its `CompileShader`, `CreateShader` and error-capture layer are the same
text as those of `Course/3/2_uniforms`. -/

/-- The statements of `main` from `ParseShaders` to `glUseProgram(shader)`: the
program handle and the world after the bind. -/
def errorHandlingSetup (pf : Platform) (dp : DrawPlatform) (fileText : Str) (w : World) :
    Option (GLuint × World) :=
  match ErrorHandling.ParseShaders fileText with
  | none => none
  | some (source, errs) =>
    let w1 := errs.foldl (fun v t => cerrWrite t v) w
    let (shader, w2) := CreateShader pf source.VertexSource source.FragmentSource w1
    some (shader, glUseProgram dp shader w2)

/-- One iteration of the draw loop of the error-handling example. -/
def errorHandlingFrame (dp : DrawPlatform) (file : Str) (w : World) : World :=
  let w1 := stmt (glClear dp) w
  stmt (GLCall (fun v => ((), glDrawElements dp v))
    "glDrawElements(GL_TRIANGLES, 6, GL_UNSIGNED_INT, nullptr)".toList file 264) w1

/-- The draw loop of the error-handling example run for `frames` iterations. -/
def errorHandlingLoop (dp : DrawPlatform) (file : Str) : Nat → World → World
  | 0, w => w
  | frames + 1, w => errorHandlingLoop dp file frames (errorHandlingFrame dp file w)

/-- The model of `main` of the error-handling example. -/
def errorHandlingMain (pf : Platform) (dp : DrawPlatform) (file fileText : Str)
    (frames : Nat) (w : World) : Option World :=
  match errorHandlingSetup pf dp fileText w with
  | none => none
  | some (_, w') => some (errorHandlingLoop dp file frames w')

/-- A draw platform for examples as OpenGL specifies the calls for a program that
did not link: `glUseProgram` records `GL_INVALID_OPERATION`, and drawing without a
current program records no error. -/
def unlinkedDrawPlatform : DrawPlatform where
  uniformLocation := fun _ _ _ => none
  useProgramErrors := fun _ _ => [invalidOperation]
  uniformLocationErrors := fun _ _ _ => [invalidOperation]
  uniform4fErrors := fun _ _ => [invalidOperation]
  drawElementsErrors := fun _ => []
  clearErrors := fun _ => []

/-- A platform for examples on which, besides, no program links or validates. -/
def unlinkedPlatform : Platform :=
  { examplePlatform with link := fun _ _ => false, validate := fun _ _ => false }

/-- A platform for examples whose compiler rejects every source and leaves the
information log empty. -/
def silentPlatform : Platform :=
  { examplePlatform with compile := fun _ _ => (false, []) }

/-! ## Lemmas on getline and the splitter loop -/

theorem notNewline_of_not_mem (l : Str) (hl : '\n' ∉ l) :
    ∀ c ∈ l, (fun x : Char => decide (x ≠ '\n')) c = true := by
  intro c hc
  have : c ≠ '\n' := fun h => hl (h ▸ hc)
  simpa using this

theorem getline_line (l rest : Str) (hl : '\n' ∉ l) :
    getline (l ++ '\n' :: rest) = some (l, rest) := by
  have hp := notNewline_of_not_mem l hl
  have h1 : (l ++ '\n' :: rest).takeWhile (· ≠ '\n') = l := by
    rw [List.takeWhile_append_of_pos hp]
    simp
  have h2 : (l ++ '\n' :: rest).dropWhile (· ≠ '\n') = '\n' :: rest := by
    rw [List.dropWhile_append_of_pos hp]
    simp
  cases l with
  | nil => simp [getline]
  | cons c cs =>
    have e : (c :: cs) ++ '\n' :: rest = c :: (cs ++ '\n' :: rest) := rfl
    simp only [getline, e]
    rw [← e, h1, h2]
    rfl

theorem getline_last (l : Str) (hl : '\n' ∉ l) (hne : l ≠ []) :
    getline l = some (l, []) := by
  have hp := notNewline_of_not_mem l hl
  have h1 : l.takeWhile (· ≠ '\n') = l := List.takeWhile_eq_self_iff.mpr hp
  have h2 : l.dropWhile (· ≠ '\n') = [] := List.dropWhile_eq_nil_iff.mpr hp
  cases l with
  | nil => exact absurd rfl hne
  | cons c cs =>
    simp only [getline]
    rw [h1, h2]
    rfl

theorem parseLoop_nil (st : ParseState) : parseLoop st [] = some st := by
  rw [parseLoop]
  simp [getline]

theorem parseLoop_step (st : ParseState) (input line rest : Str)
    (h : getline input = some (line, rest)) :
    parseLoop st input = (parseLine st line).bind (fun st' => parseLoop st' rest) := by
  rw [parseLoop]
  split
  · rename_i h'
    rw [h] at h'
    cases h'
  · rename_i l r h'
    rw [h] at h'
    cases h'
    cases parseLine st line <;> rfl

theorem parseLoop_document (ls : List Str) (hls : ∀ l ∈ ls, '\n' ∉ l) (st : ParseState)
    (rest : Str) :
    parseLoop st (document ls ++ rest) = (parseLines st ls).bind (fun st' => parseLoop st' rest) := by
  induction ls generalizing st with
  | nil => simp [document, parseLines]
  | cons l ls ih =>
    have hl : '\n' ∉ l := hls l (by simp)
    have hrest : ∀ l' ∈ ls, '\n' ∉ l' := fun l' h => hls l' (by simp [h])
    have e : document (l :: ls) ++ rest = l ++ '\n' :: (document ls ++ rest) := by
      simp [document]
    rw [e, parseLoop_step st _ l _ (getline_line l _ hl)]
    cases hp : parseLine st l with
    | none => simp [parseLines, hp]
    | some st' => simp [parseLines, hp, ih hrest]

theorem parseLoop_document_all (ls : List Str) (hls : ∀ l ∈ ls, '\n' ∉ l) (st : ParseState) :
    parseLoop st (document ls) = parseLines st ls := by
  have h := parseLoop_document ls hls st []
  rw [List.append_nil] at h
  rw [h]
  cases parseLines st ls with
  | none => rfl
  | some st' => simp [parseLoop_nil]

theorem parseLines_append (st : ParseState) (xs ys : List Str) :
    parseLines st (xs ++ ys) = (parseLines st xs).bind (fun st' => parseLines st' ys) := by
  induction xs generalizing st with
  | nil => simp [parseLines]
  | cons x xs ih =>
    cases hp : parseLine st x with
    | none => simp [parseLines, hp]
    | some st' => simp [parseLines, hp, ih]

theorem document_append (xs ys : List Str) :
    document (xs ++ ys) = document xs ++ document ys := by
  induction xs with
  | nil => rfl
  | cons x xs ih => simp [document, ih]

theorem parseLines_plain_vertex (ls : List Str) (h : ∀ l ∈ ls, find l "#shader".toList = none)
    (st : ParseState) (ht : st.type = ShaderType.VERTEX) :
    parseLines st ls = some { st with ss0 := st.ss0 ++ document ls } := by
  induction ls generalizing st with
  | nil => simp [parseLines, document]
  | cons l ls ih =>
    have hl := h l (by simp)
    have hrest : ∀ l' ∈ ls, find l' "#shader".toList = none := fun l' h' => h l' (by simp [h'])
    have hp : parseLine st l = some { st with ss0 := st.ss0 ++ l ++ ['\n'] } := by
      unfold parseLine
      rw [hl]
      simp [ssAppend, ht, ShaderType.toInt]
    simp only [parseLines, hp, Option.some_bind]
    rw [ih hrest _ (by exact ht)]
    simp [document]

theorem parseLines_plain_fragment (ls : List Str) (h : ∀ l ∈ ls, find l "#shader".toList = none)
    (st : ParseState) (ht : st.type = ShaderType.FRAGMENT) :
    parseLines st ls = some { st with ss1 := st.ss1 ++ document ls } := by
  induction ls generalizing st with
  | nil => simp [parseLines, document]
  | cons l ls ih =>
    have hl := h l (by simp)
    have hrest : ∀ l' ∈ ls, find l' "#shader".toList = none := fun l' h' => h l' (by simp [h'])
    have hp : parseLine st l = some { st with ss1 := st.ss1 ++ l ++ ['\n'] } := by
      unfold parseLine
      rw [hl]
      simp [ssAppend, ht, ShaderType.toInt]
    simp only [parseLines, hp, Option.some_bind]
    rw [ih hrest _ (by exact ht)]
    simp [document]

theorem parseLine_vertex_directive (st : ParseState) :
    parseLine st "#shader vertex".toList = some { st with type := ShaderType.VERTEX } := by
  have h1 : find "#shader vertex".toList "#shader".toList = some 0 := by decide
  have h2 : find "#shader vertex".toList "vertex".toList = some 8 := by decide
  unfold parseLine
  rw [h1, h2]
  simp

theorem parseLine_fragment_directive (st : ParseState) :
    parseLine st "#shader fragment".toList = some { st with type := ShaderType.FRAGMENT } := by
  have h1 : find "#shader fragment".toList "#shader".toList = some 0 := by decide
  have h2 : find "#shader fragment".toList "vertex".toList = none := by decide
  have h3 : find "#shader fragment".toList "fragment".toList = some 8 := by decide
  unfold parseLine
  rw [h1, h2, h3]
  simp

theorem getline_length (input line rest : Str) (h : getline input = some (line, rest)) :
    rest.length < input.length := by
  cases input with
  | nil => simp [getline] at h
  | cons c cs =>
    simp only [getline, Option.some.injEq, Prod.mk.injEq] at h
    have hle := (List.dropWhile_sublist (l := c :: cs) (fun x => decide (x ≠ '\n'))).length_le
    rw [← h.2, List.length_drop]
    simp only [List.length_cons] at hle ⊢
    omega

theorem parseLine_core (st st' : ParseState) (h : st.core = st'.core) (l : Str) :
    (parseLine st l).map ParseState.core = (parseLine st' l).map ParseState.core := by
  obtain ⟨t, a, b, c⟩ := st
  obtain ⟨t', a', b', c'⟩ := st'
  simp only [ParseState.core, Prod.mk.injEq] at h
  obtain ⟨rfl, rfl, rfl⟩ := h
  unfold parseLine ssAppend
  split_ifs <;> simp [ParseState.core]

theorem parseLoop_core_aux (n : Nat) :
    ∀ (input : Str), input.length ≤ n → ∀ (st st' : ParseState), st.core = st'.core →
      (parseLoop st input).map ParseState.core = (parseLoop st' input).map ParseState.core := by
  induction n with
  | zero =>
    intro input hlen st st' h
    have : input = [] := List.length_eq_zero.mp (Nat.le_zero.mp hlen)
    subst this
    simp [parseLoop_nil, h]
  | succ n ih =>
    intro input hlen st st' h
    cases hg : getline input with
    | none =>
      cases input with
      | nil => simp [parseLoop_nil, h]
      | cons c cs => simp [getline] at hg
    | some p =>
      obtain ⟨line, rest⟩ := p
      have hlt := getline_length input line rest hg
      rw [parseLoop_step st input line rest hg, parseLoop_step st' input line rest hg]
      have hl := parseLine_core st st' h line
      cases h1 : parseLine st line with
      | none =>
        cases h2 : parseLine st' line with
        | none => rfl
        | some s2 => rw [h1, h2] at hl; simp at hl
      | some s1 =>
        cases h2 : parseLine st' line with
        | none => rw [h1, h2] at hl; simp at hl
        | some s2 =>
          rw [h1, h2] at hl
          simp only [Option.map_some', Option.some.injEq] at hl
          simp only [Option.some_bind]
          exact ih rest (by omega) s1 s2 hl

theorem parseLoop_core (input : Str) (st st' : ParseState) (h : st.core = st'.core) :
    (parseLoop st input).map ParseState.core = (parseLoop st' input).map ParseState.core :=
  parseLoop_core_aux input.length input (Nat.le_refl _) st st' h

theorem ParseShaders_fst (input : Str) :
    (ParseShaders input).map Prod.fst =
      (parseLoop { type := ShaderType.NONE, ss0 := [], ss1 := [], cerr := [] } input).map
        (fun st => { VertexSource := st.ss0, FragmentSource := st.ss1 }) := by
  unfold ParseShaders
  cases parseLoop { type := ShaderType.NONE, ss0 := [], ss1 := [], cerr := [] } input <;> rfl

theorem map_source_of_core (a b : Option ParseState)
    (h : a.map ParseState.core = b.map ParseState.core) :
    a.map (fun st => ({ VertexSource := st.ss0, FragmentSource := st.ss1 } : ShaderProgramSource)) =
      b.map (fun st => { VertexSource := st.ss0, FragmentSource := st.ss1 }) := by
  cases a with
  | none => cases b with
    | none => rfl
    | some y => simp at h
  | some x => cases b with
    | none => simp at h
    | some y =>
      simp only [Option.map_some', Option.some.injEq, ParseState.core, Prod.mk.injEq] at h
      simp [h.2.1, h.2.2]

/-- A text in which every line is terminated is the text of a list of lines. -/
theorem exists_lines_of_terminated (ys : Str) :
    ∃ ls : List Str, (∀ l ∈ ls, '\n' ∉ l) ∧ ys ++ ['\n'] = document ls := by
  induction ys with
  | nil => exact ⟨[[]], by simp, rfl⟩
  | cons c ys ih =>
    obtain ⟨ls, hls, he⟩ := ih
    by_cases hc : c = '\n'
    · refine ⟨[] :: ls, ?_, ?_⟩
      · intro l hl
        rcases List.mem_cons.mp hl with rfl | h
        · simp
        · exact hls l h
      · simp [document, hc, ← he]
    · cases ls with
      | nil => simp [document] at he
      | cons l ls' =>
        refine ⟨(c :: l) :: ls', ?_, ?_⟩
        · intro l' hl'
          rcases List.mem_cons.mp hl' with rfl | h
          · intro hmem
            rcases List.mem_cons.mp hmem with h1 | h1
            · exact hc h1.symm
            · exact hls l (by simp) h1
          · exact hls l' (by simp [h])
        · simp only [document] at he ⊢
          simp [he]

theorem exists_lines (pre : Str) (h : pre = [] ∨ pre.getLast? = some '\n') :
    ∃ ls : List Str, (∀ l ∈ ls, '\n' ∉ l) ∧ pre = document ls := by
  rcases h with rfl | h
  · exact ⟨[], by simp, rfl⟩
  · obtain ⟨ys, rfl⟩ := List.getLast?_eq_some_iff.mp h
    exact exists_lines_of_terminated ys

/-! ## The splitter: claims -/

/-- C1: a document made of the line `#shader vertex`, lines `V`, the line
`#shader fragment` and lines `F` (or the two sections the other way round), no
line of `V` or `F` containing `#shader`, is split into the lines of `V`, each
followed by a newline, and the lines of `F`, each followed by a newline, in
their original order; the document `#shader vertex\nA\n#shader fragment\nB\n`
gives vertex `A\n` and fragment `B\n`. -/
theorem ParseShaders_two_sections (V F : List Str)
    (hV : ∀ l ∈ V, '\n' ∉ l ∧ find l "#shader".toList = none)
    (hF : ∀ l ∈ F, '\n' ∉ l ∧ find l "#shader".toList = none) :
    ParseShaders (document (("#shader vertex".toList :: V) ++ ("#shader fragment".toList :: F)))
        = some ({ VertexSource := document V, FragmentSource := document F }, [])
    ∧ ParseShaders (document (("#shader fragment".toList :: F) ++ ("#shader vertex".toList :: V)))
        = some ({ VertexSource := document V, FragmentSource := document F }, [])
    ∧ ParseShaders "#shader vertex\nA\n#shader fragment\nB\n".toList
        = some ({ VertexSource := "A\n".toList, FragmentSource := "B\n".toList }, []) := by
  have hdv : '\n' ∉ "#shader vertex".toList := by decide
  have hdf : '\n' ∉ "#shader fragment".toList := by decide
  have key : ∀ (A B : List Str), (∀ l ∈ A, '\n' ∉ l ∧ find l "#shader".toList = none) →
      (∀ l ∈ B, '\n' ∉ l ∧ find l "#shader".toList = none) →
      ParseShaders (document (("#shader vertex".toList :: A) ++ ("#shader fragment".toList :: B)))
        = some ({ VertexSource := document A, FragmentSource := document B }, []) := by
    intro A B hA hB
    have hnl : ∀ l ∈ ("#shader vertex".toList :: A) ++ ("#shader fragment".toList :: B),
        '\n' ∉ l := by
      intro l hl
      simp only [List.mem_append, List.mem_cons] at hl
      rcases hl with (rfl | h) | rfl | h
      · exact hdv
      · exact (hA l h).1
      · exact hdf
      · exact (hB l h).1
    unfold ParseShaders
    rw [parseLoop_document_all _ hnl, parseLines_append]
    simp only [parseLines, parseLine_vertex_directive, parseLine_fragment_directive,
      Option.some_bind]
    rw [parseLines_plain_vertex A (fun l h => (hA l h).2) _ rfl]
    simp only [Option.some_bind]
    rw [parseLines_plain_fragment B (fun l h => (hB l h).2) _ rfl]
    simp
  have key' : ∀ (A B : List Str), (∀ l ∈ A, '\n' ∉ l ∧ find l "#shader".toList = none) →
      (∀ l ∈ B, '\n' ∉ l ∧ find l "#shader".toList = none) →
      ParseShaders (document (("#shader fragment".toList :: B) ++ ("#shader vertex".toList :: A)))
        = some ({ VertexSource := document A, FragmentSource := document B }, []) := by
    intro A B hA hB
    have hnl : ∀ l ∈ ("#shader fragment".toList :: B) ++ ("#shader vertex".toList :: A),
        '\n' ∉ l := by
      intro l hl
      simp only [List.mem_append, List.mem_cons] at hl
      rcases hl with (rfl | h) | rfl | h
      · exact hdf
      · exact (hB l h).1
      · exact hdv
      · exact (hA l h).1
    unfold ParseShaders
    rw [parseLoop_document_all _ hnl, parseLines_append]
    simp only [parseLines, parseLine_vertex_directive, parseLine_fragment_directive,
      Option.some_bind]
    rw [parseLines_plain_fragment B (fun l h => (hB l h).2) _ rfl]
    simp only [Option.some_bind]
    rw [parseLines_plain_vertex A (fun l h => (hA l h).2) _ rfl]
    simp
  refine ⟨key V F hV hF, key' V F hV hF, ?_⟩
  exact key ["A".toList] ["B".toList] (by decide) (by decide)

/-- Witness of C1: the document with the vertex line `A` and the fragment line `B`. -/
theorem ParseShaders_two_sections_witness :
    ParseShaders (document (("#shader vertex".toList :: ["A".toList]) ++
        ("#shader fragment".toList :: ["B".toList])))
      = some ({ VertexSource := document ["A".toList],
                FragmentSource := document ["B".toList] }, []) :=
  (ParseShaders_two_sections ["A".toList] ["B".toList] (by decide) (by decide)).1

/-- C8 (the code at the failing input): on the one-line document `A`, which has
no directive, the loop evaluates `ss[-1] << line`, a subscript outside the array
`ss[2]`, so the call has no defined result; only the empty document is split into
two empty buffers. -/
theorem ParseShaders_no_directive_out_of_range :
    ParseShaders "A\n".toList = none
    ∧ ParseShaders [] = some ({ VertexSource := [], FragmentSource := [] }, []) := by
  constructor
  · simp [ParseShaders, parseLoop, getline, parseLine, find, ssAppend, ShaderType.toInt]
  · simp [ParseShaders, parseLoop_nil]

/-- C9: in any document, a directive line `d` that names neither `vertex` nor
`fragment` only writes the diagnostic: it leaves the active section and both
buffers as they were, and deleting it (whether it is followed by further text or
is the unterminated last line) does not change what `ParseShaders` returns. Here
`pre` is the text before the line: empty, or ending with the newline of the
previous line. -/
theorem ParseShaders_unrecognised_directive (pre d rest : Str)
    (hpre : pre = [] ∨ pre.getLast? = some '\n') (hd : '\n' ∉ d)
    (h1 : find d "#shader".toList ≠ none) (h2 : find d "vertex".toList = none)
    (h3 : find d "fragment".toList = none) :
    (∀ st : ParseState, parseLine st d =
        some { st with cerr := st.cerr ++ ["Unrecognised shader type.\n".toList] })
    ∧ (ParseShaders (pre ++ (d ++ '\n' :: rest))).map Prod.fst
        = (ParseShaders (pre ++ rest)).map Prod.fst
    ∧ (ParseShaders (pre ++ d)).map Prod.fst = (ParseShaders pre).map Prod.fst := by
  obtain ⟨ls, hls, rfl⟩ := exists_lines pre hpre
  have hline : ∀ st : ParseState, parseLine st d =
      some { st with cerr := st.cerr ++ ["Unrecognised shader type.\n".toList] } := by
    intro st
    unfold parseLine
    rw [if_pos h1, h2, h3]
    simp
  have hne : d ≠ [] := by
    intro h
    subst h
    exact h1 (by decide)
  refine ⟨hline, ?_, ?_⟩
  · rw [ParseShaders_fst, ParseShaders_fst]
    apply map_source_of_core
    rw [parseLoop_document ls hls, parseLoop_document ls hls]
    cases parseLines { type := ShaderType.NONE, ss0 := [], ss1 := [], cerr := [] } ls with
    | none => rfl
    | some st =>
      simp only [Option.some_bind]
      rw [parseLoop_step st _ d rest (getline_line d rest hd), hline]
      simp only [Option.some_bind]
      exact parseLoop_core rest _ _ rfl
  · rw [ParseShaders_fst, ParseShaders_fst]
    apply map_source_of_core
    rw [parseLoop_document ls hls, parseLoop_document_all ls hls]
    cases parseLines { type := ShaderType.NONE, ss0 := [], ss1 := [], cerr := [] } ls with
    | none => rfl
    | some st =>
      simp only [Option.some_bind]
      rw [parseLoop_step st _ d [] (getline_last d hd hne), hline]
      simp [parseLoop_nil, ParseState.core]

/-- Witness of C9: the directive `#shader geometry` between a vertex section and a
line `B`. -/
theorem ParseShaders_unrecognised_directive_witness :
    (ParseShaders ("#shader vertex\nA\n".toList ++
        ("#shader geometry".toList ++ '\n' :: "B\n".toList))).map Prod.fst
      = (ParseShaders ("#shader vertex\nA\n".toList ++ "B\n".toList)).map Prod.fst :=
  (ParseShaders_unrecognised_directive "#shader vertex\nA\n".toList
    "#shader geometry".toList "B\n".toList (by decide) (by decide) (by decide) (by decide)
    (by decide)).2.1

/-! ## The error-capture layer: lemmas -/

theorem glGetError_nil (w : World) (h : w.gl.errors = []) :
    glGetError w = (GL_NO_ERROR, w.log (Event.glGetError GL_NO_ERROR)) := by
  unfold glGetError
  rw [h]

theorem glGetError_cons (w : World) (e : GLError) (es : List GLError)
    (h : w.gl.errors = e :: es) :
    glGetError w = (e.val, { gl := { w.gl with errors := es },
                             trace := w.trace ++ [Event.glGetError e.val] }) := by
  unfold glGetError
  rw [h]

theorem ClearError_nil (w : World) (h : w.gl.errors = []) :
    ClearError w = w.log (Event.glGetError GL_NO_ERROR) := by
  rw [ClearError]
  simp [glGetError_nil w h]

theorem ClearError_cons (w : World) (e : GLError) (es : List GLError)
    (h : w.gl.errors = e :: es) :
    ClearError w = ClearError { gl := { w.gl with errors := es },
                                trace := w.trace ++ [Event.glGetError e.val] } := by
  rw [ClearError]
  simp [glGetError_cons w e es h, e.property]

/-- What `ClearError` does: it polls once for every pending code and once more,
and leaves the queue empty and the objects untouched. -/
theorem ClearError_eq (q : List GLError) :
    ∀ w : World, w.gl.errors = q →
      ClearError w = { gl := { w.gl with errors := [] },
                       trace := w.trace ++ q.map (fun e => Event.glGetError e.val)
                         ++ [Event.glGetError GL_NO_ERROR] } := by
  induction q with
  | nil =>
    intro w h
    rw [ClearError_nil w h]
    obtain ⟨⟨sh, pr, er⟩, tr⟩ := w
    simp only at h
    subst h
    simp [World.log]
  | cons e es ih =>
    intro w h
    rw [ClearError_cons w e es h, ih _ rfl]
    simp

theorem ClearError_errors (w : World) : (ClearError w).gl.errors = [] := by
  rw [ClearError_eq w.gl.errors w rfl]

/-- The check and the halt of `GLCall` when at least one code is pending after the
wrapped call: the oldest code is polled and written, the signal is raised, and the
younger codes stay in the queue. -/
theorem GLCall_pending {α : Type} (x : World → α × World) (xText file : Str) (line : Int)
    (w : World) (c : GLError) (rest : List GLError)
    (hx : (x (ClearError w)).2.gl.errors = c :: rest) :
    GLCall x xText file line w =
      { gl := { (x (ClearError w)).2.gl with errors := rest },
        trace := (x (ClearError w)).2.trace ++
          [Event.glGetError c.val, Event.cerr (diagnosticRecord c.val xText file line),
           Event.raise SIGTRAP] } := by
  unfold GLCall LogCall
  simp only [glGetError_cons _ c rest hx]
  have hc : c.val ≠ 0 := c.property
  simp [hc, ASSERT, raise, cerrWrite, World.log]

/-! ## The error-capture layer: claims -/

/-- C2 (the code at the failing input): a wrapped call that leaves the two codes
`GL_INVALID_ENUM`, `GL_INVALID_VALUE` pending makes `GLCall` write one diagnostic
record, for the first code, and raise `SIGTRAP`; the second code is never polled
and stays in the queue. -/
theorem GLCall_two_errors_one_record :
    cerrOf (GLCall (fun w => ((), (w.fail invalidEnum).fail invalidValue))
        "glDrawElements()".toList "main.cpp".toList 267 emptyWorld).trace
      = [diagnosticRecord GL_INVALID_ENUM "glDrawElements()".toList "main.cpp".toList 267]
    ∧ signalsOf (GLCall (fun w => ((), (w.fail invalidEnum).fail invalidValue))
        "glDrawElements()".toList "main.cpp".toList 267 emptyWorld).trace = [SIGTRAP]
    ∧ (GLCall (fun w => ((), (w.fail invalidEnum).fail invalidValue))
        "glDrawElements()".toList "main.cpp".toList 267 emptyWorld).gl.errors
      = [invalidValue] := by
  have hx : ((fun w : World => ((), (w.fail invalidEnum).fail invalidValue))
      (ClearError emptyWorld)).2.gl.errors = invalidEnum :: [invalidValue] := by
    simp [World.fail, ClearError_errors]
  rw [GLCall_pending _ _ _ _ _ invalidEnum [invalidValue] hx]
  rw [ClearError_eq [] emptyWorld rfl]
  refine ⟨?_, ?_, rfl⟩
  · simp [cerrOf, World.fail, emptyWorld, invalidEnum]
  · simp [signalsOf, World.fail, emptyWorld]

/-- C3: whatever codes are pending before `GLCall(X)`, if the wrapped call records
no error then after the wrapped call `GLCall` only polls the queue once, getting
`GL_NO_ERROR`: it writes no diagnostic record and raises no signal. -/
theorem GLCall_no_error {α : Type} (x : World → α × World) (xText file : Str) (line : Int)
    (w : World) (hx : (x (ClearError w)).2.gl.errors = (ClearError w).gl.errors) :
    GLCall x xText file line w = (x (ClearError w)).2.log (Event.glGetError GL_NO_ERROR)
    ∧ cerrOf (GLCall x xText file line w).trace = cerrOf (x (ClearError w)).2.trace
    ∧ signalsOf (GLCall x xText file line w).trace = signalsOf (x (ClearError w)).2.trace := by
  rw [ClearError_errors] at hx
  have h : GLCall x xText file line w
      = (x (ClearError w)).2.log (Event.glGetError GL_NO_ERROR) := by
    unfold GLCall LogCall
    simp only [glGetError_nil _ hx]
    simp [ASSERT, GL_NO_ERROR]
  refine ⟨h, ?_, ?_⟩
  · rw [h]
    simp [cerrOf, World.log]
  · rw [h]
    simp [signalsOf, World.log]

/-- Witness of C3: two codes are left over from earlier calls and the wrapped call
does nothing. -/
theorem GLCall_no_error_witness :
    signalsOf (GLCall (fun w => ((), w)) "f()".toList "main.cpp".toList 264
        ((emptyWorld.fail invalidEnum).fail invalidValue)).trace
      = signalsOf ((fun w : World => ((), w))
          (ClearError ((emptyWorld.fail invalidEnum).fail invalidValue))).2.trace :=
  (GLCall_no_error (fun w => ((), w)) "f()".toList "main.cpp".toList 264
    ((emptyWorld.fail invalidEnum).fail invalidValue) rfl).2.2

/-- C4: `LogCall` returns `false` exactly when a code is pending on entry; `ASSERT`
raises `SIGTRAP` exactly when its argument is `false`; and with nothing pending
`LogCall` returns `true` and the check-and-halt step only polls the queue, writing
nothing and raising nothing. -/
theorem LogCall_false_iff_pending (func file : Str) (line : Int) (w : World) :
    ((LogCall func file line w).1 = false ↔ w.gl.errors ≠ [])
    ∧ (∀ (b : Bool) (w' : World),
        ASSERT b w' = if b = false then w'.log (Event.raise SIGTRAP) else w')
    ∧ (w.gl.errors = [] →
        (LogCall func file line w).1 = true
        ∧ ASSERT (LogCall func file line w).1 (LogCall func file line w).2
            = w.log (Event.glGetError GL_NO_ERROR)
        ∧ cerrOf (ASSERT (LogCall func file line w).1 (LogCall func file line w).2).trace
            = cerrOf w.trace
        ∧ signalsOf (ASSERT (LogCall func file line w).1 (LogCall func file line w).2).trace
            = signalsOf w.trace) := by
  refine ⟨?_, ?_, ?_⟩
  · cases hq : w.gl.errors with
    | nil =>
      unfold LogCall
      simp [glGetError_nil w hq, GL_NO_ERROR]
    | cons e es =>
      have he : e.val ≠ 0 := e.property
      unfold LogCall
      simp [glGetError_cons w e es hq, he]
  · intro b w'
    cases b <;> simp [ASSERT, raise]
  · intro hq
    have hl : LogCall func file line w = (true, w.log (Event.glGetError GL_NO_ERROR)) := by
      unfold LogCall
      simp [glGetError_nil w hq, GL_NO_ERROR]
    rw [hl]
    simp [ASSERT, cerrOf, signalsOf, World.log]

/-- Witness of C4: the world with nothing pending. -/
theorem LogCall_false_iff_pending_witness :
    emptyWorld.gl.errors = []
    ∧ (LogCall "f()".toList "main.cpp".toList 264 emptyWorld).1 = true :=
  ⟨rfl, ((LogCall_false_iff_pending "f()".toList "main.cpp".toList 264 emptyWorld).2.2 rfl).1⟩

/-- C5: when the wrapped call leaves exactly one code `c` pending, `GLCall` polls
it, writes one diagnostic record, which is the text
`OpenGL error (c): In function <text of X> in file <file> on line <line>`,
and raises `SIGTRAP`; nothing else is written. -/
theorem GLCall_one_error {α : Type} (x : World → α × World) (xText file : Str) (line : Int)
    (w : World) (c : GLError) (hx : (x (ClearError w)).2.gl.errors = [c]) :
    (GLCall x xText file line w).trace = (x (ClearError w)).2.trace ++
        [Event.glGetError c.val,
         Event.cerr ("OpenGL error (".toList ++ (Nat.repr c.val).toList
           ++ "): In function ".toList ++ xText ++ " in file ".toList ++ file
           ++ " on line ".toList ++ (Int.repr line).toList ++ ['\n']),
         Event.raise SIGTRAP]
    ∧ cerrOf (GLCall x xText file line w).trace = cerrOf (x (ClearError w)).2.trace ++
        ["OpenGL error (".toList ++ (Nat.repr c.val).toList
           ++ "): In function ".toList ++ xText ++ " in file ".toList ++ file
           ++ " on line ".toList ++ (Int.repr line).toList ++ ['\n']] := by
  rw [GLCall_pending x xText file line w c [] hx]
  constructor
  · rfl
  · simp [cerrOf, diagnosticRecord]

/-- Witness of C5: the wrapped call records `GL_INVALID_ENUM`. -/
theorem GLCall_one_error_witness :
    (GLCall (fun w => ((), w.fail invalidEnum)) "f()".toList "main.cpp".toList 264
        emptyWorld).trace
      = ((fun w : World => ((), w.fail invalidEnum)) (ClearError emptyWorld)).2.trace ++
        [Event.glGetError invalidEnum.val,
         Event.cerr ("OpenGL error (".toList ++ (Nat.repr invalidEnum.val).toList
           ++ "): In function ".toList ++ "f()".toList ++ " in file ".toList
           ++ "main.cpp".toList ++ " on line ".toList ++ (Int.repr 264).toList ++ ['\n']),
         Event.raise SIGTRAP] :=
  (GLCall_one_error (fun w => ((), w.fail invalidEnum)) "f()".toList "main.cpp".toList 264
    emptyWorld invalidEnum (by simp [World.fail, ClearError_errors])).1

/-! ## The stage compiler and the program linker: lemmas -/

theorem attachCallsOf_append (a b : List Event) :
    attachCallsOf (a ++ b) = attachCallsOf a ++ attachCallsOf b := by
  simp [attachCallsOf]

theorem glCreateShader_attachCalls (pf : Platform) (t : GLenum) (w : World) :
    attachCallsOf (glCreateShader pf t w).2.trace = attachCallsOf w.trace := by
  unfold glCreateShader
  simp only []
  split <;> simp [attachCallsOf, World.log, World.setShaders]

theorem glShaderSource_attachCalls (n : GLuint) (src : Str) (w : World) :
    attachCallsOf (glShaderSource n src w).trace = attachCallsOf w.trace := by
  unfold glShaderSource
  simp only []
  split <;> simp [attachCallsOf, World.log, World.setShaders, World.fail]

theorem glCompileShader_attachCalls (pf : Platform) (n : GLuint) (w : World) :
    attachCallsOf (glCompileShader pf n w).trace = attachCallsOf w.trace := by
  unfold glCompileShader
  simp only []
  split <;> simp [attachCallsOf, World.log, World.setShaders, World.fail]

theorem glGetShaderiv_attachCalls (n : GLuint) (pname : GLenum) (w : World) :
    attachCallsOf (glGetShaderiv n pname w).2.trace = attachCallsOf w.trace := by
  unfold glGetShaderiv
  simp only []
  split
  · simp [attachCallsOf, World.log, World.fail]
  · split_ifs <;> simp [attachCallsOf, World.log, World.fail]

theorem glGetShaderInfoLog_attachCalls (n : GLuint) (b : Int) (w : World) :
    attachCallsOf (glGetShaderInfoLog n b w).2.trace = attachCallsOf w.trace := by
  unfold glGetShaderInfoLog
  simp only []
  split
  · simp [attachCallsOf, World.log, World.fail]
  · split_ifs <;> simp [attachCallsOf, World.log, World.fail]

theorem glDeleteShader_attachCalls (n : GLuint) (w : World) :
    attachCallsOf (glDeleteShader n w).trace = attachCallsOf w.trace := by
  unfold glDeleteShader
  simp only []
  split_ifs <;> simp [attachCallsOf, World.log, World.fail, World.setShaders]

theorem cerrWrite_attachCalls (t : Str) (w : World) :
    attachCallsOf (cerrWrite t w).trace = attachCallsOf w.trace := by
  simp [cerrWrite, attachCallsOf, World.log]

theorem CompileShader_attachCalls (pf : Platform) (t : GLenum) (src : Str) (w : World) :
    attachCallsOf (CompileShader pf t src w).2.trace = attachCallsOf w.trace := by
  unfold CompileShader
  simp only []
  split_ifs <;>
    simp only [glDeleteShader_attachCalls, cerrWrite_attachCalls, glGetShaderInfoLog_attachCalls,
      glGetShaderiv_attachCalls, glCompileShader_attachCalls, glShaderSource_attachCalls,
      glCreateShader_attachCalls]

theorem glCreateProgram_attachCalls (pf : Platform) (w : World) :
    attachCallsOf (glCreateProgram pf w).2.trace = attachCallsOf w.trace := by
  unfold glCreateProgram
  simp only []
  split <;> simp [attachCallsOf, World.log, World.setPrograms]

theorem glAttachShader_attachCalls (p n : GLuint) (w : World) :
    attachCallsOf (glAttachShader p n w).trace = attachCallsOf w.trace ++ [(p, n)] := by
  unfold glAttachShader
  simp only []
  split
  · split_ifs <;> simp [attachCallsOf, World.log, World.fail, World.setPrograms]
  · simp [attachCallsOf, World.log, World.fail]
  · simp [attachCallsOf, World.log, World.fail]

theorem glLinkProgram_attachCalls (pf : Platform) (p : GLuint) (w : World) :
    attachCallsOf (glLinkProgram pf p w).trace = attachCallsOf w.trace := by
  unfold glLinkProgram
  simp only []
  split <;> simp [attachCallsOf, World.log, World.fail, World.setPrograms]

theorem glValidateProgram_attachCalls (pf : Platform) (p : GLuint) (w : World) :
    attachCallsOf (glValidateProgram pf p w).trace = attachCallsOf w.trace := by
  unfold glValidateProgram
  simp only []
  split <;> simp [attachCallsOf, World.log, World.fail, World.setPrograms]

theorem glDetachShader_attachCalls (p n : GLuint) (w : World) :
    attachCallsOf (glDetachShader p n w).trace = attachCallsOf w.trace := by
  unfold glDetachShader
  simp only []
  split
  · split_ifs <;>
      simp [attachCallsOf, World.log, World.fail, World.setPrograms, World.setShaders]
  · simp [attachCallsOf, World.log, World.fail]
  · simp [attachCallsOf, World.log, World.fail]

/-- The shader object that `CompileShader` has created and compiled when it queries
the compile status. -/
theorem CompileShader_compiled_object (pf : Platform) (type : GLenum) (source : Str) (w : World)
    (hid : (glCreateShader pf type w).1 ≠ 0) :
    (glCompileShader pf (glCreateShader pf type w).1
        (glShaderSource (glCreateShader pf type w).1 (cstr source)
          (glCreateShader pf type w).2)).gl.findShader (glCreateShader pf type w).1
      = some { name := (glCreateShader pf type w).1, type := type, source := cstr source,
               compileStatus := (pf.compile type (cstr source)).1,
               infoLog := (pf.compile type (cstr source)).2, deleteStatus := false } := by
  have hn : pf.shaderName w.gl type ≠ 0 := by
    intro h
    apply hid
    simp [glCreateShader, h]
  simp [glCreateShader, hn, glShaderSource, glCompileShader, World.log, World.setShaders,
    GLContext.isShader, GLContext.findShader, updateShader]

theorem CompileShader_status_query (pf : Platform) (type : GLenum) (source : Str) (w : World)
    (hid : (glCreateShader pf type w).1 ≠ 0) :
    (glGetShaderiv (glCreateShader pf type w).1 GL_COMPILE_STATUS
        (glCompileShader pf (glCreateShader pf type w).1
          (glShaderSource (glCreateShader pf type w).1 (cstr source)
            (glCreateShader pf type w).2))).1
      = some (if (pf.compile type (cstr source)).1 then GL_TRUE else GL_FALSE) := by
  have h := CompileShader_compiled_object pf type source w hid
  unfold glGetShaderiv
  simp only [World.log] at h ⊢
  rw [h]
  simp

/-! ### The effect of the calls on the objects -/

theorem glAttachShader_shaders (p n : GLuint) (w : World) :
    (glAttachShader p n w).gl.shaders = w.gl.shaders := by
  unfold glAttachShader
  simp only []
  split
  · split_ifs <;> simp [World.log, World.fail, World.setPrograms]
  · simp [World.log, World.fail]
  · simp [World.log, World.fail]

theorem glLinkProgram_shaders (pf : Platform) (p : GLuint) (w : World) :
    (glLinkProgram pf p w).gl.shaders = w.gl.shaders := by
  unfold glLinkProgram
  simp only []
  split <;> simp [World.log, World.fail, World.setPrograms]

theorem glValidateProgram_shaders (pf : Platform) (p : GLuint) (w : World) :
    (glValidateProgram pf p w).gl.shaders = w.gl.shaders := by
  unfold glValidateProgram
  simp only []
  split <;> simp [World.log, World.fail, World.setPrograms]

theorem glDetachShader_shaders (p n : GLuint) (w : World)
    (h : ∀ S, w.gl.findShader n = some S → S.deleteStatus = false) :
    (glDetachShader p n w).gl.shaders = w.gl.shaders := by
  unfold glDetachShader
  simp only []
  split
  · rename_i q o hq ho
    have hd : o.deleteStatus = false := h o (by simpa [World.log] using ho)
    simp [hd]
    split_ifs <;> simp [World.log, World.fail, World.setPrograms]
  · simp [World.log, World.fail]
  · simp [World.log, World.fail]

theorem glDeleteShader_programs (n : GLuint) (w : World) :
    (glDeleteShader n w).gl.programs = w.gl.programs := by
  unfold glDeleteShader
  simp only []
  split_ifs <;> simp [World.log, World.fail, World.setShaders]

theorem glAttachShader_programs_none (p n : GLuint) (w : World)
    (h : w.gl.findProgram p = none) :
    (glAttachShader p n w).gl.programs = w.gl.programs := by
  unfold glAttachShader
  simp only [World.log, h]
  simp [World.fail]

theorem glLinkProgram_programs_none (pf : Platform) (p : GLuint) (w : World)
    (h : w.gl.findProgram p = none) :
    (glLinkProgram pf p w).gl.programs = w.gl.programs := by
  unfold glLinkProgram
  simp [World.log, GLContext.isProgram, h, World.fail]

theorem glValidateProgram_programs_none (pf : Platform) (p : GLuint) (w : World)
    (h : w.gl.findProgram p = none) :
    (glValidateProgram pf p w).gl.programs = w.gl.programs := by
  unfold glValidateProgram
  simp [World.log, GLContext.isProgram, h, World.fail]

theorem glDetachShader_programs_none (p n : GLuint) (w : World)
    (h : w.gl.findProgram p = none) :
    (glDetachShader p n w).gl.programs = w.gl.programs := by
  unfold glDetachShader
  simp only [World.log, h]
  simp [World.fail]

theorem glAttachShader_programs_head (p n : GLuint) (w : World) (A : List GLuint)
    (l v : Bool) (pr0 : List ProgramObject)
    (h : w.gl.programs = { name := p, attached := A, linkStatus := l, validateStatus := v } :: pr0) :
    (glAttachShader p n w).gl.programs
      = { name := p,
          attached := if (w.gl.findShader n).isSome ∧ n ∉ A then A ++ [n] else A,
          linkStatus := l, validateStatus := v } :: pr0 := by
  have hf : w.gl.findProgram p
      = some { name := p, attached := A, linkStatus := l, validateStatus := v } := by
    simp [GLContext.findProgram, h]
  unfold glAttachShader
  simp only [World.log, hf]
  cases hs : w.gl.findShader n with
  | none => simp [World.fail, h]
  | some o =>
    by_cases hc : n ∈ A
    · simp [hc, World.fail, h]
    · simp [hc, World.setPrograms, h, updateProgram]

theorem glLinkProgram_programs_head (pf : Platform) (p : GLuint) (w : World) (A : List GLuint)
    (l v : Bool) (pr0 : List ProgramObject)
    (h : w.gl.programs = { name := p, attached := A, linkStatus := l, validateStatus := v } :: pr0) :
    ∃ l' : Bool, (glLinkProgram pf p w).gl.programs
      = { name := p, attached := A, linkStatus := l', validateStatus := v } :: pr0 := by
  refine ⟨pf.link (w.log (Event.glLinkProgram p)).gl p, ?_⟩
  unfold glLinkProgram
  simp [World.log, GLContext.isProgram, GLContext.findProgram, h, World.setPrograms,
    updateProgram]

theorem glValidateProgram_programs_head (pf : Platform) (p : GLuint) (w : World)
    (A : List GLuint) (l v : Bool) (pr0 : List ProgramObject)
    (h : w.gl.programs = { name := p, attached := A, linkStatus := l, validateStatus := v } :: pr0) :
    ∃ v' : Bool, (glValidateProgram pf p w).gl.programs
      = { name := p, attached := A, linkStatus := l, validateStatus := v' } :: pr0 := by
  refine ⟨pf.validate (w.log (Event.glValidateProgram p)).gl p, ?_⟩
  unfold glValidateProgram
  simp [World.log, GLContext.isProgram, GLContext.findProgram, h, World.setPrograms,
    updateProgram]

theorem glDetachShader_programs_head (p n : GLuint) (w : World) (A : List GLuint)
    (l v : Bool) (pr0 : List ProgramObject)
    (h : w.gl.programs = { name := p, attached := A, linkStatus := l, validateStatus := v } :: pr0) :
    (glDetachShader p n w).gl.programs
      = { name := p,
          attached := if (w.gl.findShader n).isSome then A.erase n else A,
          linkStatus := l, validateStatus := v } :: pr0 := by
  have hf : w.gl.findProgram p
      = some { name := p, attached := A, linkStatus := l, validateStatus := v } := by
    simp [GLContext.findProgram, h]
  unfold glDetachShader
  simp only [World.log, hf]
  cases hs : w.gl.findShader n with
  | none => simp [World.fail, h]
  | some o =>
    by_cases hc : n ∈ A
    · have hc' : A.contains n = true := by simpa using hc
      simp only [hc', if_true, Option.isSome_some]
      split_ifs <;> simp [World.setPrograms, World.setShaders, h, updateProgram]
    · simp [hc, World.fail, h, List.erase_of_not_mem hc]

theorem glDeleteShader_shaders_zero (w : World) :
    (glDeleteShader 0 w).gl.shaders = w.gl.shaders := by
  simp [glDeleteShader, World.log]

theorem glDeleteShader_shaders_remove (n : GLuint) (w : World) (hn : n ≠ 0)
    (hs : w.gl.isShader n = true) (ha : w.gl.isAttached n = false) :
    (glDeleteShader n w).gl.shaders = removeShader n w.gl.shaders := by
  unfold glDeleteShader
  simp [hn, hs, ha, World.setShaders, World.log]

theorem glCreateShader_programs (pf : Platform) (t : GLenum) (w : World) :
    (glCreateShader pf t w).2.gl.programs = w.gl.programs := by
  unfold glCreateShader
  simp only []
  split <;> simp [World.log, World.setShaders]

theorem glShaderSource_programs (n : GLuint) (src : Str) (w : World) :
    (glShaderSource n src w).gl.programs = w.gl.programs := by
  unfold glShaderSource
  simp only []
  split <;> simp [World.log, World.setShaders, World.fail]

theorem glCompileShader_programs (pf : Platform) (n : GLuint) (w : World) :
    (glCompileShader pf n w).gl.programs = w.gl.programs := by
  unfold glCompileShader
  simp only []
  split <;> simp [World.log, World.setShaders, World.fail]

theorem glGetShaderiv_programs (n : GLuint) (pname : GLenum) (w : World) :
    (glGetShaderiv n pname w).2.gl.programs = w.gl.programs := by
  unfold glGetShaderiv
  simp only []
  split
  · simp [World.log, World.fail]
  · split_ifs <;> simp [World.log, World.fail]

theorem glGetShaderInfoLog_programs (n : GLuint) (b : Int) (w : World) :
    (glGetShaderInfoLog n b w).2.gl.programs = w.gl.programs := by
  unfold glGetShaderInfoLog
  simp only []
  split
  · simp [World.log, World.fail]
  · split_ifs <;> simp [World.log, World.fail]

theorem cerrWrite_gl (t : Str) (w : World) : (cerrWrite t w).gl = w.gl := rfl

theorem CompileShader_programs (pf : Platform) (type : GLenum) (source : Str) (w : World) :
    (CompileShader pf type source w).2.gl.programs = w.gl.programs := by
  unfold CompileShader
  simp only []
  split_ifs <;>
    simp only [glDeleteShader_programs, cerrWrite_gl, glGetShaderInfoLog_programs,
      glGetShaderiv_programs, glCompileShader_programs, glShaderSource_programs,
      glCreateShader_programs]

theorem glShaderSource_shaders_none (n : GLuint) (src : Str) (w : World)
    (h : w.gl.findShader n = none) :
    (glShaderSource n src w).gl.shaders = w.gl.shaders := by
  unfold glShaderSource
  simp only [World.log, GLContext.isShader, h]
  simp [World.fail]

theorem glCompileShader_shaders_none (pf : Platform) (n : GLuint) (w : World)
    (h : w.gl.findShader n = none) :
    (glCompileShader pf n w).gl.shaders = w.gl.shaders := by
  unfold glCompileShader
  simp only [World.log, GLContext.isShader, h]
  simp [World.fail]

theorem glGetShaderiv_shaders (n : GLuint) (pname : GLenum) (w : World) :
    (glGetShaderiv n pname w).2.gl.shaders = w.gl.shaders := by
  unfold glGetShaderiv
  simp only []
  split
  · simp [World.log, World.fail]
  · split_ifs <;> simp [World.log, World.fail]

theorem glGetShaderInfoLog_shaders (n : GLuint) (b : Int) (w : World) :
    (glGetShaderInfoLog n b w).2.gl.shaders = w.gl.shaders := by
  unfold glGetShaderInfoLog
  simp only []
  split
  · simp [World.log, World.fail]
  · split_ifs <;> simp [World.log, World.fail]

theorem CompileShader_shaders_zero (pf : Platform) (type : GLenum) (source : Str) (w : World)
    (hn : pf.shaderName w.gl type = 0) (h0 : w.gl.findShader 0 = none) :
    (CompileShader pf type source w).1 = 0
    ∧ (CompileShader pf type source w).2.gl.shaders = w.gl.shaders := by
  have hc : glCreateShader pf type w = (0, w.log (Event.glCreateShader type 0)) := by
    simp [glCreateShader, hn]
  have h1 : (glShaderSource 0 (cstr source) (w.log (Event.glCreateShader type 0))).gl.shaders
      = w.gl.shaders := glShaderSource_shaders_none 0 _ _ h0
  have h1f : (glShaderSource 0 (cstr source)
      (w.log (Event.glCreateShader type 0))).gl.findShader 0 = none := by
    unfold GLContext.findShader at h0 ⊢
    rw [h1]
    exact h0
  have h2 : (glCompileShader pf 0 (glShaderSource 0 (cstr source)
      (w.log (Event.glCreateShader type 0)))).gl.shaders = w.gl.shaders := by
    rw [glCompileShader_shaders_none pf 0 _ h1f, h1]
  unfold CompileShader
  simp only [hc]
  split_ifs
  · exact ⟨rfl, by
      simp only [glDeleteShader_shaders_zero, cerrWrite_gl,
        glGetShaderInfoLog_shaders, glGetShaderiv_shaders, h2]⟩
  · exact ⟨rfl, by
      simp only [glDeleteShader_shaders_zero, cerrWrite_gl,
        glGetShaderInfoLog_shaders, glGetShaderiv_shaders, h2]⟩
  · exact ⟨rfl, by simp only [glGetShaderiv_shaders, h2]⟩

theorem isAttached_of_programs (c c' : GLContext) (n : GLuint)
    (h : c.programs = c'.programs) : c.isAttached n = c'.isAttached n := by
  unfold GLContext.isAttached
  rw [h]

theorem isShader_head (c : GLContext) (S : ShaderObject) (sh : List ShaderObject)
    (h : c.shaders = S :: sh) : c.isShader S.name = true := by
  simp [GLContext.isShader, GLContext.findShader, h]

theorem CompileShader_compiled_shaders (pf : Platform) (type : GLenum) (source : Str)
    (w : World) (hn : pf.shaderName w.gl type ≠ 0) :
    (glCompileShader pf (glCreateShader pf type w).1
        (glShaderSource (glCreateShader pf type w).1 (cstr source)
          (glCreateShader pf type w).2)).gl.shaders
      = { name := pf.shaderName w.gl type, type := type, source := cstr source,
          compileStatus := (pf.compile type (cstr source)).1,
          infoLog := (pf.compile type (cstr source)).2, deleteStatus := false }
        :: w.gl.shaders := by
  simp [glCreateShader, hn, glShaderSource, glCompileShader, World.log, World.setShaders,
    GLContext.isShader, GLContext.findShader, updateShader]

theorem CompileShader_shaders_fresh (pf : Platform) (type : GLenum) (source : Str) (w : World)
    (hn : pf.shaderName w.gl type ≠ 0)
    (ha : w.gl.isAttached (pf.shaderName w.gl type) = false) :
    ((CompileShader pf type source w).1 = 0
      ∧ (CompileShader pf type source w).2.gl.shaders = w.gl.shaders)
    ∨ ((CompileShader pf type source w).1 = pf.shaderName w.gl type
      ∧ ∃ S : ShaderObject, S.name = pf.shaderName w.gl type ∧ S.deleteStatus = false
          ∧ (CompileShader pf type source w).2.gl.shaders = S :: w.gl.shaders) := by
  have hid : (glCreateShader pf type w).1 = pf.shaderName w.gl type := by
    simp [glCreateShader, hn]
  have hid0 : (glCreateShader pf type w).1 ≠ 0 := by
    rw [hid]
    exact hn
  have hq := CompileShader_status_query pf type source w hid0
  have hsh := CompileShader_compiled_shaders pf type source w hn
  cases hst : (pf.compile type (cstr source)).1 with
  | true =>
    right
    rw [hst] at hq
    have hres : CompileShader pf type source w
        = ((glCreateShader pf type w).1,
           (glGetShaderiv (glCreateShader pf type w).1 GL_COMPILE_STATUS
            (glCompileShader pf (glCreateShader pf type w).1
              (glShaderSource (glCreateShader pf type w).1 (cstr source)
                (glCreateShader pf type w).2))).2) := by
      unfold CompileShader
      simp only []
      rw [hq]
      simp [GL_TRUE, GL_FALSE]
    rw [hres]
    refine ⟨hid, ⟨⟨pf.shaderName w.gl type, type, cstr source,
      (pf.compile type (cstr source)).1, (pf.compile type (cstr source)).2, false⟩,
      rfl, rfl, ?_⟩⟩
    simp only [glGetShaderiv_shaders, hsh]
  | false =>
    left
    rw [hst] at hq
    unfold CompileShader
    simp only []
    rw [hq]
    simp only [Bool.false_eq_true, if_false, Option.getD_some, if_true, true_and]
    rw [glDeleteShader_shaders_remove _ _ hid0]
    · simp only [cerrWrite_gl, glGetShaderInfoLog_shaders, glGetShaderiv_shaders, hsh]
      rw [hid]
      simp [removeShader]
    · have := isShader_head
        (glCompileShader pf (glCreateShader pf type w).1
          (glShaderSource (glCreateShader pf type w).1 (cstr source)
            (glCreateShader pf type w).2)).gl _ _ hsh
      simp only [GLContext.isShader, GLContext.findShader, cerrWrite_gl,
        glGetShaderInfoLog_shaders, glGetShaderiv_shaders, hid] at this ⊢
      exact this
    · rw [hid, ← ha]
      apply isAttached_of_programs
      simp only [cerrWrite_gl, glGetShaderInfoLog_programs, glGetShaderiv_programs,
        glCompileShader_programs, glShaderSource_programs, glCreateShader_programs]

theorem glDetachShader_shaders_none (p n : GLuint) (w : World)
    (h : w.gl.findProgram p = none) :
    (glDetachShader p n w).gl.shaders = w.gl.shaders := by
  unfold glDetachShader
  simp only [World.log, h]
  simp [World.fail]

theorem findShader_of_shaders (c c' : GLContext) (n : GLuint)
    (h : c.shaders = c'.shaders) : c.findShader n = c'.findShader n := by
  unfold GLContext.findShader
  rw [h]

theorem findProgram_of_programs (c c' : GLContext) (n : GLuint)
    (h : c.programs = c'.programs) : c.findProgram n = c'.findProgram n := by
  unfold GLContext.findProgram
  rw [h]

/-- The calls of `CreateShader` from the first attach to the last detach, when the
program handle names no program: every call fails and the objects stay as they
were. -/
theorem link_steps_no_program (pf : Platform) (p vs fs : GLuint) (w : World)
    (hp : w.gl.findProgram p = none) :
    (glDetachShader p fs (glDetachShader p vs (glValidateProgram pf p (glLinkProgram pf p
      (glAttachShader p fs (glAttachShader p vs w)))))).gl.programs = w.gl.programs
    ∧ (glDetachShader p fs (glDetachShader p vs (glValidateProgram pf p (glLinkProgram pf p
      (glAttachShader p fs (glAttachShader p vs w)))))).gl.shaders = w.gl.shaders := by
  have p4 := glAttachShader_programs_none p vs w hp
  have f4 : (glAttachShader p vs w).gl.findProgram p = none := by
    rw [findProgram_of_programs _ _ p p4]
    exact hp
  have p5 := glAttachShader_programs_none p fs _ f4
  have f5 : (glAttachShader p fs (glAttachShader p vs w)).gl.findProgram p = none := by
    rw [findProgram_of_programs _ _ p p5]
    exact f4
  have p6 := glLinkProgram_programs_none pf p _ f5
  have f6 : (glLinkProgram pf p (glAttachShader p fs (glAttachShader p vs w))).gl.findProgram p
      = none := by
    rw [findProgram_of_programs _ _ p p6]
    exact f5
  have p7 := glValidateProgram_programs_none pf p _ f6
  have f7 : (glValidateProgram pf p (glLinkProgram pf p
      (glAttachShader p fs (glAttachShader p vs w)))).gl.findProgram p = none := by
    rw [findProgram_of_programs _ _ p p7]
    exact f6
  have p8 := glDetachShader_programs_none p vs _ f7
  have f8 : (glDetachShader p vs (glValidateProgram pf p (glLinkProgram pf p
      (glAttachShader p fs (glAttachShader p vs w))))).gl.findProgram p = none := by
    rw [findProgram_of_programs _ _ p p8]
    exact f7
  have p9 := glDetachShader_programs_none p fs _ f8
  constructor
  · rw [p9, p8, p7, p6, p5, p4]
  · rw [glDetachShader_shaders_none p fs _ f8, glDetachShader_shaders_none p vs _ f7,
      glValidateProgram_shaders, glLinkProgram_shaders, glAttachShader_shaders,
      glAttachShader_shaders]

/-- The calls of `CreateShader` from the first attach to the last detach, when the
program is the newest program object and has nothing attached: afterwards it has
nothing attached again, and no shader object was touched. -/
theorem link_steps_program (pf : Platform) (p vs fs : GLuint) (w : World) (l v : Bool)
    (pr0 : List ProgramObject)
    (hp : w.gl.programs = { name := p, attached := [], linkStatus := l, validateStatus := v }
      :: pr0)
    (hne : (w.gl.findShader vs).isSome = true → (w.gl.findShader fs).isSome = true → fs ≠ vs)
    (hdv : ∀ S, w.gl.findShader vs = some S → S.deleteStatus = false)
    (hdf : ∀ S, w.gl.findShader fs = some S → S.deleteStatus = false) :
    (∃ l' v' : Bool,
      (glDetachShader p fs (glDetachShader p vs (glValidateProgram pf p (glLinkProgram pf p
        (glAttachShader p fs (glAttachShader p vs w)))))).gl.programs
        = { name := p, attached := [], linkStatus := l', validateStatus := v' } :: pr0)
    ∧ (glDetachShader p fs (glDetachShader p vs (glValidateProgram pf p (glLinkProgram pf p
      (glAttachShader p fs (glAttachShader p vs w)))))).gl.shaders = w.gl.shaders := by
  have s4 := glAttachShader_shaders p vs w
  have s5 : (glAttachShader p fs (glAttachShader p vs w)).gl.shaders = w.gl.shaders := by
    rw [glAttachShader_shaders, s4]
  have s7 : (glValidateProgram pf p (glLinkProgram pf p
      (glAttachShader p fs (glAttachShader p vs w)))).gl.shaders = w.gl.shaders := by
    rw [glValidateProgram_shaders, glLinkProgram_shaders, s5]
  have s8 : (glDetachShader p vs (glValidateProgram pf p (glLinkProgram pf p
      (glAttachShader p fs (glAttachShader p vs w))))).gl.shaders = w.gl.shaders := by
    rw [glDetachShader_shaders, s7]
    intro S hS
    rw [findShader_of_shaders _ _ vs s7] at hS
    exact hdv S hS
  have s9 : (glDetachShader p fs (glDetachShader p vs (glValidateProgram pf p
      (glLinkProgram pf p (glAttachShader p fs (glAttachShader p vs w)))))).gl.shaders
      = w.gl.shaders := by
    rw [glDetachShader_shaders, s8]
    intro S hS
    rw [findShader_of_shaders _ _ fs s8] at hS
    exact hdf S hS
  refine ⟨?_, s9⟩
  have p4 := glAttachShader_programs_head p vs w [] l v pr0 hp
  have p5 := glAttachShader_programs_head p fs _ _ l v pr0 p4
  rw [findShader_of_shaders _ _ fs s4] at p5
  obtain ⟨l', p6⟩ := glLinkProgram_programs_head pf p _ _ l v pr0 p5
  obtain ⟨v', p7⟩ := glValidateProgram_programs_head pf p _ _ l' v pr0 p6
  have p8 := glDetachShader_programs_head p vs _ _ l' v' pr0 p7
  rw [findShader_of_shaders _ _ vs s7] at p8
  have p9 := glDetachShader_programs_head p fs _ _ l' v' pr0 p8
  rw [findShader_of_shaders _ _ fs s8] at p9
  refine ⟨l', v', ?_⟩
  rw [p9]
  cases hbv : (w.gl.findShader vs).isSome <;> cases hbf : (w.gl.findShader fs).isSome
  · simp
  · simp
  · simp
  · have hn := hne hbv hbf
    simp [hn, hn.symm]

/-- The two `glDeleteShader` calls at the end of `CreateShader`: the stage units that
the call created (`Vs`, `Fs`: none for a handle 0, one otherwise), attached to
nothing at that point, are deleted and the older shader objects remain. -/
theorem delete_steps (vs fs : GLuint) (w : World) (sh0 Vs Fs : List ShaderObject)
    (hs : w.gl.shaders = Fs ++ Vs ++ sh0)
    (hV : (vs = 0 ∧ Vs = []) ∨ (vs ≠ 0 ∧ ∃ S : ShaderObject, Vs = [S] ∧ S.name = vs))
    (hF : (fs = 0 ∧ Fs = []) ∨ (fs ≠ 0 ∧ ∃ S : ShaderObject, Fs = [S] ∧ S.name = fs))
    (hne : vs ≠ 0 → fs ≠ 0 → fs ≠ vs)
    (hva : vs ≠ 0 → w.gl.isAttached vs = false)
    (hfa : fs ≠ 0 → w.gl.isAttached fs = false) :
    (glDeleteShader fs (glDeleteShader vs w)).gl.shaders = sh0
    ∧ (glDeleteShader fs (glDeleteShader vs w)).gl.programs = w.gl.programs := by
  refine ⟨?_, by rw [glDeleteShader_programs, glDeleteShader_programs]⟩
  have hfa' : fs ≠ 0 → (glDeleteShader vs w).gl.isAttached fs = false := by
    intro h
    rw [isAttached_of_programs _ w.gl fs (glDeleteShader_programs vs w)]
    exact hfa h
  rcases hV with ⟨hv0, hVs⟩ | ⟨hv, Sv, hVs, hSv⟩ <;>
    rcases hF with ⟨hf0, hFs⟩ | ⟨hf, Sf, hFs, hSf⟩
  · subst hv0 hf0 hVs hFs
    rw [glDeleteShader_shaders_zero, glDeleteShader_shaders_zero, hs]
    rfl
  · subst hv0 hVs hFs hSf
    have s10 : (glDeleteShader 0 w).gl.shaders = Sf :: sh0 := by
      rw [glDeleteShader_shaders_zero, hs]
      rfl
    rw [glDeleteShader_shaders_remove _ _ hf (isShader_head _ _ _ s10) (hfa' hf), s10]
    simp [removeShader]
  · subst hf0 hVs hFs hSv
    have s9 : w.gl.shaders = Sv :: sh0 := by
      rw [hs]
      rfl
    rw [glDeleteShader_shaders_zero,
      glDeleteShader_shaders_remove _ _ hv (isShader_head _ _ _ s9) (hva hv), s9]
    simp [removeShader]
  · subst hVs hFs hSv hSf
    have hn := hne hv hf
    have s9 : w.gl.shaders = Sf :: Sv :: sh0 := by
      rw [hs]
      rfl
    have i9 : w.gl.isShader Sv.name = true := by
      simp [GLContext.isShader, GLContext.findShader, s9, hn]
    have s10 : (glDeleteShader Sv.name w).gl.shaders = Sf :: sh0 := by
      rw [glDeleteShader_shaders_remove _ _ hv i9 (hva hv), s9]
      simp [removeShader, hn]
    rw [glDeleteShader_shaders_remove _ _ hf (isShader_head _ _ _ s10) (hfa' hf), s10]
    simp [removeShader]

theorem inUse_false (c : GLContext) (n : GLuint) (h : c.inUse n = false) :
    c.findShader n = none ∧ c.findProgram n = none ∧ c.isAttached n = false := by
  simp only [GLContext.inUse, Bool.or_eq_false_iff, GLContext.isShader,
    GLContext.isProgram] at h
  refine ⟨?_, ?_, h.2⟩
  · cases hs : c.findShader n with
    | none => rfl
    | some o => rw [hs] at h; simp at h
  · cases hs : c.findProgram n with
    | none => rfl
    | some o => rw [hs] at h; simp at h

/-- What `CompileShader` leaves behind when the name it is given is unused: either
it returns 0 and the shader objects are as before, or it returns a non-zero name
that was unused and whose new object, not flagged for deletion, is the newest
shader object. -/
theorem CompileShader_objects (pf : Platform) (type : GLenum) (source : Str) (w : World)
    (hf : pf.shaderName w.gl type = 0 ∨ w.gl.inUse (pf.shaderName w.gl type) = false)
    (h0 : w.gl.findShader 0 = none) :
    ∃ Vs : List ShaderObject,
      (CompileShader pf type source w).2.gl.shaders = Vs ++ w.gl.shaders
      ∧ (((CompileShader pf type source w).1 = 0 ∧ Vs = [])
        ∨ ((CompileShader pf type source w).1 ≠ 0
          ∧ w.gl.inUse (CompileShader pf type source w).1 = false
          ∧ ∃ S : ShaderObject, Vs = [S] ∧ S.name = (CompileShader pf type source w).1
              ∧ S.deleteStatus = false)) := by
  by_cases hn : pf.shaderName w.gl type = 0
  · have h := CompileShader_shaders_zero pf type source w hn h0
    exact ⟨[], h.2, Or.inl ⟨h.1, rfl⟩⟩
  · have hu : w.gl.inUse (pf.shaderName w.gl type) = false := by
      rcases hf with h | h
      · exact absurd h hn
      · exact h
    rcases CompileShader_shaders_fresh pf type source w hn (inUse_false _ _ hu).2.2 with
      h | ⟨h1, S, h2, h3, h4⟩
    · exact ⟨[], h.2, Or.inl ⟨h.1, rfl⟩⟩
    · refine ⟨[S], h4, Or.inr ?_⟩
      rw [h1]
      exact ⟨hn, hu, S, rfl, h2, h3⟩

theorem glCreateProgram_objects (pf : Platform) (w : World) :
    (glCreateProgram pf w).2.gl.shaders = w.gl.shaders
    ∧ (((glCreateProgram pf w).1 = 0 ∧ (glCreateProgram pf w).2.gl.programs = w.gl.programs)
      ∨ ((glCreateProgram pf w).1 ≠ 0
        ∧ (glCreateProgram pf w).1 = pf.programName w.gl
        ∧ (glCreateProgram pf w).2.gl.programs
            = { name := (glCreateProgram pf w).1, attached := [], linkStatus := false,
                validateStatus := false } :: w.gl.programs)) := by
  by_cases hn : pf.programName w.gl = 0
  · simp [glCreateProgram, hn, World.log]
  · simp [glCreateProgram, hn, World.log, World.setPrograms]

theorem isAttached_cons_nil (c : GLContext) (p : GLuint) (l v : Bool)
    (pr0 : List ProgramObject) (n : GLuint)
    (h : c.programs = { name := p, attached := [], linkStatus := l, validateStatus := v }
      :: pr0) :
    c.isAttached n = pr0.any (fun q => q.attached.contains n) := by
  simp [GLContext.isAttached, h]

theorem findProgram_cons_ne (c : GLContext) (P : ProgramObject) (pr0 : List ProgramObject)
    (n : GLuint) (h : c.programs = P :: pr0) (hne : P.name ≠ n) :
    c.findProgram n = pr0.find? (fun o => o.name == n) := by
  simp [GLContext.findProgram, h, hne]

theorem CreateShader_eq (pf : Platform) (vertexSource fragmentSource : Str) (w : World) :
    CreateShader pf vertexSource fragmentSource w
      = ((glCreateProgram pf w).1,
         glDeleteShader
          (CompileShader pf GL_FRAGMENT_SHADER fragmentSource
            (CompileShader pf GL_VERTEX_SHADER vertexSource (glCreateProgram pf w).2).2).1
          (glDeleteShader
            (CompileShader pf GL_VERTEX_SHADER vertexSource (glCreateProgram pf w).2).1
            (glDetachShader (glCreateProgram pf w).1
              (CompileShader pf GL_FRAGMENT_SHADER fragmentSource
                (CompileShader pf GL_VERTEX_SHADER vertexSource (glCreateProgram pf w).2).2).1
              (glDetachShader (glCreateProgram pf w).1
                (CompileShader pf GL_VERTEX_SHADER vertexSource (glCreateProgram pf w).2).1
                (glValidateProgram pf (glCreateProgram pf w).1
                  (glLinkProgram pf (glCreateProgram pf w).1
                    (glAttachShader (glCreateProgram pf w).1
                      (CompileShader pf GL_FRAGMENT_SHADER fragmentSource
                        (CompileShader pf GL_VERTEX_SHADER vertexSource
                          (glCreateProgram pf w).2).2).1
                      (glAttachShader (glCreateProgram pf w).1
                        (CompileShader pf GL_VERTEX_SHADER vertexSource
                          (glCreateProgram pf w).2).1
                        (CompileShader pf GL_FRAGMENT_SHADER fragmentSource
                          (CompileShader pf GL_VERTEX_SHADER vertexSource
                            (glCreateProgram pf w).2).2).2)))))))) :=
  rfl

/-- The calls of `CreateShader` after the two compiles, from the shape of the
objects the compiles leave behind. -/
theorem CreateShader_objects_aux (pf : Platform) (p vs fs : GLuint) (w w1 w2 w3 : World)
    (Vs Fs : List ShaderObject)
    (h0 : w.gl.inUse 0 = false)
    (s1 : w1.gl.shaders = w.gl.shaders)
    (hP : (p = 0 ∧ w1.gl.programs = w.gl.programs)
      ∨ (p ≠ 0 ∧ w1.gl.programs
          = { name := p, attached := [], linkStatus := false, validateStatus := false }
            :: w.gl.programs))
    (s2 : w2.gl.shaders = Vs ++ w1.gl.shaders) (p2 : w2.gl.programs = w1.gl.programs)
    (hV : (vs = 0 ∧ Vs = [])
      ∨ (vs ≠ 0 ∧ w1.gl.inUse vs = false
          ∧ ∃ S : ShaderObject, Vs = [S] ∧ S.name = vs ∧ S.deleteStatus = false))
    (s3 : w3.gl.shaders = Fs ++ w2.gl.shaders) (p3 : w3.gl.programs = w2.gl.programs)
    (hF : (fs = 0 ∧ Fs = [])
      ∨ (fs ≠ 0 ∧ w2.gl.inUse fs = false
          ∧ ∃ S : ShaderObject, Fs = [S] ∧ S.name = fs ∧ S.deleteStatus = false)) :
    (glDeleteShader fs (glDeleteShader vs (glDetachShader p fs (glDetachShader p vs
      (glValidateProgram pf p (glLinkProgram pf p (glAttachShader p fs
        (glAttachShader p vs w3)))))))).gl.shaders = w.gl.shaders
    ∧ ((p = 0
        ∧ (glDeleteShader fs (glDeleteShader vs (glDetachShader p fs (glDetachShader p vs
            (glValidateProgram pf p (glLinkProgram pf p (glAttachShader p fs
              (glAttachShader p vs w3)))))))).gl.programs = w.gl.programs)
      ∨ (p ≠ 0 ∧ ∃ l v : Bool,
          (glDeleteShader fs (glDeleteShader vs (glDetachShader p fs (glDetachShader p vs
            (glValidateProgram pf p (glLinkProgram pf p (glAttachShader p fs
              (glAttachShader p vs w3)))))))).gl.programs
            = { name := p, attached := [], linkStatus := l, validateStatus := v }
              :: w.gl.programs)) := by
  obtain ⟨h0s, h0p, h0a⟩ := inUse_false _ _ h0
  have hs3 : w3.gl.shaders = Fs ++ Vs ++ w.gl.shaders := by
    rw [s3, s2, s1, List.append_assoc]
  have hp3 : w3.gl.programs = w1.gl.programs := p3.trans p2
  -- name 0 is no shader object
  have f0 : w3.gl.findShader 0 = none := by
    unfold GLContext.findShader at h0s ⊢
    rw [hs3]
    rcases hV with ⟨_, hVs⟩ | ⟨hv, _, Sv, hVs, hSv, _⟩ <;>
      rcases hF with ⟨_, hFs⟩ | ⟨hf, _, Sf, hFs, hSf, _⟩ <;>
      subst hVs hFs <;>
      simp [h0s, *]
  -- the two handles differ
  have hne : vs ≠ 0 → fs ≠ 0 → fs ≠ vs := by
    intro hv hf
    rcases hV with ⟨hv0, _⟩ | ⟨_, _, Sv, hVs, hSv, _⟩
    · exact absurd hv0 hv
    · rcases hF with ⟨hf0, _⟩ | ⟨_, hu, _⟩
      · exact absurd hf0 hf
      · have hnone := (inUse_false _ _ hu).1
        intro heq
        unfold GLContext.findShader at hnone
        rw [s2, hVs] at hnone
        simp [hSv, heq] at hnone
  -- the shader objects the handles name
  have hdv : ∀ S, w3.gl.findShader vs = some S → S.deleteStatus = false := by
    intro S hS
    rcases hV with ⟨hv0, _⟩ | ⟨hv, _, Sv, hVs, hSv, hSvd⟩
    · rw [hv0, f0] at hS
      cases hS
    · unfold GLContext.findShader at hS
      rw [hs3] at hS
      rcases hF with ⟨_, hFs⟩ | ⟨hf, _, Sf, hFs, hSf, _⟩
      · subst hFs hVs
        simp [hSv] at hS
        rw [← hS]
        exact hSvd
      · subst hFs hVs
        have hn := hne hv hf
        rw [← hSf] at hn
        simp [hSv, hn] at hS
        rw [← hS]
        exact hSvd
  have hdf : ∀ S, w3.gl.findShader fs = some S → S.deleteStatus = false := by
    intro S hS
    rcases hF with ⟨hf0, _⟩ | ⟨hf, _, Sf, hFs, hSf, hSfd⟩
    · rw [hf0, f0] at hS
      cases hS
    · unfold GLContext.findShader at hS
      rw [hs3] at hS
      subst hFs
      simp [hSf] at hS
      rw [← hS]
      exact hSfd
  have hne' : (w3.gl.findShader vs).isSome = true → (w3.gl.findShader fs).isSome = true →
      fs ≠ vs := by
    intro hv hf
    apply hne
    · intro h
      rw [h, f0] at hv
      simp at hv
    · intro h
      rw [h, f0] at hf
      simp at hf
  -- shape hypotheses for the deletes
  have hV' : (vs = 0 ∧ Vs = []) ∨ (vs ≠ 0 ∧ ∃ S : ShaderObject, Vs = [S] ∧ S.name = vs) := by
    rcases hV with h | ⟨hv, _, S, h1, h2, _⟩
    · exact Or.inl h
    · exact Or.inr ⟨hv, S, h1, h2⟩
  have hF' : (fs = 0 ∧ Fs = []) ∨ (fs ≠ 0 ∧ ∃ S : ShaderObject, Fs = [S] ∧ S.name = fs) := by
    rcases hF with h | ⟨hf, _, S, h1, h2, _⟩
    · exact Or.inl h
    · exact Or.inr ⟨hf, S, h1, h2⟩
  have hva1 : vs ≠ 0 → w1.gl.isAttached vs = false := by
    intro hv
    rcases hV with ⟨hv0, _⟩ | ⟨_, hu, _⟩
    · exact absurd hv0 hv
    · exact (inUse_false _ _ hu).2.2
  have hfa1 : fs ≠ 0 → w1.gl.isAttached fs = false := by
    intro hf
    rcases hF with ⟨hf0, _⟩ | ⟨_, hu, _⟩
    · exact absurd hf0 hf
    · rw [← isAttached_of_programs _ _ fs p2]
      exact (inUse_false _ _ hu).2.2
  rcases hP with ⟨hp0, hp1⟩ | ⟨hpn, hp1⟩
  · -- the program was not created
    have fp : w3.gl.findProgram p = none := by
      rw [findProgram_of_programs _ _ p (hp3.trans hp1), hp0]
      exact h0p
    obtain ⟨hl1, hl2⟩ := link_steps_no_program pf p vs fs w3 fp
    have hd := delete_steps vs fs _ w.gl.shaders Vs Fs (hl2.trans hs3) hV' hF' hne
      (fun hv => by
        rw [isAttached_of_programs _ w1.gl vs (hl1.trans hp3)]
        exact hva1 hv)
      (fun hf => by
        rw [isAttached_of_programs _ w1.gl fs (hl1.trans hp3)]
        exact hfa1 hf)
    refine ⟨hd.1, Or.inl ⟨hp0, ?_⟩⟩
    rw [hd.2, hl1, hp3, hp1]
  · -- the program is the newest program object
    have hpr : w3.gl.programs
        = { name := p, attached := [], linkStatus := false, validateStatus := false }
          :: w.gl.programs := hp3.trans hp1
    obtain ⟨⟨l', v', hl1⟩, hl2⟩ :=
      link_steps_program pf p vs fs w3 false false w.gl.programs hpr hne' hdv hdf
    have hatt : ∀ n, w1.gl.isAttached n = false →
        (glDetachShader p fs (glDetachShader p vs (glValidateProgram pf p (glLinkProgram pf p
          (glAttachShader p fs (glAttachShader p vs w3)))))).gl.isAttached n = false := by
      intro n hn
      rw [isAttached_cons_nil _ p l' v' w.gl.programs n hl1]
      rw [isAttached_cons_nil _ p false false w.gl.programs n hp1] at hn
      exact hn
    have hd := delete_steps vs fs _ w.gl.shaders Vs Fs (hl2.trans hs3) hV' hF' hne
      (fun hv => hatt vs (hva1 hv)) (fun hf => hatt fs (hfa1 hf))
    refine ⟨hd.1, Or.inr ⟨hpn, l', v', ?_⟩⟩
    rw [hd.2, hl1]

theorem le_foldr_max (l : List Nat) (n : Nat) (h : n ∈ l) : n ≤ l.foldr max 0 := by
  induction l with
  | nil => cases h
  | cons a l ih =>
    simp only [List.foldr_cons]
    rcases List.mem_cons.mp h with rfl | h'
    · exact Nat.le_max_left _ _
    · exact Nat.le_trans (ih h') (Nat.le_max_right _ _)

theorem mem_allNames_of_inUse (c : GLContext) (n : GLuint) (h : c.inUse n = true) :
    n ∈ c.allNames := by
  simp only [GLContext.inUse, Bool.or_eq_true, GLContext.isShader, GLContext.isProgram,
    GLContext.findShader, GLContext.findProgram, List.find?_isSome, GLContext.isAttached,
    List.any_eq_true, beq_iff_eq] at h
  simp only [GLContext.allNames, List.mem_append, List.mem_map, List.mem_flatten]
  rcases h with (⟨o, ho, hn⟩ | ⟨o, ho, hn⟩) | ⟨q, hq, hn⟩
  · exact Or.inl (Or.inl ⟨o, ho, hn⟩)
  · exact Or.inl (Or.inr ⟨o, ho, hn⟩)
  · exact Or.inr ⟨q.attached, ⟨q, hq, rfl⟩, by simpa using hn⟩

theorem examplePlatform_fresh : examplePlatform.fresh := by
  have key : ∀ c : GLContext, c.inUse (1 + c.allNames.foldr max 0) = false := by
    intro c
    cases h : c.inUse (1 + c.allNames.foldr max 0) with
    | false => rfl
    | true =>
      have := le_foldr_max _ _ (mem_allNames_of_inUse c _ h)
      omega
  exact ⟨fun c _ => Or.inr (key c), fun c => Or.inr (key c)⟩

/-! ## The stage compiler and the program linker: claims -/

/-- C6: when `glCreateShader` assigned a non-zero handle, the compile-status flag
that `CompileShader` queries is the verdict of the compiler on the submitted
source, `CompileShader` returns 0 exactly when that flag is `GL_FALSE`, and otherwise
it returns the handle that `glCreateShader` assigned. -/
theorem CompileShader_zero_iff_status_false (pf : Platform) (type : GLenum) (source : Str)
    (w : World) (hid : (glCreateShader pf type w).1 ≠ 0) :
    (glGetShaderiv (glCreateShader pf type w).1 GL_COMPILE_STATUS
        (glCompileShader pf (glCreateShader pf type w).1
          (glShaderSource (glCreateShader pf type w).1 (cstr source)
            (glCreateShader pf type w).2))).1
      = some (if (pf.compile type (cstr source)).1 then GL_TRUE else GL_FALSE)
    ∧ ((CompileShader pf type source w).1 = 0 ↔
        (glGetShaderiv (glCreateShader pf type w).1 GL_COMPILE_STATUS
          (glCompileShader pf (glCreateShader pf type w).1
            (glShaderSource (glCreateShader pf type w).1 (cstr source)
              (glCreateShader pf type w).2))).1 = some GL_FALSE)
    ∧ ((glGetShaderiv (glCreateShader pf type w).1 GL_COMPILE_STATUS
          (glCompileShader pf (glCreateShader pf type w).1
            (glShaderSource (glCreateShader pf type w).1 (cstr source)
              (glCreateShader pf type w).2))).1 ≠ some GL_FALSE →
        (CompileShader pf type source w).1 = (glCreateShader pf type w).1) := by
  have hq := CompileShader_status_query pf type source w hid
  have hr : (CompileShader pf type source w).1
      = if (pf.compile type (cstr source)).1 then (glCreateShader pf type w).1 else 0 := by
    unfold CompileShader
    simp only []
    rw [hq]
    cases (pf.compile type (cstr source)).1 <;> simp [GL_TRUE, GL_FALSE]
  rw [hq, hr]
  cases (pf.compile type (cstr source)).1 <;> simp [GL_TRUE, GL_FALSE, hid]

/-- Witness of C6: the example platform assigns the handle 1 in the empty world. -/
theorem CompileShader_zero_iff_status_false_witness :
    (glCreateShader examplePlatform GL_VERTEX_SHADER emptyWorld).1 ≠ 0
    ∧ ((CompileShader examplePlatform GL_VERTEX_SHADER "bad".toList emptyWorld).1 = 0 ↔
        (glGetShaderiv (glCreateShader examplePlatform GL_VERTEX_SHADER emptyWorld).1
          GL_COMPILE_STATUS
          (glCompileShader examplePlatform
            (glCreateShader examplePlatform GL_VERTEX_SHADER emptyWorld).1
            (glShaderSource (glCreateShader examplePlatform GL_VERTEX_SHADER emptyWorld).1
              (cstr "bad".toList)
              (glCreateShader examplePlatform GL_VERTEX_SHADER emptyWorld).2))).1
          = some GL_FALSE) :=
  ⟨by decide,
    (CompileShader_zero_iff_status_false examplePlatform GL_VERTEX_SHADER "bad".toList
      emptyWorld (by decide)).2.1⟩

/-- C10 (as stated, refuted): on the example platform with a fragment source that
does not compile, `CompileShader` returns 0 for the fragment stage and
`CreateShader` issues `glAttachShader(1, 0)`. -/
theorem CreateShader_attaches_zero_handle :
    (CompileShader examplePlatform GL_FRAGMENT_SHADER "bad".toList
        (CompileShader examplePlatform GL_VERTEX_SHADER "ok".toList
          (glCreateProgram examplePlatform emptyWorld).2).2).1 = 0
    ∧ Event.glAttachShader 1 0 ∈
        (CreateShader examplePlatform "ok".toList "bad".toList emptyWorld).2.trace := by
  decide

/-- C10 (amended): `CreateShader` issues exactly two `glAttachShader` calls, the
first with the value `CompileShader` returned for the vertex stage and the second
with the value it returned for the fragment stage, whatever those values are; a
returned 0 is passed to `glAttachShader` like any other handle. -/
theorem CreateShader_attach_calls (pf : Platform) (vertexSource fragmentSource : Str)
    (w : World) :
    attachCallsOf (CreateShader pf vertexSource fragmentSource w).2.trace
      = attachCallsOf w.trace ++
        [((glCreateProgram pf w).1,
          (CompileShader pf GL_VERTEX_SHADER vertexSource (glCreateProgram pf w).2).1),
         ((glCreateProgram pf w).1,
          (CompileShader pf GL_FRAGMENT_SHADER fragmentSource
            (CompileShader pf GL_VERTEX_SHADER vertexSource (glCreateProgram pf w).2).2).1)] := by
  unfold CreateShader
  simp only [glDeleteShader_attachCalls, glDetachShader_attachCalls,
    glValidateProgram_attachCalls, glLinkProgram_attachCalls, glAttachShader_attachCalls,
    CompileShader_attachCalls, glCreateProgram_attachCalls, List.append_assoc,
    List.singleton_append]

/-- C7: on a platform that hands out unused names, in a context where 0 names no
object, `CreateShader` leaves the live shader objects exactly as they were before
the call, whatever the compiler says about either stage; the program it returns,
when `glCreateProgram` succeeded, is the one new object and has nothing attached,
and the older programs are untouched. -/
theorem CreateShader_leaves_no_stage_unit (pf : Platform) (vertexSource fragmentSource : Str)
    (w : World) (hpf : pf.fresh) (h0 : w.gl.inUse 0 = false) :
    (CreateShader pf vertexSource fragmentSource w).2.gl.shaders = w.gl.shaders
    ∧ (((CreateShader pf vertexSource fragmentSource w).1 = 0
        ∧ (CreateShader pf vertexSource fragmentSource w).2.gl.programs = w.gl.programs)
      ∨ ((CreateShader pf vertexSource fragmentSource w).1 ≠ 0
        ∧ ∃ l v : Bool, (CreateShader pf vertexSource fragmentSource w).2.gl.programs
            = { name := (CreateShader pf vertexSource fragmentSource w).1, attached := [],
                linkStatus := l, validateStatus := v } :: w.gl.programs)) := by
  obtain ⟨h0s, h0p, h0a⟩ := inUse_false _ _ h0
  obtain ⟨s1, hP⟩ := glCreateProgram_objects pf w
  have f1 : (glCreateProgram pf w).2.gl.findShader 0 = none :=
    (findShader_of_shaders _ _ 0 s1).trans h0s
  obtain ⟨Vs, s2, hV⟩ := CompileShader_objects pf GL_VERTEX_SHADER vertexSource
    (glCreateProgram pf w).2 (hpf.1 _ _) f1
  have p2 := CompileShader_programs pf GL_VERTEX_SHADER vertexSource (glCreateProgram pf w).2
  have f2 : (CompileShader pf GL_VERTEX_SHADER vertexSource
      (glCreateProgram pf w).2).2.gl.findShader 0 = none := by
    unfold GLContext.findShader at f1 ⊢
    rw [s2]
    rcases hV with ⟨_, hVs⟩ | ⟨hv, _, S, hVs, hS, _⟩
    · subst hVs
      simpa using f1
    · subst hVs
      simp [hS, hv, f1]
  obtain ⟨Fs, s3, hF⟩ := CompileShader_objects pf GL_FRAGMENT_SHADER fragmentSource
    (CompileShader pf GL_VERTEX_SHADER vertexSource (glCreateProgram pf w).2).2 (hpf.1 _ _) f2
  have p3 := CompileShader_programs pf GL_FRAGMENT_SHADER fragmentSource
    (CompileShader pf GL_VERTEX_SHADER vertexSource (glCreateProgram pf w).2).2
  have hP' : ((glCreateProgram pf w).1 = 0
        ∧ (glCreateProgram pf w).2.gl.programs = w.gl.programs)
      ∨ ((glCreateProgram pf w).1 ≠ 0 ∧ (glCreateProgram pf w).2.gl.programs
          = { name := (glCreateProgram pf w).1, attached := [], linkStatus := false,
              validateStatus := false } :: w.gl.programs) := by
    rcases hP with h | ⟨h1, _, h3⟩
    · exact Or.inl h
    · exact Or.inr ⟨h1, h3⟩
  rw [CreateShader_eq]
  exact CreateShader_objects_aux pf _ _ _ w _ _ _ Vs Fs h0 s1 hP' s2 p2 hV s3 p3 hF

/-- Witness of C7: the example platform in the empty world, with a vertex source
that compiles and a fragment source that does not. -/
theorem CreateShader_leaves_no_stage_unit_witness :
    examplePlatform.fresh ∧ emptyWorld.gl.inUse 0 = false
    ∧ (CreateShader examplePlatform "ok".toList "bad".toList emptyWorld).2.gl.shaders
        = emptyWorld.gl.shaders :=
  ⟨examplePlatform_fresh, by decide,
    (CreateShader_leaves_no_stage_unit examplePlatform "ok".toList "bad".toList emptyWorld
      examplePlatform_fresh (by decide)).1⟩

/-! ## The error-capture layer: order, value and idempotence -/

/-- The check and the halt of `GLCall` after the wrapped call: one poll that finds
nothing, or one poll that finds a code, its record and the signal. -/
theorem GLCall_check_events {α : Type} (x : World → α × World) (xText file : Str)
    (line : Int) (w : World) :
    ∃ check : List Event,
      (GLCall x xText file line w).trace = (x (ClearError w)).2.trace ++ check
      ∧ (check = [Event.glGetError GL_NO_ERROR]
        ∨ ∃ c : GLError, check = [Event.glGetError c.val,
            Event.cerr (diagnosticRecord c.val xText file line), Event.raise SIGTRAP]) := by
  cases hq : (x (ClearError w)).2.gl.errors with
  | nil =>
    refine ⟨[Event.glGetError GL_NO_ERROR], ?_, Or.inl rfl⟩
    have hx : (x (ClearError w)).2.gl.errors = (ClearError w).gl.errors := by
      rw [hq, ClearError_errors]
    have h : GLCall x xText file line w
        = (x (ClearError w)).2.log (Event.glGetError GL_NO_ERROR) := by
      unfold GLCall LogCall
      simp only [glGetError_nil _ hq]
      simp [ASSERT, GL_NO_ERROR]
    rw [h]
    rfl
  | cons c rest =>
    refine ⟨_, ?_, Or.inr ⟨c, rfl⟩⟩
    rw [GLCall_pending x xText file line w c rest hq]

/-- C15: whatever is pending before `GLCall(X)`, the events of the wrapped call
`ev` occur once in the trace, directly after the polls of the drain (one for each
pending code and the final one that finds nothing) and directly before the first
poll of the check; the wrapped call starts on an empty queue. -/
theorem GLCall_invokes_once_between_drain_and_check {α : Type} (x : World → α × World)
    (xText file : Str) (line : Int) (w : World) (ev : List Event)
    (hx : (x (ClearError w)).2.trace = (ClearError w).trace ++ ev) :
    (ClearError w).gl.errors = []
    ∧ ∃ check : List Event,
        (GLCall x xText file line w).trace
          = w.trace ++ (w.gl.errors.map (fun e => Event.glGetError e.val)
              ++ [Event.glGetError GL_NO_ERROR]) ++ ev ++ check
        ∧ (check = [Event.glGetError GL_NO_ERROR]
          ∨ ∃ c : GLError, check = [Event.glGetError c.val,
              Event.cerr (diagnosticRecord c.val xText file line), Event.raise SIGTRAP]) := by
  refine ⟨ClearError_errors w, ?_⟩
  obtain ⟨check, h1, h2⟩ := GLCall_check_events x xText file line w
  refine ⟨check, ?_, h2⟩
  rw [h1, hx, ClearError_eq w.gl.errors w rfl]
  simp

/-- Witness of C15: one code is pending and the wrapped call is `glAttachShader(1, 2)`
on a context without objects. -/
theorem GLCall_invokes_once_between_drain_and_check_witness :
    ∃ check : List Event,
      (GLCall (fun v => ((), glAttachShader 1 2 v)) "glAttachShader(1, 2)".toList
          "main.cpp".toList 149 (emptyWorld.fail invalidEnum)).trace
        = (emptyWorld.fail invalidEnum).trace
            ++ ((emptyWorld.fail invalidEnum).gl.errors.map (fun e => Event.glGetError e.val)
              ++ [Event.glGetError GL_NO_ERROR])
            ++ [Event.glAttachShader 1 2] ++ check
      ∧ (check = [Event.glGetError GL_NO_ERROR]
        ∨ ∃ c : GLError, check = [Event.glGetError c.val,
            Event.cerr (diagnosticRecord c.val "glAttachShader(1, 2)".toList
              "main.cpp".toList 149), Event.raise SIGTRAP]) :=
  (GLCall_invokes_once_between_drain_and_check (fun v => ((), glAttachShader 1 2 v))
    "glAttachShader(1, 2)".toList "main.cpp".toList 149 (emptyWorld.fail invalidEnum)
    [Event.glAttachShader 1 2] (by
      rw [ClearError_eq [invalidEnum] (emptyWorld.fail invalidEnum) rfl]
      rfl)).2

/-- C16 (as stated, refuted): no function of what `GLCall(X)` leaves behind gives
the value of `X` for every `X`: two wrapped calls that produce different values
and act alike leave the same world. -/
theorem GLCall_value_not_obtained :
    ¬ ∃ g : World → Int, ∀ (x : World → Int × World) (w : World),
        g (GLCall x "glGetUniformLocation(shader, name)".toList "main.cpp".toList 256 w)
          = (x (ClearError w)).1 := by
  rintro ⟨g, hg⟩
  have h5 := hg (fun v => (5, v)) emptyWorld
  have h7 := hg (fun v => (7, v)) emptyWorld
  have he : GLCall (fun v : World => ((5 : Int), v))
      "glGetUniformLocation(shader, name)".toList "main.cpp".toList 256 emptyWorld
      = GLCall (fun v : World => ((7 : Int), v))
      "glGetUniformLocation(shader, name)".toList "main.cpp".toList 256 emptyWorld := rfl
  rw [he, h7] at h5
  simp at h5

/-- C16 (amended): `GLCall(X)` is a statement that evaluates `X` for its effect only:
wrapping `X` is the same as wrapping `X` with its value thrown away, so the value
that `X` produces does not reach the caller. -/
theorem GLCall_discards_value {α : Type} (x : World → α × World) (xText file : Str)
    (line : Int) (w : World) :
    GLCall x xText file line w = GLCall (fun v => ((), (x v).2)) xText file line w := by
  rfl

/-- C17: after `ClearError` the queue is empty, whatever finite queue it started
from; a second `ClearError` directly after it polls once, gets `GL_NO_ERROR`,
discards no code and leaves the context as it was, the queue still empty. -/
theorem ClearError_idempotent (w : World) :
    (ClearError w).gl.errors = []
    ∧ ClearError (ClearError w) = (ClearError w).log (Event.glGetError GL_NO_ERROR)
    ∧ (ClearError (ClearError w)).gl = (ClearError w).gl
    ∧ (ClearError (ClearError w)).gl.errors = [] := by
  have h1 := ClearError_errors w
  have h2 := ClearError_nil (ClearError w) h1
  refine ⟨h1, h2, ?_, ClearError_errors _⟩
  rw [h2]
  rfl

/-! ## The program linker: the returned handle -/

/-- C19: `CreateShader` returns the handle that `glCreateProgram` returned, which
is the name the implementation chose in the context before the call; the value is
the same for every compiler, linker and validation verdict. -/
theorem CreateShader_returns_program (pf : Platform) (vertexSource fragmentSource : Str)
    (w : World) (compile' : GLenum → Str → Bool × Str) (link' validate' : GLContext → GLuint → Bool) :
    (CreateShader pf vertexSource fragmentSource w).1 = (glCreateProgram pf w).1
    ∧ (CreateShader pf vertexSource fragmentSource w).1 = pf.programName w.gl
    ∧ (CreateShader { pf with compile := compile', link := link', validate := validate' }
        vertexSource fragmentSource w).1
        = (CreateShader pf vertexSource fragmentSource w).1 := by
  have h : ∀ q : Platform, (glCreateProgram q w).1 = q.programName w.gl := by
    intro q
    unfold glCreateProgram
    simp only []
    split
    · rename_i h0
      exact h0.symm
    · rfl
  refine ⟨rfl, ?_, ?_⟩
  · rw [CreateShader_eq]
    exact h pf
  · rw [CreateShader_eq, CreateShader_eq]
    simp only [h]

/-! ## The splitter: which lines are directives -/

theorem isPrefixOf_iff_append (needle hay : Str) :
    needle.isPrefixOf hay = true ↔ ∃ b : Str, hay = needle ++ b := by
  rw [List.isPrefixOf_iff_prefix]
  constructor
  · rintro ⟨t, ht⟩
    exact ⟨t, ht.symm⟩
  · rintro ⟨t, ht⟩
    exact ⟨t, ht.symm⟩

/-- The call `hay.find(needle)` finds something exactly when `needle` occurs in `hay`. -/
theorem find_ne_none_iff (hay needle : Str) :
    find hay needle ≠ none ↔ occursIn needle hay := by
  induction hay with
  | nil =>
    unfold find occursIn
    by_cases hp : needle.isPrefixOf [] = true
    · simp only [hp, if_true]
      obtain ⟨b, hb⟩ := (isPrefixOf_iff_append needle []).mp hp
      exact ⟨fun _ => ⟨[], b, by simpa using hb⟩, fun _ => by simp⟩
    · have hp' : needle.isPrefixOf [] = false := Bool.eq_false_iff.mpr hp
      simp only [hp', Bool.false_eq_true, if_false]
      constructor
      · intro h
        exact absurd rfl h
      · rintro ⟨a, b, hab⟩
        exfalso
        apply hp
        apply (isPrefixOf_iff_append needle []).mpr
        have : a = [] := by
          cases a with
          | nil => rfl
          | cons x xs => simp at hab
        subst this
        exact ⟨b, by simpa using hab⟩
  | cons c rest ih =>
    unfold find
    by_cases hp : needle.isPrefixOf (c :: rest) = true
    · simp only [hp, if_true]
      obtain ⟨b, hb⟩ := (isPrefixOf_iff_append needle (c :: rest)).mp hp
      exact ⟨fun _ => ⟨[], b, by simpa using hb⟩, fun _ => by simp⟩
    · have hp' : needle.isPrefixOf (c :: rest) = false := Bool.eq_false_iff.mpr hp
      simp only [hp', Bool.false_eq_true, if_false]
      have hm : (Option.map (fun x => x + 1) (find rest needle) ≠ none)
          ↔ find rest needle ≠ none := by
        cases find rest needle <;> simp
      rw [hm, ih]
      constructor
      · rintro ⟨a, b, hab⟩
        exact ⟨c :: a, b, by simp [hab]⟩
      · rintro ⟨a, b, hab⟩
        cases a with
        | nil =>
          exfalso
          apply hp
          exact (isPrefixOf_iff_append needle (c :: rest)).mpr ⟨b, by simpa using hab⟩
        | cons x xs =>
          simp only [List.cons_append, List.cons.injEq] at hab
          exact ⟨xs, b, hab.2⟩

theorem find_eq_none_iff (hay needle : Str) :
    find hay needle = none ↔ ¬ occursIn needle hay := by
  rw [← find_ne_none_iff]
  simp

/-- C12 (as stated, refuted): the line `// #shader vertex` does not begin with
`#shader`, yet in the fragment section it is taken as a directive: it switches the
active section to vertex and is appended to no buffer. -/
theorem parseLine_directive_inside_line :
    "#shader".toList.isPrefixOf "// #shader vertex".toList = false
    ∧ parseLine { type := ShaderType.FRAGMENT, ss0 := [], ss1 := [], cerr := [] }
        "// #shader vertex".toList
      = some { type := ShaderType.VERTEX, ss0 := [], ss1 := [], cerr := [] } := by
  decide

/-- C12 (amended): a line is treated as a directive exactly when `#shader` occurs
anywhere in it: such a line is appended to no buffer, also when `#shader` comes
after leading text; a line in which `#shader` does not occur is appended, with a
newline, to the buffer of the active section. -/
theorem parseLine_directive_iff_occurs (st : ParseState) (line : Str) :
    (occursIn "#shader".toList line →
      ∃ st' : ParseState, parseLine st line = some st' ∧ st'.ss0 = st.ss0 ∧ st'.ss1 = st.ss1)
    ∧ (¬ occursIn "#shader".toList line →
        parseLine st line = ssAppend st st.type.toInt line
        ∧ (st.type = ShaderType.VERTEX →
            parseLine st line = some { st with ss0 := st.ss0 ++ line ++ ['\n'] })
        ∧ (st.type = ShaderType.FRAGMENT →
            parseLine st line = some { st with ss1 := st.ss1 ++ line ++ ['\n'] })) := by
  constructor
  · intro h
    have hd := (find_ne_none_iff line "#shader".toList).mpr h
    unfold parseLine
    rw [if_pos hd]
    split_ifs
    · exact ⟨_, rfl, rfl, rfl⟩
    · exact ⟨_, rfl, rfl, rfl⟩
    · exact ⟨_, rfl, rfl, rfl⟩
  · intro h
    have hd := (find_eq_none_iff line "#shader".toList).mpr h
    have hp : parseLine st line = ssAppend st st.type.toInt line := by
      unfold parseLine
      rw [hd]
      simp
    refine ⟨hp, ?_, ?_⟩
    · intro ht
      rw [hp, ht]
      simp [ssAppend, ShaderType.toInt, ht]
    · intro ht
      rw [hp, ht]
      simp [ssAppend, ShaderType.toInt, ht]

/-- Witness of C12 (amended): the line `// #shader vertex` in the fragment section. -/
theorem parseLine_directive_iff_occurs_witness :
    ∃ st' : ParseState,
      parseLine { type := ShaderType.FRAGMENT, ss0 := [], ss1 := [], cerr := [] }
        "// #shader vertex".toList = some st'
      ∧ st'.ss0 = [] ∧ st'.ss1 = [] :=
  (parseLine_directive_iff_occurs
    { type := ShaderType.FRAGMENT, ss0 := [], ss1 := [], cerr := [] }
    "// #shader vertex".toList).1 ⟨"// ".toList, " vertex".toList, by decide⟩

/-- C13 (as stated, refuted): in the line `#shader fragment vertex` the name
`fragment` occurs first (position 8, `vertex` at position 17), and the line
selects the vertex section. -/
theorem parseLine_fragment_vertex_selects_vertex :
    find "#shader fragment vertex".toList "fragment".toList = some 8
    ∧ find "#shader fragment vertex".toList "vertex".toList = some 17
    ∧ parseLine { type := ShaderType.NONE, ss0 := [], ss1 := [], cerr := [] }
        "#shader fragment vertex".toList
      = some { type := ShaderType.VERTEX, ss0 := [], ss1 := [], cerr := [] } := by
  decide

/-- C13 (amended): on a directive line in which both `vertex` and `fragment` occur,
vertex becomes the active section wherever the two names stand in the line: the
test for `vertex` is made first. -/
theorem parseLine_both_names_selects_vertex (st : ParseState) (line : Str)
    (hd : occursIn "#shader".toList line) (hv : occursIn "vertex".toList line)
    (_hf : occursIn "fragment".toList line) :
    parseLine st line = some { st with type := ShaderType.VERTEX } := by
  have h1 := (find_ne_none_iff line "#shader".toList).mpr hd
  have h2 := (find_ne_none_iff line "vertex".toList).mpr hv
  unfold parseLine
  rw [if_pos h1, if_pos h2]

/-- Witness of C13 (amended): the line `#shader fragment vertex`. -/
theorem parseLine_both_names_selects_vertex_witness :
    parseLine { type := ShaderType.NONE, ss0 := [], ss1 := [], cerr := [] }
        "#shader fragment vertex".toList
      = some { type := ShaderType.VERTEX, ss0 := [], ss1 := [], cerr := [] } :=
  parseLine_both_names_selects_vertex
    { type := ShaderType.NONE, ss0 := [], ss1 := [], cerr := [] }
    "#shader fragment vertex".toList
    ⟨[], " fragment vertex".toList, by decide⟩
    ⟨"#shader fragment ".toList, [], by decide⟩
    ⟨"#shader ".toList, " vertex".toList, by decide⟩

/-! ## The splitter: what it writes to the error channel -/

theorem getlines_nil : getlines [] = [] := by
  rw [getlines]
  simp [getline]

theorem getlines_step (input line rest : Str) (h : getline input = some (line, rest)) :
    getlines input = line :: getlines rest := by
  rw [getlines]
  split
  · rename_i h'
    rw [h] at h'
    cases h'
  · rename_i l r h'
    rw [h] at h'
    cases h'
    rfl

theorem parseLoop_eq_parseLines_aux (n : Nat) :
    ∀ (input : Str), input.length ≤ n → ∀ st : ParseState,
      parseLoop st input = parseLines st (getlines input) := by
  induction n with
  | zero =>
    intro input hlen st
    have : input = [] := List.length_eq_zero.mp (Nat.le_zero.mp hlen)
    subst this
    rw [parseLoop_nil, getlines_nil]
    rfl
  | succ n ih =>
    intro input hlen st
    cases hg : getline input with
    | none =>
      cases input with
      | nil =>
        rw [parseLoop_nil, getlines_nil]
        rfl
      | cons c cs => simp [getline] at hg
    | some p =>
      obtain ⟨line, rest⟩ := p
      have hlt := getline_length input line rest hg
      rw [parseLoop_step st input line rest hg, getlines_step input line rest hg]
      simp only [parseLines]
      cases parseLine st line with
      | none => rfl
      | some st' =>
        simp only [Option.some_bind]
        exact ih rest (by omega) st'

/-- The loop of `ParseShaders` is the loop body run over the lines of the text. -/
theorem parseLoop_eq_parseLines (st : ParseState) (input : Str) :
    parseLoop st input = parseLines st (getlines input) :=
  parseLoop_eq_parseLines_aux input.length input (Nat.le_refl _) st

theorem parseLine_unrecognised (st : ParseState) (line : Str)
    (h : isUnrecognised line = true) :
    parseLine st line =
      some { st with cerr := st.cerr ++ ["Unrecognised shader type.\n".toList] } := by
  simp only [isUnrecognised, isDirective, Bool.and_eq_true, decide_eq_true_eq] at h
  obtain ⟨⟨h1, h2⟩, h3⟩ := h
  unfold parseLine
  rw [if_pos h1, h2, h3]
  simp

theorem parseLine_cerr_other (st st' : ParseState) (line : Str)
    (h : isUnrecognised line = false) (hp : parseLine st line = some st') :
    st'.cerr = st.cerr := by
  unfold parseLine at hp
  by_cases h1 : find line "#shader".toList ≠ none
  · rw [if_pos h1] at hp
    by_cases h2 : find line "vertex".toList ≠ none
    · rw [if_pos h2] at hp
      cases hp
      rfl
    · by_cases h3 : find line "fragment".toList ≠ none
      · rw [if_neg h2, if_pos h3] at hp
        cases hp
        rfl
      · exfalso
        have : isUnrecognised line = true := by
          simp only [isUnrecognised, isDirective, Bool.and_eq_true, decide_eq_true_eq]
          exact ⟨⟨h1, not_not.mp h2⟩, not_not.mp h3⟩
        rw [h] at this
        cases this
  · rw [if_neg h1] at hp
    unfold ssAppend at hp
    split_ifs at hp <;> cases hp <;> rfl

theorem parseLines_cerr (ls : List Str) :
    ∀ st st' : ParseState, parseLines st ls = some st' →
      st'.cerr = st.cerr ++ List.replicate (ls.countP isUnrecognised)
        "Unrecognised shader type.\n".toList := by
  induction ls with
  | nil =>
    intro st st' h
    simp only [parseLines, Option.some.injEq] at h
    subst h
    simp
  | cons l ls ih =>
    intro st st' h
    simp only [parseLines] at h
    cases hp : parseLine st l with
    | none => rw [hp] at h; simp at h
    | some st1 =>
      rw [hp] at h
      simp only [Option.some_bind] at h
      have h2 := ih st1 st' h
      cases hu : isUnrecognised l with
      | true =>
        rw [parseLine_unrecognised st l hu] at hp
        cases hp
        rw [h2, List.countP_cons, hu]
        simp [List.replicate_succ, Nat.add_comm]
      | false =>
        have h1 := parseLine_cerr_other st st1 l hu hp
        rw [h2, h1, List.countP_cons, hu]
        simp

theorem parseLine_total (st : ParseState) (line : Str) (h : st.type ≠ ShaderType.NONE) :
    ∃ st' : ParseState, parseLine st line = some st' ∧ st'.type ≠ ShaderType.NONE := by
  unfold parseLine
  split_ifs
  · exact ⟨_, rfl, by simp⟩
  · exact ⟨_, rfl, by simp⟩
  · exact ⟨_, rfl, h⟩
  · cases ht : st.type with
    | NONE => exact absurd ht h
    | VERTEX => exact ⟨_, by simp [ssAppend, ShaderType.toInt]; rfl, by simp [ht]⟩
    | FRAGMENT => exact ⟨_, by simp [ssAppend, ShaderType.toInt]; rfl, by simp [ht]⟩

theorem parseLines_total (ls : List Str) :
    ∀ st : ParseState, st.type ≠ ShaderType.NONE →
      ∃ st' : ParseState, parseLines st ls = some st' := by
  induction ls with
  | nil =>
    intro st _
    exact ⟨st, rfl⟩
  | cons l ls ih =>
    intro st h
    obtain ⟨st1, h1, h2⟩ := parseLine_total st l h
    obtain ⟨st2, h3⟩ := ih st1 h2
    exact ⟨st2, by simp [parseLines, h1, h3]⟩

/-- C14: a directive line that names neither `vertex` nor `fragment` makes the
splitter write the one diagnostic `Unrecognised shader type.` and any other line
that it processes makes it write nothing; so what `ParseShaders` has written when
it returns is that diagnostic once for each such line of the document, and it does
return, with exactly that output, on every document whose first line is a
recognised directive. -/
theorem ParseShaders_diagnostics (input : Str) :
    (∀ (st : ParseState) (line : Str), isUnrecognised line = true →
        parseLine st line =
          some { st with cerr := st.cerr ++ ["Unrecognised shader type.\n".toList] })
    ∧ (∀ (st st' : ParseState) (line : Str), isUnrecognised line = false →
        parseLine st line = some st' → st'.cerr = st.cerr)
    ∧ (∀ r : ShaderProgramSource × List Str, ParseShaders input = some r →
        r.2 = List.replicate ((getlines input).countP isUnrecognised)
          "Unrecognised shader type.\n".toList)
    ∧ (∀ (l : Str) (ls : List Str), getlines input = l :: ls → isDirective l = true →
        isUnrecognised l = false →
        ∃ src : ShaderProgramSource, ParseShaders input =
          some (src, List.replicate ((getlines input).countP isUnrecognised)
            "Unrecognised shader type.\n".toList)) := by
  have h3 : ∀ r : ShaderProgramSource × List Str, ParseShaders input = some r →
      r.2 = List.replicate ((getlines input).countP isUnrecognised)
        "Unrecognised shader type.\n".toList := by
    intro r hr
    unfold ParseShaders at hr
    rw [parseLoop_eq_parseLines] at hr
    cases hp : parseLines { type := ShaderType.NONE, ss0 := [], ss1 := [], cerr := [] }
        (getlines input) with
    | none => rw [hp] at hr; simp at hr
    | some st' =>
      rw [hp] at hr
      simp only [Option.some.injEq] at hr
      subst hr
      have := parseLines_cerr _ _ _ hp
      simpa using this
  refine ⟨parseLine_unrecognised, parseLine_cerr_other, h3, ?_⟩
  intro l ls hl hd hu
  have hex : ∃ r, ParseShaders input = some r := by
    unfold ParseShaders
    rw [parseLoop_eq_parseLines, hl]
    simp only [parseLines]
    have h1 : find l "#shader".toList ≠ none := by
      simpa [isDirective] using hd
    have hrec : ∃ st1 : ParseState,
        parseLine { type := ShaderType.NONE, ss0 := [], ss1 := [], cerr := [] } l = some st1
        ∧ st1.type ≠ ShaderType.NONE := by
      unfold parseLine
      rw [if_pos h1]
      by_cases h2 : find l "vertex".toList ≠ none
      · rw [if_pos h2]
        exact ⟨_, rfl, by simp⟩
      · by_cases h3' : find l "fragment".toList ≠ none
        · rw [if_neg h2, if_pos h3']
          exact ⟨_, rfl, by simp⟩
        · exfalso
          have : isUnrecognised l = true := by
            simp only [isUnrecognised, isDirective, Bool.and_eq_true, decide_eq_true_eq]
            exact ⟨⟨h1, not_not.mp h2⟩, not_not.mp h3'⟩
          rw [hu] at this
          cases this
    obtain ⟨st1, hs1, ht1⟩ := hrec
    obtain ⟨st2, hs2⟩ := parseLines_total ls st1 ht1
    rw [hs1]
    simp only [Option.some_bind, hs2]
    exact ⟨_, rfl⟩
  obtain ⟨r, hr⟩ := hex
  refine ⟨r.1, ?_⟩
  rw [hr, ← h3 r hr]

/-- Witness of C14: the line `#shader geometry` in the vertex section. -/
theorem ParseShaders_diagnostics_witness :
    isUnrecognised "#shader geometry".toList = true
    ∧ parseLine { type := ShaderType.VERTEX, ss0 := [], ss1 := [], cerr := [] }
        "#shader geometry".toList
      = some { type := ShaderType.VERTEX, ss0 := [], ss1 := [],
               cerr := [] ++ ["Unrecognised shader type.\n".toList] } :=
  ⟨by decide,
    (ParseShaders_diagnostics []).1
      { type := ShaderType.VERTEX, ss0 := [], ss1 := [], cerr := [] }
      "#shader geometry".toList (by decide)⟩

/-! ## The event that each call adds to the trace -/

theorem glCreateShader_trace (pf : Platform) (t : GLenum) (w : World) :
    (glCreateShader pf t w).2.trace
      = w.trace ++ [Event.glCreateShader t (pf.shaderName w.gl t)] := by
  unfold glCreateShader
  simp only []
  split <;> simp [World.log, World.setShaders]

theorem glShaderSource_trace (n : GLuint) (src : Str) (w : World) :
    (glShaderSource n src w).trace = w.trace ++ [Event.glShaderSource n src] := by
  unfold glShaderSource
  simp only []
  split <;> simp [World.log, World.setShaders, World.fail]

theorem glCompileShader_trace (pf : Platform) (n : GLuint) (w : World) :
    (glCompileShader pf n w).trace = w.trace ++ [Event.glCompileShader n] := by
  unfold glCompileShader
  simp only []
  split <;> simp [World.log, World.setShaders, World.fail]

theorem glGetShaderiv_trace (n : GLuint) (pname : GLenum) (w : World) :
    (glGetShaderiv n pname w).2.trace = w.trace ++ [Event.glGetShaderiv n pname] := by
  unfold glGetShaderiv
  simp only []
  split
  · simp [World.log, World.fail]
  · split_ifs <;> simp [World.log, World.fail]

theorem glGetShaderInfoLog_trace (n : GLuint) (b : Int) (w : World) :
    (glGetShaderInfoLog n b w).2.trace = w.trace ++ [Event.glGetShaderInfoLog n b] := by
  unfold glGetShaderInfoLog
  simp only []
  split
  · simp [World.log, World.fail]
  · split_ifs <;> simp [World.log, World.fail]

theorem glDeleteShader_trace (n : GLuint) (w : World) :
    (glDeleteShader n w).trace = w.trace ++ [Event.glDeleteShader n] := by
  unfold glDeleteShader
  simp only []
  split_ifs <;> simp [World.log, World.fail, World.setShaders]

theorem glCreateProgram_trace (pf : Platform) (w : World) :
    (glCreateProgram pf w).2.trace
      = w.trace ++ [Event.glCreateProgram (pf.programName w.gl)] := by
  unfold glCreateProgram
  simp only []
  split <;> simp [World.log, World.setPrograms]

theorem glAttachShader_trace (p n : GLuint) (w : World) :
    (glAttachShader p n w).trace = w.trace ++ [Event.glAttachShader p n] := by
  unfold glAttachShader
  simp only []
  split
  · split_ifs <;> simp [World.log, World.fail, World.setPrograms]
  · simp [World.log, World.fail]
  · simp [World.log, World.fail]

theorem glLinkProgram_trace (pf : Platform) (p : GLuint) (w : World) :
    (glLinkProgram pf p w).trace = w.trace ++ [Event.glLinkProgram p] := by
  unfold glLinkProgram
  simp only []
  split <;> simp [World.log, World.fail, World.setPrograms]

theorem glValidateProgram_trace (pf : Platform) (p : GLuint) (w : World) :
    (glValidateProgram pf p w).trace = w.trace ++ [Event.glValidateProgram p] := by
  unfold glValidateProgram
  simp only []
  split <;> simp [World.log, World.fail, World.setPrograms]

theorem glDetachShader_trace (p n : GLuint) (w : World) :
    (glDetachShader p n w).trace = w.trace ++ [Event.glDetachShader p n] := by
  unfold glDetachShader
  simp only []
  split
  · split_ifs <;> simp [World.log, World.fail, World.setPrograms, World.setShaders]
  · simp [World.log, World.fail]
  · simp [World.log, World.fail]

theorem cerrWrite_trace (t : Str) (w : World) :
    (cerrWrite t w).trace = w.trace ++ [Event.cerr t] := rfl

/-! ## The stage compiler: what it writes to the error channel -/

theorem glGetShaderiv_log_length (n : GLuint) (w : World) (o : ShaderObject)
    (h : w.gl.findShader n = some o) :
    (glGetShaderiv n GL_INFO_LOG_LENGTH w).1
      = some (if o.infoLog = [] then 0 else ((o.infoLog.length + 1 : Nat) : Int)) := by
  unfold glGetShaderiv
  simp only [World.log, h]
  simp [GL_INFO_LOG_LENGTH, GL_COMPILE_STATUS]

theorem glGetShaderInfoLog_full (n : GLuint) (w : World) (o : ShaderObject)
    (h : w.gl.findShader n = some o) :
    (glGetShaderInfoLog n (if o.infoLog = [] then 0 else ((o.infoLog.length + 1 : Nat) : Int))
        w).1
      = if o.infoLog = [] then none else some o.infoLog := by
  unfold glGetShaderInfoLog
  simp only [World.log, h]
  by_cases hl : o.infoLog = []
  · simp [hl]
  · simp only [hl, if_false]
    have h1 : ¬ (((o.infoLog.length + 1 : Nat) : Int) < 0) := by omega
    have h2 : ¬ (((o.infoLog.length + 1 : Nat) : Int) = 0) := by omega
    simp only [h1, h2, if_false]
    simp

/-- What `CompileShader` writes to `std::cerr` when `glCreateShader` assigned a
non-zero handle: it writes exactly when the compile status is false: then the line
`Failed to compile vertex shader!` for `GL_VERTEX_SHADER` and
`Failed to compile fragment shader!` otherwise, and after it the whole information
log of the shader and a newline (for an empty log nothing is retrieved and the
second line is what the unwritten buffer holds); when the status is true it writes
nothing. -/
theorem CompileShader_cerr (pf : Platform) (type : GLenum) (source : Str) (w : World)
    (hid : (glCreateShader pf type w).1 ≠ 0) :
    ((pf.compile type (cstr source)).1 = true →
      cerrOf (CompileShader pf type source w).2.trace = cerrOf w.trace)
    ∧ ((pf.compile type (cstr source)).1 = false →
      cerrOf (CompileShader pf type source w).2.trace = cerrOf w.trace ++
        [if type = GL_VERTEX_SHADER then "Failed to compile vertex shader!\n".toList
          else "Failed to compile fragment shader!\n".toList,
         (if (pf.compile type (cstr source)).2 = [] then pf.uninitText
          else (pf.compile type (cstr source)).2) ++ ['\n']]) := by
  have hq := CompileShader_status_query pf type source w hid
  have hobj := CompileShader_compiled_object pf type source w hid
  constructor
  · intro hst
    rw [hst] at hq
    have hres : CompileShader pf type source w
        = ((glCreateShader pf type w).1,
           (glGetShaderiv (glCreateShader pf type w).1 GL_COMPILE_STATUS
            (glCompileShader pf (glCreateShader pf type w).1
              (glShaderSource (glCreateShader pf type w).1 (cstr source)
                (glCreateShader pf type w).2))).2) := by
      unfold CompileShader
      simp only []
      rw [hq]
      simp [GL_TRUE, GL_FALSE]
    rw [hres]
    simp only [glGetShaderiv_trace, glCompileShader_trace, glShaderSource_trace,
      glCreateShader_trace]
    simp [cerrOf]
  · intro hst
    rw [hst] at hq
    have h4 : (glGetShaderiv (glCreateShader pf type w).1 GL_COMPILE_STATUS
        (glCompileShader pf (glCreateShader pf type w).1
          (glShaderSource (glCreateShader pf type w).1 (cstr source)
            (glCreateShader pf type w).2))).2.gl.findShader (glCreateShader pf type w).1
        = some { name := (glCreateShader pf type w).1, type := type, source := cstr source,
                 compileStatus := (pf.compile type (cstr source)).1,
                 infoLog := (pf.compile type (cstr source)).2, deleteStatus := false } := by
      rw [findShader_of_shaders _ _ _ (glGetShaderiv_shaders _ _ _)]
      exact hobj
    have hlen := glGetShaderiv_log_length _ _ _ h4
    have h5 : (glGetShaderiv (glCreateShader pf type w).1 GL_INFO_LOG_LENGTH
        (glGetShaderiv (glCreateShader pf type w).1 GL_COMPILE_STATUS
          (glCompileShader pf (glCreateShader pf type w).1
            (glShaderSource (glCreateShader pf type w).1 (cstr source)
              (glCreateShader pf type w).2))).2).2.gl.findShader (glCreateShader pf type w).1
        = some { name := (glCreateShader pf type w).1, type := type, source := cstr source,
                 compileStatus := (pf.compile type (cstr source)).1,
                 infoLog := (pf.compile type (cstr source)).2, deleteStatus := false } := by
      rw [findShader_of_shaders _ _ _ (glGetShaderiv_shaders _ _ _)]
      exact h4
    have hmsg := glGetShaderInfoLog_full _ _ _ h5
    simp only at hlen hmsg
    unfold CompileShader
    simp only []
    rw [hq]
    simp only [Bool.false_eq_true, if_false, Option.getD_some, if_true]
    rw [hlen]
    simp only [Option.getD_some]
    rw [hmsg]
    simp only [glDeleteShader_trace, cerrWrite_trace, glGetShaderInfoLog_trace,
      glGetShaderiv_trace, glCompileShader_trace, glShaderSource_trace, glCreateShader_trace]
    generalize (pf.compile type (cstr source)).2 = L
    by_cases ht : type = GL_VERTEX_SHADER <;> cases L <;> simp [cerrOf, ht]

/-- Example: on the example platform the vertex source `bad` does not compile and
its log is `syntax error`. -/
theorem CompileShader_cerr_witness :
    cerrOf (CompileShader examplePlatform GL_VERTEX_SHADER "bad".toList emptyWorld).2.trace
      = cerrOf emptyWorld.trace ++
        [if GL_VERTEX_SHADER = GL_VERTEX_SHADER then "Failed to compile vertex shader!\n".toList
          else "Failed to compile fragment shader!\n".toList,
         (if (examplePlatform.compile GL_VERTEX_SHADER (cstr "bad".toList)).2 = []
          then examplePlatform.uninitText
          else (examplePlatform.compile GL_VERTEX_SHADER (cstr "bad".toList)).2) ++ ['\n']] :=
  (CompileShader_cerr examplePlatform GL_VERTEX_SHADER "bad".toList emptyWorld
    (by decide)).2 (by decide)

/-! ## The uniforms example: lemmas -/

theorem signalsOf_append (a b : List Event) :
    signalsOf (a ++ b) = signalsOf a ++ signalsOf b := by
  simp [signalsOf]

theorem uniform4fCallsOf_append (a b : List Event) :
    uniform4fCallsOf (a ++ b) = uniform4fCallsOf a ++ uniform4fCallsOf b := by
  simp [uniform4fCallsOf]

theorem CompileShader_signals (pf : Platform) (t : GLenum) (src : Str) (w : World) :
    signalsOf (CompileShader pf t src w).2.trace = signalsOf w.trace := by
  unfold CompileShader
  simp only []
  split_ifs <;>
    simp only [glDeleteShader_trace, cerrWrite_trace, glGetShaderInfoLog_trace,
      glGetShaderiv_trace, glCompileShader_trace, glShaderSource_trace,
      glCreateShader_trace] <;>
    simp [signalsOf]

theorem CompileShader_uniform4fCalls (pf : Platform) (t : GLenum) (src : Str) (w : World) :
    uniform4fCallsOf (CompileShader pf t src w).2.trace = uniform4fCallsOf w.trace := by
  unfold CompileShader
  simp only []
  split_ifs <;>
    simp only [glDeleteShader_trace, cerrWrite_trace, glGetShaderInfoLog_trace,
      glGetShaderiv_trace, glCompileShader_trace, glShaderSource_trace,
      glCreateShader_trace] <;>
    simp [uniform4fCallsOf]

theorem CreateShader_signals (pf : Platform) (v f : Str) (w : World) :
    signalsOf (CreateShader pf v f w).2.trace = signalsOf w.trace := by
  rw [CreateShader_eq]
  simp only [glDeleteShader_trace, glDetachShader_trace, glValidateProgram_trace,
    glLinkProgram_trace, glAttachShader_trace, signalsOf_append, CompileShader_signals,
    glCreateProgram_trace]
  simp [signalsOf]

theorem CreateShader_uniform4fCalls (pf : Platform) (v f : Str) (w : World) :
    uniform4fCallsOf (CreateShader pf v f w).2.trace = uniform4fCallsOf w.trace := by
  rw [CreateShader_eq]
  simp only [glDeleteShader_trace, glDetachShader_trace, glValidateProgram_trace,
    glLinkProgram_trace, glAttachShader_trace, uniform4fCallsOf_append,
    CompileShader_uniform4fCalls, glCreateProgram_trace]
  simp [uniform4fCallsOf]

theorem cerrWrites_trace (errs : List Str) :
    ∀ w : World, (errs.foldl (fun v t => cerrWrite t v) w).trace
      = w.trace ++ errs.map Event.cerr := by
  induction errs with
  | nil =>
    intro w
    simp
  | cons t ts ih =>
    intro w
    simp only [List.foldl_cons, ih, cerrWrite_trace, List.map_cons, List.append_assoc,
      List.singleton_append]

theorem signalsOf_cerr (errs : List Str) : signalsOf (errs.map Event.cerr) = [] := by
  induction errs with
  | nil => rfl
  | cons t ts ih =>
    simp only [List.map_cons]
    rw [show Event.cerr t :: ts.map Event.cerr = [Event.cerr t] ++ ts.map Event.cerr from rfl,
      signalsOf_append, ih]
    rfl

theorem uniform4fCallsOf_cerr (errs : List Str) :
    uniform4fCallsOf (errs.map Event.cerr) = [] := by
  induction errs with
  | nil => rfl
  | cons t ts ih =>
    simp only [List.map_cons]
    rw [show Event.cerr t :: ts.map Event.cerr = [Event.cerr t] ++ ts.map Event.cerr from rfl,
      uniform4fCallsOf_append, ih]
    rfl

theorem glUseProgram_trace (dp : DrawPlatform) (p : GLuint) (w : World) :
    (glUseProgram dp p w).trace = w.trace ++ [Event.glUseProgram p] := rfl

theorem glGetUniformLocation_trace (dp : DrawPlatform) (p : GLuint) (name : Str) (w : World) :
    (glGetUniformLocation dp p name w).2.trace
      = w.trace ++ [Event.glGetUniformLocation p name (glGetUniformLocation dp p name w).1] :=
  rfl

/-- The lookup returns -1 or a location that is not negative. -/
theorem glGetUniformLocation_range (dp : DrawPlatform) (p : GLuint) (name : Str) (w : World) :
    (glGetUniformLocation dp p name w).1 = -1 ∨ 0 ≤ (glGetUniformLocation dp p name w).1 := by
  unfold glGetUniformLocation
  simp only []
  cases dp.uniformLocation w p name with
  | none => exact Or.inl rfl
  | some n => exact Or.inr (Int.ofNat_nonneg n)

/-- The statements of `main` before the assertion raise no signal and issue no
`glUniform4f`, and the looked-up location is -1 or not negative. -/
theorem uniformsSetup_quiet (pf : Platform) (dp : DrawPlatform) (fileText : Str) (w : World)
    (r : Int × World) (h : uniformsSetup pf dp fileText w = some r) :
    signalsOf r.2.trace = signalsOf w.trace
    ∧ uniform4fCallsOf r.2.trace = uniform4fCallsOf w.trace
    ∧ (r.1 = -1 ∨ 0 ≤ r.1) := by
  unfold uniformsSetup at h
  cases hp : ParseShaders fileText with
  | none => rw [hp] at h; simp at h
  | some q =>
    obtain ⟨source, errs⟩ := q
    rw [hp] at h
    simp only [Option.some.injEq] at h
    subst h
    refine ⟨?_, ?_, glGetUniformLocation_range _ _ _ _⟩
    · rw [glGetUniformLocation_trace, signalsOf_append, glUseProgram_trace, signalsOf_append,
        CreateShader_signals, cerrWrites_trace, signalsOf_append, signalsOf_cerr]
      simp [signalsOf]
    · rw [glGetUniformLocation_trace, uniform4fCallsOf_append, glUseProgram_trace,
        uniform4fCallsOf_append, CreateShader_uniform4fCalls, cerrWrites_trace,
        uniform4fCallsOf_append, uniform4fCallsOf_cerr]
      simp [uniform4fCallsOf]

theorem stmt_dead (f : World → World) (w : World) (h : alive w = false) : stmt f w = w := by
  simp [stmt, h]

theorem stmt_alive (f : World → World) (w : World) (h : alive w = true) : stmt f w = f w := by
  simp [stmt, h]

theorem drawLoop_dead (dp : DrawPlatform) (file : Str) (location : Int) (frames : Nat) :
    ∀ w : World, alive w = false → drawLoop dp file location frames w = w := by
  induction frames with
  | zero =>
    intro w _
    rfl
  | succ n ih =>
    intro w h
    have hf : drawFrame dp file location w = w := by
      simp only [drawFrame, stmt_dead _ w h]
    simp only [drawLoop, hf]
    exact ih w h

theorem alive_raise (w : World) : alive (raise SIGTRAP w) = false := by
  simp [alive, raise, World.log, signalsOf]

/-- With the location -1 the assertion raises `SIGTRAP` and no iteration of the
draw loop is executed. -/
theorem uniformsDraw_unresolved (dp : DrawPlatform) (file : Str) (frames : Nat) (w : World)
    (h : alive w = true) :
    uniformsDraw dp file (-1) frames w = raise SIGTRAP w := by
  unfold uniformsDraw
  rw [stmt_alive _ w h]
  have ha : ASSERT (decide ((-1 : Int) ≠ -1)) w = raise SIGTRAP w := by
    simp [ASSERT]
  rw [ha]
  exact drawLoop_dead dp file (-1) frames _ (alive_raise w)

theorem ASSERT_location (location : Int) (w : World) (h : 0 ≤ location) :
    ASSERT (decide (location ≠ -1)) w = w := by
  have : location ≠ -1 := by omega
  simp [ASSERT, this]

theorem uniform4fCallsOf_polls (q : List GLError) :
    uniform4fCallsOf (q.map (fun e => Event.glGetError e.val)) = [] := by
  induction q with
  | nil => rfl
  | cons e es ih =>
    simp only [List.map_cons]
    rw [show Event.glGetError e.val :: es.map (fun e => Event.glGetError e.val)
        = [Event.glGetError e.val] ++ es.map (fun e => Event.glGetError e.val) from rfl,
      uniform4fCallsOf_append, ih]
    rfl

theorem ClearError_uniform4fCalls (w : World) :
    uniform4fCallsOf (ClearError w).trace = uniform4fCallsOf w.trace := by
  rw [ClearError_eq w.gl.errors w rfl]
  simp only [uniform4fCallsOf_append, uniform4fCallsOf_polls]
  simp [uniform4fCallsOf]

theorem GLCall_uniform4fCalls {α : Type} (x : World → α × World) (xText file : Str)
    (line : Int) (w : World) :
    uniform4fCallsOf (GLCall x xText file line w).trace
      = uniform4fCallsOf (x (ClearError w)).2.trace := by
  obtain ⟨check, h1, h2⟩ := GLCall_check_events x xText file line w
  rw [h1, uniform4fCallsOf_append]
  rcases h2 with rfl | ⟨c, rfl⟩ <;> simp [uniform4fCallsOf]

theorem stmt_cases (f : World → World) (w : World) : stmt f w = w ∨ stmt f w = f w := by
  unfold stmt
  split_ifs
  · exact Or.inr rfl
  · exact Or.inl rfl

/-- One iteration of the draw loop issues `glUniform4f` at most once, with the
location it was given. -/
theorem drawFrame_uniform4fCalls (dp : DrawPlatform) (file : Str) (location : Int)
    (w : World) :
    ∃ k : Nat, uniform4fCallsOf (drawFrame dp file location w).trace
      = uniform4fCallsOf w.trace ++ List.replicate k location := by
  have h1 : uniform4fCallsOf (stmt (glClear dp) w).trace = uniform4fCallsOf w.trace := by
    rcases stmt_cases (glClear dp) w with h | h
    · rw [h]
    · rw [h]
      simp [glClear, World.failAll, World.log, uniform4fCallsOf]
  have h2 : ∀ v : World,
      uniform4fCallsOf (GLCall (fun u => ((), glUniform4f dp location u))
        "glUniform4f(location, pink, 0.0f, pink, 1.0f)".toList file 264 v).trace
        = uniform4fCallsOf v.trace ++ [location] := by
    intro v
    rw [GLCall_uniform4fCalls]
    have : (glUniform4f dp location (ClearError v)).trace
        = (ClearError v).trace ++ [Event.glUniform4f location] := rfl
    simp only [this, uniform4fCallsOf_append, ClearError_uniform4fCalls]
    simp [uniform4fCallsOf]
  have h3 : ∀ v : World,
      uniform4fCallsOf (GLCall (fun u => ((), glDrawElements dp u))
        "glDrawElements(GL_TRIANGLES, 6, GL_UNSIGNED_INT, nullptr)".toList file 267 v).trace
        = uniform4fCallsOf v.trace := by
    intro v
    rw [GLCall_uniform4fCalls]
    have : (glDrawElements dp (ClearError v)).trace
        = (ClearError v).trace ++ [Event.glDrawElements] := rfl
    simp only [this, uniform4fCallsOf_append, ClearError_uniform4fCalls]
    simp [uniform4fCallsOf]
  have h4 : ∀ v : World, uniform4fCallsOf (stmt (GLCall (fun u => ((), glDrawElements dp u))
      "glDrawElements(GL_TRIANGLES, 6, GL_UNSIGNED_INT, nullptr)".toList file 267) v).trace
      = uniform4fCallsOf v.trace := by
    intro v
    rcases stmt_cases (GLCall (fun u => ((), glDrawElements dp u))
      "glDrawElements(GL_TRIANGLES, 6, GL_UNSIGNED_INT, nullptr)".toList file 267) v with h | h
    · rw [h]
    · rw [h, h3]
  unfold drawFrame
  simp only []
  rw [h4]
  rcases stmt_cases (GLCall (fun u => ((), glUniform4f dp location u))
    "glUniform4f(location, pink, 0.0f, pink, 1.0f)".toList file 264)
    (stmt (glClear dp) w) with h | h
  · refine ⟨0, ?_⟩
    rw [h, h1]
    simp
  · refine ⟨1, ?_⟩
    rw [h, h2, h1]
    rfl

theorem drawLoop_uniform4fCalls (dp : DrawPlatform) (file : Str) (location : Int)
    (frames : Nat) :
    ∀ w : World, ∃ k : Nat, uniform4fCallsOf (drawLoop dp file location frames w).trace
      = uniform4fCallsOf w.trace ++ List.replicate k location := by
  induction frames with
  | zero =>
    intro w
    exact ⟨0, by simp [drawLoop]⟩
  | succ n ih =>
    intro w
    obtain ⟨k1, h1⟩ := drawFrame_uniform4fCalls dp file location w
    obtain ⟨k2, h2⟩ := ih (drawFrame dp file location w)
    refine ⟨k1 + k2, ?_⟩
    simp only [drawLoop]
    rw [h2, h1, List.append_assoc, List.replicate_add]

/-! ## The uniforms example: claims -/

/-- C11: in the uniforms example, when the lookup of `u_Color` returns -1 the
assertion raises `SIGTRAP` directly after the lookup and, however long the window
stays open, nothing of the draw loop is executed, so `main` issues no `glUniform4f`
at all; when the lookup returns a location that is not negative the assertion
raises nothing and changes nothing. -/
theorem uniformsMain_unresolved_uniform (pf : Platform) (dp : DrawPlatform)
    (file fileText : Str) (frames : Nat) (w : World) (r : Int × World)
    (hw : alive w = true) (hs : uniformsSetup pf dp fileText w = some r) :
    (r.1 = -1 →
        uniformsMain pf dp file fileText frames w = some (raise SIGTRAP r.2)
        ∧ uniform4fCallsOf (raise SIGTRAP r.2).trace = uniform4fCallsOf w.trace)
    ∧ (0 ≤ r.1 → stmt (ASSERT (decide (r.1 ≠ -1))) r.2 = r.2) := by
  obtain ⟨hq1, hq2, _⟩ := uniformsSetup_quiet pf dp fileText w r hs
  have ha : alive r.2 = true := by
    unfold alive at hw ⊢
    rw [hq1]
    exact hw
  constructor
  · intro h1
    constructor
    · unfold uniformsMain
      rw [hs]
      simp only []
      rw [h1, uniformsDraw_unresolved dp file frames r.2 ha]
    · simp only [raise, World.log, uniform4fCallsOf_append, hq2]
      simp [uniform4fCallsOf]
  · intro h0
    rw [stmt_alive _ _ ha, ASSERT_location r.1 r.2 h0]

/-- C20: in the uniforms example, for every result of the lookup of `u_Color`,
either the assertion halts the program directly after the lookup, or the location
is not negative and it is the location of every `glUniform4f` call that `main`
issues. -/
theorem uniformsMain_locations_nonnegative (pf : Platform) (dp : DrawPlatform)
    (file fileText : Str) (frames : Nat) (w : World) (r : Int × World)
    (hw : alive w = true) (hs : uniformsSetup pf dp fileText w = some r) :
    uniformsMain pf dp file fileText frames w = some (raise SIGTRAP r.2)
    ∨ (0 ≤ r.1 ∧ ∃ (wf : World) (k : Nat),
        uniformsMain pf dp file fileText frames w = some wf
        ∧ uniform4fCallsOf wf.trace = uniform4fCallsOf w.trace ++ List.replicate k r.1) := by
  obtain ⟨hq1, hq2, hr⟩ := uniformsSetup_quiet pf dp fileText w r hs
  have ha : alive r.2 = true := by
    unfold alive at hw ⊢
    rw [hq1]
    exact hw
  rcases hr with h1 | h0
  · left
    unfold uniformsMain
    rw [hs]
    simp only []
    rw [h1, uniformsDraw_unresolved dp file frames r.2 ha]
  · right
    refine ⟨h0, ?_⟩
    obtain ⟨k, hk⟩ := drawLoop_uniform4fCalls dp file r.1 frames
      (stmt (ASSERT (decide (r.1 ≠ -1))) r.2)
    refine ⟨uniformsDraw dp file r.1 frames r.2, k, ?_, ?_⟩
    · unfold uniformsMain
      rw [hs]
    · unfold uniformsDraw
      rw [hk, stmt_alive _ _ ha, ASSERT_location r.1 r.2 h0, hq2]

theorem ParseShaders_example :
    ParseShaders "#shader vertex\nA\n#shader fragment\nB\n".toList
      = some ({ VertexSource := "A\n".toList, FragmentSource := "B\n".toList }, []) := by
  simp [ParseShaders, parseLoop, getline, parseLine, find, ssAppend, ShaderType.toInt]

theorem uniformsSetup_example (pf : Platform) (dp : DrawPlatform) (w : World) :
    uniformsSetup pf dp "#shader vertex\nA\n#shader fragment\nB\n".toList w
      = some (glGetUniformLocation dp (CreateShader pf "A\n".toList "B\n".toList w).1
          "u_Color".toList
          (glUseProgram dp (CreateShader pf "A\n".toList "B\n".toList w).1
            (CreateShader pf "A\n".toList "B\n".toList w).2)) := by
  unfold uniformsSetup
  rw [ParseShaders_example]
  rfl

/-- Witness of C11: `u_Color` is not found; the window would stay open for three
frames. -/
theorem uniformsMain_unresolved_uniform_witness :
    uniformsMain examplePlatform noUniformDrawPlatform "main.cpp".toList
        "#shader vertex\nA\n#shader fragment\nB\n".toList 3 emptyWorld
      = some (raise SIGTRAP
          (glGetUniformLocation noUniformDrawPlatform
            (CreateShader examplePlatform "A\n".toList "B\n".toList emptyWorld).1
            "u_Color".toList
            (glUseProgram noUniformDrawPlatform
              (CreateShader examplePlatform "A\n".toList "B\n".toList emptyWorld).1
              (CreateShader examplePlatform "A\n".toList "B\n".toList emptyWorld).2)).2) :=
  ((uniformsMain_unresolved_uniform examplePlatform noUniformDrawPlatform "main.cpp".toList
    "#shader vertex\nA\n#shader fragment\nB\n".toList 3 emptyWorld _ (by decide)
    (uniformsSetup_example examplePlatform noUniformDrawPlatform emptyWorld)).1 rfl).1

/-- Witness of C20: `u_Color` is at location 0; two frames. -/
theorem uniformsMain_locations_nonnegative_witness :
    uniformsMain examplePlatform exampleDrawPlatform "main.cpp".toList
        "#shader vertex\nA\n#shader fragment\nB\n".toList 2 emptyWorld
      = some (raise SIGTRAP
          (glGetUniformLocation exampleDrawPlatform
            (CreateShader examplePlatform "A\n".toList "B\n".toList emptyWorld).1
            "u_Color".toList
            (glUseProgram exampleDrawPlatform
              (CreateShader examplePlatform "A\n".toList "B\n".toList emptyWorld).1
              (CreateShader examplePlatform "A\n".toList "B\n".toList emptyWorld).2)).2)
    ∨ (0 ≤ (glGetUniformLocation exampleDrawPlatform
            (CreateShader examplePlatform "A\n".toList "B\n".toList emptyWorld).1
            "u_Color".toList
            (glUseProgram exampleDrawPlatform
              (CreateShader examplePlatform "A\n".toList "B\n".toList emptyWorld).1
              (CreateShader examplePlatform "A\n".toList "B\n".toList emptyWorld).2)).1
      ∧ ∃ (wf : World) (k : Nat),
        uniformsMain examplePlatform exampleDrawPlatform "main.cpp".toList
          "#shader vertex\nA\n#shader fragment\nB\n".toList 2 emptyWorld = some wf
        ∧ uniform4fCallsOf wf.trace = uniform4fCallsOf emptyWorld.trace ++
            List.replicate k (glGetUniformLocation exampleDrawPlatform
              (CreateShader examplePlatform "A\n".toList "B\n".toList emptyWorld).1
              "u_Color".toList
              (glUseProgram exampleDrawPlatform
                (CreateShader examplePlatform "A\n".toList "B\n".toList emptyWorld).1
                (CreateShader examplePlatform "A\n".toList "B\n".toList emptyWorld).2)).1) :=
  uniformsMain_locations_nonnegative examplePlatform exampleDrawPlatform "main.cpp".toList
    "#shader vertex\nA\n#shader fragment\nB\n".toList 2 emptyWorld _ (by decide)
    (uniformsSetup_example examplePlatform exampleDrawPlatform emptyWorld)

/-! ## The splitter: lines before the first directive -/

theorem ParseShaders_example_leading_line :
    ParseShaders "A\n#shader vertex\nB\n".toList = none := by
  simp [ParseShaders, parseLoop, getline, parseLine, find, ssAppend, ShaderType.toInt]

theorem ParseShaders_example_vertex_only :
    ParseShaders "#shader vertex\nB\n".toList
      = some ({ VertexSource := "B\n".toList, FragmentSource := [] }, []) := by
  simp [ParseShaders, parseLoop, getline, parseLine, find, ssAppend, ShaderType.toInt]

/-- C22 (the code at the failing input): with the line `A` before the document
`#shader vertex`, `B`, the loop evaluates `ss[-1] << line` for the line `A`, a
subscript outside the array `ss[2]`, so the call has no defined result, while the
document alone is split into vertex `B` and an empty fragment text. -/
theorem ParseShaders_leading_line_out_of_range :
    ParseShaders "A\n#shader vertex\nB\n".toList = none
    ∧ ParseShaders "#shader vertex\nB\n".toList
        = some ({ VertexSource := "B\n".toList, FragmentSource := [] }, [])
    ∧ parseLine { type := ShaderType.NONE, ss0 := [], ss1 := [], cerr := [] } "A".toList
        = none :=
  ⟨ParseShaders_example_leading_line, ParseShaders_example_vertex_only, by decide⟩

/-! ## The splitter: the four copies -/

theorem splitLoop_nil (body : ParseState → Str → Option ParseState) (st : ParseState) :
    splitLoop body st [] = some st := by
  rw [splitLoop]
  simp [getline]

theorem splitLoop_step (body : ParseState → Str → Option ParseState) (st : ParseState)
    (input line rest : Str) (h : getline input = some (line, rest)) :
    splitLoop body st input = (body st line).bind (fun st' => splitLoop body st' rest) := by
  rw [splitLoop]
  split
  · rename_i h'
    rw [h] at h'
    cases h'
  · rename_i l r h'
    rw [h] at h'
    cases h'
    cases body st line <;> rfl

theorem splitLoop_eq_runLines_aux (body : ParseState → Str → Option ParseState) (n : Nat) :
    ∀ (input : Str), input.length ≤ n → ∀ st : ParseState,
      splitLoop body st input = runLines body st (getlines input) := by
  induction n with
  | zero =>
    intro input hlen st
    have : input = [] := List.length_eq_zero.mp (Nat.le_zero.mp hlen)
    subst this
    rw [splitLoop_nil, getlines_nil]
    rfl
  | succ n ih =>
    intro input hlen st
    cases hg : getline input with
    | none =>
      cases input with
      | nil =>
        rw [splitLoop_nil, getlines_nil]
        rfl
      | cons c cs => simp [getline] at hg
    | some p =>
      obtain ⟨line, rest⟩ := p
      have hlt := getline_length input line rest hg
      rw [splitLoop_step body st input line rest hg, getlines_step input line rest hg]
      simp only [runLines]
      cases body st line with
      | none => rfl
      | some st' =>
        simp only [Option.some_bind]
        exact ih rest (by omega) st'

theorem splitLoop_eq_runLines (body : ParseState → Str → Option ParseState) (st : ParseState)
    (input : Str) : splitLoop body st input = runLines body st (getlines input) :=
  splitLoop_eq_runLines_aux body input.length input (Nat.le_refl _) st

theorem parseLines_eq_runLines (ls : List Str) :
    ∀ st : ParseState, parseLines st ls = runLines parseLine st ls := by
  induction ls with
  | nil =>
    intro st
    rfl
  | cons l ls ih =>
    intro st
    simp only [parseLines, runLines]
    cases parseLine st l with
    | none => rfl
    | some st' =>
      simp only [Option.some_bind]
      exact ih st'

theorem ShaderFiles_parseLine_core (st st' : ParseState) (h : st.core = st'.core) (l : Str) :
    (ShaderFiles.parseLine st l).map ParseState.core
      = (parseLine st' l).map ParseState.core := by
  obtain ⟨t, a, b, c⟩ := st
  obtain ⟨t', a', b', c'⟩ := st'
  simp only [ParseState.core, Prod.mk.injEq] at h
  obtain ⟨rfl, rfl, rfl⟩ := h
  unfold ShaderFiles.parseLine parseLine ssAppend
  split_ifs <;> simp [ParseState.core]

theorem runLines_core (body body' : ParseState → Str → Option ParseState)
    (hb : ∀ (st st' : ParseState) (l : Str), st.core = st'.core →
      (body st l).map ParseState.core = (body' st' l).map ParseState.core)
    (ls : List Str) :
    ∀ st st' : ParseState, st.core = st'.core →
      (runLines body st ls).map ParseState.core
        = (runLines body' st' ls).map ParseState.core := by
  induction ls with
  | nil =>
    intro st st' h
    simp [runLines, h]
  | cons l ls ih =>
    intro st st' h
    have hl := hb st st' l h
    simp only [runLines]
    cases h1 : body st l with
    | none =>
      cases h2 : body' st' l with
      | none => rfl
      | some s2 => rw [h1, h2] at hl; simp at hl
    | some s1 =>
      cases h2 : body' st' l with
      | none => rw [h1, h2] at hl; simp at hl
      | some s2 =>
        rw [h1, h2] at hl
        simp only [Option.map_some', Option.some.injEq] at hl
        simp only [Option.some_bind]
        exact ih s1 s2 hl

theorem pair_of_core (a b : Option ParseState)
    (h : a.map ParseState.core = b.map ParseState.core) :
    a.map (fun st => (st.ss0, st.ss1)) = b.map (fun st => (st.ss0, st.ss1)) := by
  cases a with
  | none => cases b with
    | none => rfl
    | some y => simp at h
  | some x => cases b with
    | none => simp at h
    | some y =>
      simp only [Option.map_some', Option.some.injEq, ParseState.core, Prod.mk.injEq] at h
      simp [h.2.1, h.2.2]

/-- C26: on every document the four copies of the splitter agree: `ParseShader` of
2/3_shader_files and of 2/4_index_buffers have a defined result exactly when
`ParseShaders` of 3/2_uniforms has one, with the same vertex and fragment texts;
`ParseShaders` of 3/1_error_handling gives the same result and the same output;
and the loop body of the two `ParseShader` copies never writes to `std::cerr`. -/
theorem splitters_agree (input : Str) :
    (ShaderFiles.ParseShader input).map (fun s => (s.VertexShader, s.FragmentShader))
      = (ParseShaders input).map (fun r => (r.1.VertexSource, r.1.FragmentSource))
    ∧ (IndexBuffers.ParseShader input).map (fun s => (s.VertexShader, s.FragmentShader))
      = (ParseShaders input).map (fun r => (r.1.VertexSource, r.1.FragmentSource))
    ∧ ErrorHandling.ParseShaders input = ParseShaders input
    ∧ (∀ (st : ParseState) (l : Str),
        (ShaderFiles.parseLine st l).map (fun st' => st'.cerr)
          = (ShaderFiles.parseLine st l).map (fun _ => st.cerr))
    ∧ (∀ (st : ParseState) (l : Str),
        (IndexBuffers.parseLine st l).map (fun st' => st'.cerr)
          = (IndexBuffers.parseLine st l).map (fun _ => st.cerr)) := by
  have hI : IndexBuffers.parseLine = ShaderFiles.parseLine := rfl
  have hE : ErrorHandling.parseLine = parseLine := rfl
  have hcore := runLines_core ShaderFiles.parseLine parseLine
    (fun st st' l h => ShaderFiles_parseLine_core st st' h l)
    (getlines input) { type := ShaderType.NONE, ss0 := [], ss1 := [], cerr := [] }
    { type := ShaderType.NONE, ss0 := [], ss1 := [], cerr := [] } rfl
  have hpair := pair_of_core _ _ hcore
  have h1 : (ShaderFiles.ParseShader input).map (fun s => (s.VertexShader, s.FragmentShader))
      = (ParseShaders input).map (fun r => (r.1.VertexSource, r.1.FragmentSource)) := by
    unfold ShaderFiles.ParseShader ParseShaders
    rw [splitLoop_eq_runLines, parseLoop_eq_parseLines, parseLines_eq_runLines]
    cases ha : runLines ShaderFiles.parseLine
        { type := ShaderType.NONE, ss0 := [], ss1 := [], cerr := [] } (getlines input) <;>
      cases hb : runLines parseLine
        { type := ShaderType.NONE, ss0 := [], ss1 := [], cerr := [] } (getlines input) <;>
      rw [ha, hb] at hpair <;> simp at hpair ⊢
    exact hpair
  have hcerr : ∀ (st : ParseState) (l : Str),
      (ShaderFiles.parseLine st l).map (fun st' => st'.cerr)
        = (ShaderFiles.parseLine st l).map (fun _ => st.cerr) := by
    intro st l
    unfold ShaderFiles.parseLine ssAppend
    split_ifs <;> rfl
  refine ⟨h1, ?_, ?_, hcerr, ?_⟩
  · have : IndexBuffers.ParseShader input
        = (ShaderFiles.ParseShader input).map
            (fun s => { VertexShader := s.VertexShader, FragmentShader := s.FragmentShader }) := by
      unfold IndexBuffers.ParseShader ShaderFiles.ParseShader
      rw [hI]
      cases splitLoop ShaderFiles.parseLine
        { type := ShaderType.NONE, ss0 := [], ss1 := [], cerr := [] } input <;> rfl
    rw [this, ← h1]
    cases ShaderFiles.ParseShader input <;> rfl
  · unfold ErrorHandling.ParseShaders ParseShaders
    rw [splitLoop_eq_runLines, parseLoop_eq_parseLines, parseLines_eq_runLines, hE]
  · rw [hI]
    exact hcerr

/-! ## The splitter: a missing final newline -/

/-- Every text is a run of terminated lines followed by a last, unterminated line
(which may be empty). -/
theorem split_last_line (t : Str) :
    ∃ pre d : Str, t = pre ++ d ∧ (pre = [] ∨ pre.getLast? = some '\n') ∧ '\n' ∉ d := by
  induction t with
  | nil => exact ⟨[], [], rfl, Or.inl rfl, by simp⟩
  | cons c t ih =>
    obtain ⟨pre, d, ht, hpre, hd⟩ := ih
    cases pre with
    | nil =>
      by_cases hc : c = '\n'
      · refine ⟨['\n'], d, ?_, Or.inr rfl, hd⟩
        simp [ht, hc]
      · refine ⟨[], c :: d, ?_, Or.inl rfl, ?_⟩
        · simp [ht]
        · intro hmem
          rcases List.mem_cons.mp hmem with h | h
          · exact hc h.symm
          · exact hd h
    | cons x xs =>
      refine ⟨c :: x :: xs, d, ?_, Or.inr ?_, hd⟩
      · simp [ht]
      · rcases hpre with h | h
        · cases h
        · rw [List.getLast?_cons_cons]
          exact h

theorem ends_with_newline_append (a l : Str) :
    (a ++ l ++ ['\n'] = [] ∨ (a ++ l ++ ['\n']).getLast? = some '\n') := by
  right
  simp

theorem parseLine_closed (st st' : ParseState) (l : Str)
    (h0 : st.ss0 = [] ∨ st.ss0.getLast? = some '\n')
    (h1 : st.ss1 = [] ∨ st.ss1.getLast? = some '\n')
    (hp : parseLine st l = some st') :
    (st'.ss0 = [] ∨ st'.ss0.getLast? = some '\n')
    ∧ (st'.ss1 = [] ∨ st'.ss1.getLast? = some '\n') := by
  unfold parseLine ssAppend at hp
  split_ifs at hp <;> cases hp
  · exact ⟨h0, h1⟩
  · exact ⟨h0, h1⟩
  · exact ⟨h0, h1⟩
  · exact ⟨ends_with_newline_append _ _, h1⟩
  · exact ⟨h0, ends_with_newline_append _ _⟩

theorem parseLines_closed (ls : List Str) :
    ∀ st st' : ParseState,
      (st.ss0 = [] ∨ st.ss0.getLast? = some '\n') →
      (st.ss1 = [] ∨ st.ss1.getLast? = some '\n') →
      parseLines st ls = some st' →
      (st'.ss0 = [] ∨ st'.ss0.getLast? = some '\n')
      ∧ (st'.ss1 = [] ∨ st'.ss1.getLast? = some '\n') := by
  induction ls with
  | nil =>
    intro st st' h0 h1 hp
    simp only [parseLines, Option.some.injEq] at hp
    subst hp
    exact ⟨h0, h1⟩
  | cons l ls ih =>
    intro st st' h0 h1 hp
    simp only [parseLines] at hp
    cases hl : parseLine st l with
    | none => rw [hl] at hp; simp at hp
    | some s1 =>
      rw [hl] at hp
      simp only [Option.some_bind] at hp
      obtain ⟨g0, g1⟩ := parseLine_closed st s1 l h0 h1 hl
      exact ih s1 st' g0 g1 hp

/-- C28: for a non-empty text that does not end with a newline, `ParseShaders`
gives the same result for the text and for the text with one newline appended (the
last line is read, and emitted with a newline, either way); and each buffer that
`ParseShaders` returns is empty or ends with a newline. -/
theorem ParseShaders_missing_final_newline (t : Str) (hne : t ≠ [])
    (hlast : t.getLast? ≠ some '\n') :
    ParseShaders (t ++ ['\n']) = ParseShaders t
    ∧ (∀ r : ShaderProgramSource × List Str, ParseShaders t = some r →
        (r.1.VertexSource = [] ∨ r.1.VertexSource.getLast? = some '\n')
        ∧ (r.1.FragmentSource = [] ∨ r.1.FragmentSource.getLast? = some '\n')) := by
  constructor
  · obtain ⟨pre, d, ht, hpre, hd⟩ := split_last_line t
    have hdne : d ≠ [] := by
      intro h
      subst h
      rw [List.append_nil] at ht
      subst ht
      rcases hpre with h | h
      · exact hne h
      · exact hlast h
    obtain ⟨ls, hls, rfl⟩ := exists_lines pre hpre
    subst ht
    unfold ParseShaders
    have e : document ls ++ d ++ ['\n'] = document ls ++ (d ++ '\n' :: []) := by simp
    rw [e, parseLoop_document ls hls, parseLoop_document ls hls]
    cases parseLines { type := ShaderType.NONE, ss0 := [], ss1 := [], cerr := [] } ls with
    | none => rfl
    | some st =>
      simp only [Option.some_bind]
      rw [parseLoop_step st _ d [] (getline_line d [] hd),
        parseLoop_step st _ d [] (getline_last d hd hdne)]
  · intro r hr
    unfold ParseShaders at hr
    rw [parseLoop_eq_parseLines] at hr
    cases hp : parseLines { type := ShaderType.NONE, ss0 := [], ss1 := [], cerr := [] }
        (getlines t) with
    | none => rw [hp] at hr; simp at hr
    | some st' =>
      rw [hp] at hr
      simp only [Option.some.injEq] at hr
      subst hr
      exact parseLines_closed _ _ _ (Or.inl rfl) (Or.inl rfl) hp

/-- Witness of C28: the fragment line `B` is not terminated. -/
theorem ParseShaders_missing_final_newline_witness :
    ParseShaders ("#shader vertex\nA\n#shader fragment\nB".toList ++ ['\n'])
      = ParseShaders "#shader vertex\nA\n#shader fragment\nB".toList :=
  (ParseShaders_missing_final_newline "#shader vertex\nA\n#shader fragment\nB".toList
    (by decide) (by decide)).1

/-! ## The splitter: the text of each section -/

theorem activeSection_snoc (before : List Str) (l : Str) :
    activeSection (before ++ [l])
      = match selectedBy l with
        | some t => t
        | none => activeSection before := by
  unfold activeSection
  rw [List.reverse_append]
  simp only [List.reverse_cons, List.reverse_nil, List.nil_append, List.singleton_append,
    List.filterMap_cons]
  cases selectedBy l <;> simp

theorem selectedBy_ne_NONE (l : Str) (t : ShaderType) (h : selectedBy l = some t) :
    t ≠ ShaderType.NONE := by
  unfold selectedBy at h
  split_ifs at h <;> cases h <;> simp

theorem parseLine_selected (st : ParseState) (l : Str) (t : ShaderType)
    (h : selectedBy l = some t) : parseLine st l = some { st with type := t } := by
  unfold selectedBy isDirective at h
  unfold parseLine
  by_cases h1 : find l "#shader".toList ≠ none
  · rw [if_pos h1]
    rw [if_pos (by simpa using h1)] at h
    by_cases h2 : find l "vertex".toList ≠ none
    · rw [if_pos h2] at h ⊢
      cases h
      rfl
    · rw [if_neg h2] at h ⊢
      by_cases h3 : find l "fragment".toList ≠ none
      · rw [if_pos h3] at h ⊢
        cases h
        rfl
      · rw [if_neg h3] at h
        cases h
  · rw [if_neg (by simpa using h1)] at h
    cases h

theorem parseLine_directive_unselected (st : ParseState) (l : Str)
    (hd : isDirective l = true) (h : selectedBy l = none) :
    parseLine st l =
      some { st with cerr := st.cerr ++ ["Unrecognised shader type.\n".toList] } := by
  apply parseLine_unrecognised
  unfold selectedBy at h
  rw [if_pos hd] at h
  unfold isUnrecognised
  rw [hd]
  by_cases h2 : find l "vertex".toList ≠ none
  · rw [if_pos h2] at h
    cases h
  · rw [if_neg h2] at h
    by_cases h3 : find l "fragment".toList ≠ none
    · rw [if_pos h3] at h
      cases h
    · simp only [ne_eq, not_not] at h2 h3
      rw [h2, h3]
      simp

theorem parseLine_plain (st : ParseState) (l : Str) (hd : isDirective l = false) :
    parseLine st l = ssAppend st st.type.toInt l ∧ selectedBy l = none := by
  constructor
  · unfold parseLine
    have : find l "#shader".toList = none := by
      simpa [isDirective] using hd
    rw [this]
    simp
  · unfold selectedBy
    rw [hd]
    simp

/-- From a state whose active section is vertex or fragment, the loop body run
over further lines completes and appends to each buffer the text of its section. -/
theorem parseLines_sections (rest : List Str) :
    ∀ (before : List Str) (st : ParseState), st.type = activeSection before →
      st.type ≠ ShaderType.NONE →
      ∃ st' : ParseState, parseLines st rest = some st'
        ∧ st'.ss0 = st.ss0 ++ sectionText ShaderType.VERTEX before rest
        ∧ st'.ss1 = st.ss1 ++ sectionText ShaderType.FRAGMENT before rest := by
  induction rest with
  | nil =>
    intro before st _ _
    exact ⟨st, rfl, by simp [sectionText], by simp [sectionText]⟩
  | cons l rest ih =>
    intro before st ht hn
    cases hd : isDirective l with
    | true =>
      cases hs : selectedBy l with
      | some t =>
        have hp := parseLine_selected st l t hs
        have ha : activeSection (before ++ [l]) = t := by
          rw [activeSection_snoc, hs]
        obtain ⟨st', h1, h2, h3⟩ := ih (before ++ [l]) { st with type := t } ha.symm
          (selectedBy_ne_NONE l t hs)
        refine ⟨st', ?_, ?_, ?_⟩
        · simp only [parseLines, hp, Option.some_bind]
          exact h1
        · rw [h2]
          simp [sectionText, hd]
        · rw [h3]
          simp [sectionText, hd]
      | none =>
        have hp := parseLine_directive_unselected st l hd hs
        have ha : activeSection (before ++ [l]) = activeSection before := by
          rw [activeSection_snoc, hs]
        obtain ⟨st', h1, h2, h3⟩ := ih (before ++ [l])
          { st with cerr := st.cerr ++ ["Unrecognised shader type.\n".toList] }
          (by rw [ha]; exact ht) hn
        refine ⟨st', ?_, ?_, ?_⟩
        · simp only [parseLines, hp, Option.some_bind]
          exact h1
        · rw [h2]
          simp [sectionText, hd]
        · rw [h3]
          simp [sectionText, hd]
    | false =>
      obtain ⟨hp, hs⟩ := parseLine_plain st l hd
      have ha : activeSection (before ++ [l]) = activeSection before := by
        rw [activeSection_snoc, hs]
      cases htype : st.type with
      | NONE => exact absurd htype hn
      | VERTEX =>
        have hp' : parseLine st l = some { st with ss0 := st.ss0 ++ l ++ ['\n'] } := by
          rw [hp, htype]
          simp [ssAppend, ShaderType.toInt, htype]
        have hb : activeSection before = ShaderType.VERTEX := by
          rw [← ht, htype]
        obtain ⟨st', h1, h2, h3⟩ := ih (before ++ [l])
          { st with ss0 := st.ss0 ++ l ++ ['\n'] } (by rw [ha]; exact ht) hn
        refine ⟨st', ?_, ?_, ?_⟩
        · simp only [parseLines, hp', Option.some_bind]
          exact h1
        · rw [h2]
          simp [sectionText, hd, hb]
        · rw [h3]
          simp [sectionText, hd, hb]
      | FRAGMENT =>
        have hp' : parseLine st l = some { st with ss1 := st.ss1 ++ l ++ ['\n'] } := by
          rw [hp, htype]
          simp [ssAppend, ShaderType.toInt, htype]
        have hb : activeSection before = ShaderType.FRAGMENT := by
          rw [← ht, htype]
        obtain ⟨st', h1, h2, h3⟩ := ih (before ++ [l])
          { st with ss1 := st.ss1 ++ l ++ ['\n'] } (by rw [ha]; exact ht) hn
        refine ⟨st', ?_, ?_, ?_⟩
        · simp only [parseLines, hp', Option.some_bind]
          exact h1
        · rw [h2]
          simp [sectionText, hd, hb]
        · rw [h3]
          simp [sectionText, hd, hb]

/-- C21: on every document whose first line is a recognised directive,
`ParseShaders` returns, and `VertexSource` is the lines that are no directive and
whose nearest preceding recognised directive selected vertex, each followed by a
newline, in document order, and `FragmentSource` likewise for fragment; a stage
may have several sections. -/
theorem ParseShaders_sections (input l : Str) (ls : List Str)
    (hl : getlines input = l :: ls) (hrec : selectedBy l ≠ none) :
    ∃ errs : List Str, ParseShaders input =
      some ({ VertexSource := sectionText ShaderType.VERTEX [] (getlines input),
              FragmentSource := sectionText ShaderType.FRAGMENT [] (getlines input) }, errs) := by
  cases hs : selectedBy l with
  | none => exact absurd hs hrec
  | some t =>
    have hd : isDirective l = true := by
      cases h : isDirective l with
      | true => rfl
      | false =>
        rw [(parseLine_plain { type := ShaderType.NONE, ss0 := [], ss1 := [], cerr := [] }
          l h).2] at hs
        cases hs
    have hp := parseLine_selected
      { type := ShaderType.NONE, ss0 := [], ss1 := [], cerr := [] } l t hs
    have ha : activeSection ([] ++ [l]) = t := by
      rw [activeSection_snoc, hs]
    obtain ⟨st', h1, h2, h3⟩ := parseLines_sections ls ([] ++ [l])
      { type := t, ss0 := [], ss1 := [], cerr := [] } ha.symm (selectedBy_ne_NONE l t hs)
    refine ⟨st'.cerr, ?_⟩
    unfold ParseShaders
    rw [parseLoop_eq_parseLines, hl]
    simp only [parseLines, hp, Option.some_bind]
    rw [h1]
    simp only [sectionText, hd, Bool.not_true, Bool.false_and, Bool.false_eq_true, if_false,
      List.nil_append]
    rw [h2, h3]
    simp

/-- Witness of C21: a document with two vertex sections around a fragment section. -/
theorem ParseShaders_sections_witness :
    ∃ errs : List Str,
      ParseShaders "#shader vertex\nA\n#shader fragment\nB\n#shader vertex\nC\n".toList =
        some ({ VertexSource := sectionText ShaderType.VERTEX []
                  (getlines "#shader vertex\nA\n#shader fragment\nB\n#shader vertex\nC\n".toList),
                FragmentSource := sectionText ShaderType.FRAGMENT []
                  (getlines "#shader vertex\nA\n#shader fragment\nB\n#shader vertex\nC\n".toList) },
              errs) :=
  ParseShaders_sections "#shader vertex\nA\n#shader fragment\nB\n#shader vertex\nC\n".toList
    "#shader vertex".toList
    (getlines "A\n#shader fragment\nB\n#shader vertex\nC\n".toList)
    (getlines_step _ _ _ (by decide)) (by decide)

/-! ## ClearError: the number of polls -/

/-- C27: `ClearError` returns on every pending-error queue: with `n` codes pending
it calls `glGetError` exactly `n + 1` times, the first `n` calls returning the
pending codes in order and the last returning `GL_NO_ERROR`, it does nothing else,
and it returns with the queue empty. -/
theorem ClearError_polls_once_more_than_pending (w : World) :
    (ClearError w).trace
        = w.trace ++ (w.gl.errors.map (fun e => Event.glGetError e.val)
            ++ [Event.glGetError GL_NO_ERROR])
      ∧ (w.gl.errors.map (fun e => Event.glGetError e.val)
            ++ [Event.glGetError GL_NO_ERROR]).length = w.gl.errors.length + 1
      ∧ (∀ e ∈ w.gl.errors.map (fun e => Event.glGetError e.val),
            e ≠ Event.glGetError GL_NO_ERROR)
      ∧ (ClearError w).gl.errors = []
      ∧ (ClearError w).gl.shaders = w.gl.shaders
      ∧ (ClearError w).gl.programs = w.gl.programs := by
  have h := ClearError_eq w.gl.errors w rfl
  refine ⟨?_, ?_, ?_, ?_, ?_, ?_⟩
  · rw [h]
    simp
  · simp
  · intro e he
    rw [List.mem_map] at he
    obtain ⟨c, _, hc⟩ := he
    rw [← hc]
    intro heq
    injection heq with h0
    exact c.property h0
  · rw [h]
  · rw [h]
  · rw [h]

/-! ## The stage compiler: its calls, by outcome -/

theorem glCreateShader_fst (pf : Platform) (t : GLenum) (w : World) :
    (glCreateShader pf t w).1 = pf.shaderName w.gl t := by
  unfold glCreateShader
  simp only []
  split_ifs with h
  · exact h.symm
  · rfl

theorem glCreateProgram_fst (pf : Platform) (w : World) :
    (glCreateProgram pf w).1 = pf.programName w.gl := by
  unfold glCreateProgram
  simp only []
  split_ifs with h
  · exact h.symm
  · rfl

theorem compileFailed_of_created (pf : Platform) (type : GLenum) (source : Str) (w : World)
    (hid : (glCreateShader pf type w).1 ≠ 0) :
    compileFailed pf type source w = !(pf.compile type (cstr source)).1 := by
  unfold compileFailed
  rw [CompileShader_status_query pf type source w hid]
  cases (pf.compile type (cstr source)).1 <;> simp [GL_TRUE, GL_FALSE]

theorem CompileShader_fst (pf : Platform) (type : GLenum) (source : Str) (w : World) :
    (CompileShader pf type source w).1
      = if compileFailed pf type source w then 0 else (glCreateShader pf type w).1 := by
  unfold CompileShader compileFailed
  simp only []
  split_ifs <;> simp_all

/-- The events of `CompileShader`, by the outcome of the test `result == GL_FALSE`. -/
theorem CompileShader_events (pf : Platform) (type : GLenum) (source : Str) (w : World) :
    ∃ (length : Int) (message : Str),
      (CompileShader pf type source w).2.trace
        = w.trace ++
          ([Event.glCreateShader type (glCreateShader pf type w).1,
            Event.glShaderSource (glCreateShader pf type w).1 (cstr source),
            Event.glCompileShader (glCreateShader pf type w).1,
            Event.glGetShaderiv (glCreateShader pf type w).1 GL_COMPILE_STATUS]
          ++ (if compileFailed pf type source w then
                [Event.glGetShaderiv (glCreateShader pf type w).1 GL_INFO_LOG_LENGTH,
                 Event.glGetShaderInfoLog (glCreateShader pf type w).1 length,
                 Event.cerr ("Failed to compile ".toList
                   ++ (if type = GL_VERTEX_SHADER then "vertex".toList else "fragment".toList)
                   ++ " shader!\n".toList),
                 Event.cerr (message ++ ['\n']),
                 Event.glDeleteShader (glCreateShader pf type w).1]
              else [])) := by
  by_cases h : compileFailed pf type source w = true
  · have h' := h
    unfold compileFailed at h'
    simp only [decide_eq_true_eq] at h'
    constructor
    constructor
    rw [if_pos h]
    unfold CompileShader
    simp only []
    rw [if_pos h']
    simp only [glDeleteShader_trace, cerrWrite_trace, glGetShaderInfoLog_trace,
      glGetShaderiv_trace, glCompileShader_trace, glShaderSource_trace, glCreateShader_trace,
      glCreateShader_fst, List.append_assoc, List.cons_append, List.nil_append]
    rfl
  · have h' := h
    unfold compileFailed at h'
    simp only [decide_eq_true_eq] at h'
    refine ⟨0, [], ?_⟩
    rw [if_neg h]
    unfold CompileShader
    simp only []
    rw [if_neg h']
    simp only [glGetShaderiv_trace, glCompileShader_trace, glShaderSource_trace,
      glCreateShader_trace, glCreateShader_fst, List.append_assoc, List.cons_append,
      List.nil_append, List.append_nil]

/-- C24: when `glCreateShader` hands out an unused non-zero name, a compile that
fails makes `CompileShader` return 0 after deleting the unit it created as its
last call, and the shader objects of the context are those from before the call;
a compile that succeeds makes it return the created name with no delete call, and
the shader objects are those from before plus one object, under the returned
name, which was not a shader object before. -/
theorem CompileShader_failed_unit_deleted (pf : Platform) (type : GLenum) (source : Str)
    (w : World) (hid : (glCreateShader pf type w).1 ≠ 0)
    (hfree : w.gl.inUse (glCreateShader pf type w).1 = false) :
    ((pf.compile type (cstr source)).1 = false →
      (CompileShader pf type source w).1 = 0
      ∧ (∃ ev : List Event,
          (CompileShader pf type source w).2.trace
            = w.trace ++ ev ++ [Event.glDeleteShader (glCreateShader pf type w).1]
          ∧ createdShadersOf ev = [(glCreateShader pf type w).1]
          ∧ deleteCallsOf ev = [])
      ∧ (CompileShader pf type source w).2.gl.shaders = w.gl.shaders)
    ∧ ((pf.compile type (cstr source)).1 = true →
      (CompileShader pf type source w).1 = (glCreateShader pf type w).1
      ∧ (∃ ev : List Event,
          (CompileShader pf type source w).2.trace = w.trace ++ ev
          ∧ createdShadersOf ev = [(glCreateShader pf type w).1]
          ∧ deleteCallsOf ev = [])
      ∧ w.gl.isShader (glCreateShader pf type w).1 = false
      ∧ ∃ S : ShaderObject, S.name = (CompileShader pf type source w).1
          ∧ S.deleteStatus = false
          ∧ (CompileShader pf type source w).2.gl.shaders = S :: w.gl.shaders) := by
  have hn : pf.shaderName w.gl type ≠ 0 := by
    rw [← glCreateShader_fst]
    exact hid
  have hfr := inUse_false _ _ hfree
  have ha : w.gl.isAttached (pf.shaderName w.gl type) = false := by
    rw [← glCreateShader_fst]
    exact hfr.2.2
  have hcf := compileFailed_of_created pf type source w hid
  have hfst := CompileShader_fst pf type source w
  obtain ⟨len, msg, hev⟩ := CompileShader_events pf type source w
  have hsh := CompileShader_shaders_fresh pf type source w hn ha
  constructor
  · intro hst
    have hc : compileFailed pf type source w = true := by
      rw [hcf, hst]
      rfl
    rw [hc] at hfst hev
    simp only [if_true] at hfst hev
    refine ⟨hfst, ⟨[Event.glCreateShader type (glCreateShader pf type w).1,
        Event.glShaderSource (glCreateShader pf type w).1 (cstr source),
        Event.glCompileShader (glCreateShader pf type w).1,
        Event.glGetShaderiv (glCreateShader pf type w).1 GL_COMPILE_STATUS,
        Event.glGetShaderiv (glCreateShader pf type w).1 GL_INFO_LOG_LENGTH,
        Event.glGetShaderInfoLog (glCreateShader pf type w).1 len,
        Event.cerr ("Failed to compile ".toList
          ++ (if type = GL_VERTEX_SHADER then "vertex".toList else "fragment".toList)
          ++ " shader!\n".toList),
        Event.cerr (msg ++ ['\n'])], ?_, ?_, ?_⟩, ?_⟩
    · rw [hev]
      simp only [List.append_assoc, List.cons_append, List.nil_append]
    · simp only [createdShadersOf, List.filterMap_cons, List.filterMap_nil]
    · simp only [deleteCallsOf, List.filterMap_cons, List.filterMap_nil]
    · rcases hsh with ⟨_, h⟩ | ⟨h1, _⟩
      · exact h
      · rw [hfst] at h1
        exact absurd h1.symm hn
  · intro hst
    have hc : compileFailed pf type source w = false := by
      rw [hcf, hst]
      rfl
    rw [hc] at hfst hev
    simp only [Bool.false_eq_true, if_false, List.append_nil] at hfst hev
    refine ⟨hfst, ⟨_, hev, ?_, ?_⟩, ?_, ?_⟩
    · simp only [createdShadersOf, List.filterMap_cons, List.filterMap_nil]
    · simp only [deleteCallsOf, List.filterMap_cons, List.filterMap_nil]
    · simp only [GLContext.isShader, hfr.1, Option.isSome_none]
    · rcases hsh with ⟨h0, _⟩ | ⟨h1, S, hS1, hS2, hS3⟩
      · rw [hfst] at h0
        exact absurd h0 hid
      · exact ⟨S, by rw [hS1, h1], hS2, hS3⟩

/-- Witness of C24: the vertex stage on the example platform in the empty world,
with a source that compiles and with one that does not. -/
theorem CompileShader_failed_unit_deleted_witness :
    (glCreateShader examplePlatform GL_VERTEX_SHADER emptyWorld).1 ≠ 0
    ∧ emptyWorld.gl.inUse (glCreateShader examplePlatform GL_VERTEX_SHADER emptyWorld).1 = false
    ∧ (examplePlatform.compile GL_VERTEX_SHADER (cstr "bad".toList)).1 = false
    ∧ (CompileShader examplePlatform GL_VERTEX_SHADER "bad".toList emptyWorld).1 = 0
    ∧ (CompileShader examplePlatform GL_VERTEX_SHADER "bad".toList emptyWorld).2.gl.shaders = []
    ∧ (examplePlatform.compile GL_VERTEX_SHADER (cstr "ok".toList)).1 = true
    ∧ (CompileShader examplePlatform GL_VERTEX_SHADER "ok".toList emptyWorld).1 = 1 :=
  ⟨by decide, by decide, by decide,
   ((CompileShader_failed_unit_deleted examplePlatform GL_VERTEX_SHADER "bad".toList emptyWorld
      (by decide) (by decide)).1 (by decide)).1,
   ((CompileShader_failed_unit_deleted examplePlatform GL_VERTEX_SHADER "bad".toList emptyWorld
      (by decide) (by decide)).1 (by decide)).2.2,
   by decide,
   ((CompileShader_failed_unit_deleted examplePlatform GL_VERTEX_SHADER "ok".toList emptyWorld
      (by decide) (by decide)).2 (by decide)).1⟩

/-! ## The program linker: its calls, in order -/

/-- What the events of `CompileShader` are made of. -/
theorem CompileShader_events_summary (pf : Platform) (type : GLenum) (source : Str)
    (w : World) :
    ∃ ev : List Event,
      (CompileShader pf type source w).2.trace = w.trace ++ ev
      ∧ (∀ e ∈ ev, Event.isCompileStep e = true)
      ∧ createdShadersOf ev = [(glCreateShader pf type w).1]
      ∧ deleteCallsOf ev
          = (if compileFailed pf type source w then [(glCreateShader pf type w).1] else [])
      ∧ detachCallsOf ev = [] := by
  obtain ⟨len, msg, h⟩ := CompileShader_events pf type source w
  refine ⟨_, h, ?_, ?_, ?_, ?_⟩
  · cases hc : compileFailed pf type source w <;>
      simp [Event.isCompileStep]
  · cases hc : compileFailed pf type source w <;>
      simp [createdShadersOf]
  · cases hc : compileFailed pf type source w <;>
      simp [deleteCallsOf]
  · cases hc : compileFailed pf type source w <;>
      simp [detachCallsOf]

/-- The calls `CreateShader` issues itself after the two compiles. -/
theorem CreateShader_trace (pf : Platform) (vertexSource fragmentSource : Str) (w : World) :
    (CreateShader pf vertexSource fragmentSource w).2.trace
      = (CompileShader pf GL_FRAGMENT_SHADER fragmentSource
          (CompileShader pf GL_VERTEX_SHADER vertexSource (glCreateProgram pf w).2).2).2.trace
        ++ [Event.glAttachShader (glCreateProgram pf w).1
              (CompileShader pf GL_VERTEX_SHADER vertexSource (glCreateProgram pf w).2).1,
            Event.glAttachShader (glCreateProgram pf w).1
              (CompileShader pf GL_FRAGMENT_SHADER fragmentSource
                (CompileShader pf GL_VERTEX_SHADER vertexSource (glCreateProgram pf w).2).2).1,
            Event.glLinkProgram (glCreateProgram pf w).1,
            Event.glValidateProgram (glCreateProgram pf w).1,
            Event.glDetachShader (glCreateProgram pf w).1
              (CompileShader pf GL_VERTEX_SHADER vertexSource (glCreateProgram pf w).2).1,
            Event.glDetachShader (glCreateProgram pf w).1
              (CompileShader pf GL_FRAGMENT_SHADER fragmentSource
                (CompileShader pf GL_VERTEX_SHADER vertexSource (glCreateProgram pf w).2).2).1,
            Event.glDeleteShader
              (CompileShader pf GL_VERTEX_SHADER vertexSource (glCreateProgram pf w).2).1,
            Event.glDeleteShader
              (CompileShader pf GL_FRAGMENT_SHADER fragmentSource
                (CompileShader pf GL_VERTEX_SHADER vertexSource
                  (glCreateProgram pf w).2).2).1] := by
  rw [CreateShader_eq]
  simp only [glDeleteShader_trace, glDetachShader_trace, glValidateProgram_trace,
    glLinkProgram_trace, glAttachShader_trace, List.append_assoc, List.cons_append,
    List.nil_append]

/-- C23 (as stated, refuted): on the example platform with a fragment source that
does not compile, `CreateShader` issues `glDeleteShader(3)`, the delete of the
failed fragment unit inside `CompileShader`, before `glValidateProgram(1)`. -/
theorem CreateShader_delete_precedes_validate :
    (CompileShader examplePlatform GL_FRAGMENT_SHADER "bad".toList
        (CompileShader examplePlatform GL_VERTEX_SHADER "ok".toList
          (glCreateProgram examplePlatform emptyWorld).2).2).1 = 0
    ∧ (CreateShader examplePlatform "ok".toList "bad".toList emptyWorld).2.trace
      = [Event.glCreateProgram 1,
         Event.glCreateShader GL_VERTEX_SHADER 2,
         Event.glShaderSource 2 "ok".toList,
         Event.glCompileShader 2,
         Event.glGetShaderiv 2 GL_COMPILE_STATUS,
         Event.glCreateShader GL_FRAGMENT_SHADER 3,
         Event.glShaderSource 3 "bad".toList,
         Event.glCompileShader 3,
         Event.glGetShaderiv 3 GL_COMPILE_STATUS,
         Event.glGetShaderiv 3 GL_INFO_LOG_LENGTH,
         Event.glGetShaderInfoLog 3 13,
         Event.cerr "Failed to compile fragment shader!\n".toList,
         Event.cerr "syntax error\n".toList,
         Event.glDeleteShader 3,
         Event.glAttachShader 1 2,
         Event.glAttachShader 1 0,
         Event.glLinkProgram 1,
         Event.glValidateProgram 1,
         Event.glDetachShader 1 2,
         Event.glDetachShader 1 0,
         Event.glDeleteShader 2,
         Event.glDeleteShader 0]
    ∧ ∃ a b c : List Event,
        (CreateShader examplePlatform "ok".toList "bad".toList emptyWorld).2.trace
          = a ++ [Event.glDeleteShader 3] ++ b ++ [Event.glValidateProgram 1] ++ c := by
  refine ⟨by decide, by decide, ?_⟩
  refine ⟨[Event.glCreateProgram 1,
         Event.glCreateShader GL_VERTEX_SHADER 2,
         Event.glShaderSource 2 "ok".toList,
         Event.glCompileShader 2,
         Event.glGetShaderiv 2 GL_COMPILE_STATUS,
         Event.glCreateShader GL_FRAGMENT_SHADER 3,
         Event.glShaderSource 3 "bad".toList,
         Event.glCompileShader 3,
         Event.glGetShaderiv 3 GL_COMPILE_STATUS,
         Event.glGetShaderiv 3 GL_INFO_LOG_LENGTH,
         Event.glGetShaderInfoLog 3 13,
         Event.cerr "Failed to compile fragment shader!\n".toList,
         Event.cerr "syntax error\n".toList],
        [Event.glAttachShader 1 2, Event.glAttachShader 1 0, Event.glLinkProgram 1],
        [Event.glDetachShader 1 2, Event.glDetachShader 1 0, Event.glDeleteShader 2,
         Event.glDeleteShader 0], ?_⟩
  decide

/-- C23 (amended): in every execution of `CreateShader` the calls are, in this
order, `glCreateProgram`, the calls of the vertex compile, the calls of the
fragment compile, the two attaches, link, validate, the two detaches, the two
deletes of the returned handles. The calls of a compile are calls `CompileShader`
makes, so none is an attach, link, validate or detach; a compile issues a delete,
of the unit it created, exactly when it fails, and that delete is the only one
that precedes validate. -/
theorem CreateShader_call_order (pf : Platform) (vertexSource fragmentSource : Str)
    (w : World) :
    ∃ cv cf : List Event,
      (CreateShader pf vertexSource fragmentSource w).2.trace
        = w.trace ++ [Event.glCreateProgram (glCreateProgram pf w).1] ++ cv ++ cf
          ++ [Event.glAttachShader (glCreateProgram pf w).1
                (CompileShader pf GL_VERTEX_SHADER vertexSource (glCreateProgram pf w).2).1,
              Event.glAttachShader (glCreateProgram pf w).1
                (CompileShader pf GL_FRAGMENT_SHADER fragmentSource
                  (CompileShader pf GL_VERTEX_SHADER vertexSource
                    (glCreateProgram pf w).2).2).1,
              Event.glLinkProgram (glCreateProgram pf w).1,
              Event.glValidateProgram (glCreateProgram pf w).1,
              Event.glDetachShader (glCreateProgram pf w).1
                (CompileShader pf GL_VERTEX_SHADER vertexSource (glCreateProgram pf w).2).1,
              Event.glDetachShader (glCreateProgram pf w).1
                (CompileShader pf GL_FRAGMENT_SHADER fragmentSource
                  (CompileShader pf GL_VERTEX_SHADER vertexSource
                    (glCreateProgram pf w).2).2).1,
              Event.glDeleteShader
                (CompileShader pf GL_VERTEX_SHADER vertexSource (glCreateProgram pf w).2).1,
              Event.glDeleteShader
                (CompileShader pf GL_FRAGMENT_SHADER fragmentSource
                  (CompileShader pf GL_VERTEX_SHADER vertexSource
                    (glCreateProgram pf w).2).2).1]
      ∧ (CompileShader pf GL_VERTEX_SHADER vertexSource (glCreateProgram pf w).2).2.trace
          = (glCreateProgram pf w).2.trace ++ cv
      ∧ (CompileShader pf GL_FRAGMENT_SHADER fragmentSource
            (CompileShader pf GL_VERTEX_SHADER vertexSource (glCreateProgram pf w).2).2).2.trace
          = (CompileShader pf GL_VERTEX_SHADER vertexSource (glCreateProgram pf w).2).2.trace
            ++ cf
      ∧ (∀ e ∈ cv ++ cf, Event.isCompileStep e = true)
      ∧ deleteCallsOf cv
          = (if compileFailed pf GL_VERTEX_SHADER vertexSource (glCreateProgram pf w).2
             then [(glCreateShader pf GL_VERTEX_SHADER (glCreateProgram pf w).2).1] else [])
      ∧ deleteCallsOf cf
          = (if compileFailed pf GL_FRAGMENT_SHADER fragmentSource
                (CompileShader pf GL_VERTEX_SHADER vertexSource (glCreateProgram pf w).2).2
             then [(glCreateShader pf GL_FRAGMENT_SHADER
                (CompileShader pf GL_VERTEX_SHADER vertexSource
                  (glCreateProgram pf w).2).2).1] else []) := by
  obtain ⟨cv, hv, hvs, _, hvd, _⟩ := CompileShader_events_summary pf GL_VERTEX_SHADER
    vertexSource (glCreateProgram pf w).2
  obtain ⟨cf, hf, hfs, _, hfd, _⟩ := CompileShader_events_summary pf GL_FRAGMENT_SHADER
    fragmentSource (CompileShader pf GL_VERTEX_SHADER vertexSource (glCreateProgram pf w).2).2
  refine ⟨cv, cf, ?_, hv, hf, ?_, hvd, hfd⟩
  · rw [CreateShader_trace, hf, hv, glCreateProgram_trace, glCreateProgram_fst]
  · intro e he
    rcases List.mem_append.mp he with h | h
    · exact hvs e h
    · exact hfs e h

theorem createdShadersOf_append (a b : List Event) :
    createdShadersOf (a ++ b) = createdShadersOf a ++ createdShadersOf b := by
  simp [createdShadersOf]

theorem deleteCallsOf_append (a b : List Event) :
    deleteCallsOf (a ++ b) = deleteCallsOf a ++ deleteCallsOf b := by
  simp [deleteCallsOf]

theorem detachCallsOf_append (a b : List Event) :
    detachCallsOf (a ++ b) = detachCallsOf a ++ detachCallsOf b := by
  simp [detachCallsOf]

/-- C29: during `CreateShader` two stage units are created; when a compile fails,
`CompileShader` deletes the unit and returns 0, and the detach and delete calls of
`CreateShader` for that stage are issued on 0; when it succeeds, no delete is
issued inside `CompileShader` and `CreateShader` detaches and deletes the created
name. So every non-zero name is passed to `glDeleteShader` as many times as
`glCreateShader` returned it: once for each creation. -/
theorem CreateShader_deletes_each_unit_once (pf : Platform)
    (vertexSource fragmentSource : Str) (w : World) :
    ∃ ev : List Event,
      (CreateShader pf vertexSource fragmentSource w).2.trace = w.trace ++ ev
      ∧ createdShadersOf ev
          = [(glCreateShader pf GL_VERTEX_SHADER (glCreateProgram pf w).2).1,
             (glCreateShader pf GL_FRAGMENT_SHADER
                (CompileShader pf GL_VERTEX_SHADER vertexSource (glCreateProgram pf w).2).2).1]
      ∧ (CompileShader pf GL_VERTEX_SHADER vertexSource (glCreateProgram pf w).2).1
          = (if compileFailed pf GL_VERTEX_SHADER vertexSource (glCreateProgram pf w).2
             then 0 else (glCreateShader pf GL_VERTEX_SHADER (glCreateProgram pf w).2).1)
      ∧ (CompileShader pf GL_FRAGMENT_SHADER fragmentSource
            (CompileShader pf GL_VERTEX_SHADER vertexSource (glCreateProgram pf w).2).2).1
          = (if compileFailed pf GL_FRAGMENT_SHADER fragmentSource
                (CompileShader pf GL_VERTEX_SHADER vertexSource (glCreateProgram pf w).2).2
             then 0
             else (glCreateShader pf GL_FRAGMENT_SHADER
                (CompileShader pf GL_VERTEX_SHADER vertexSource
                  (glCreateProgram pf w).2).2).1)
      ∧ deleteCallsOf ev
          = (if compileFailed pf GL_VERTEX_SHADER vertexSource (glCreateProgram pf w).2
             then [(glCreateShader pf GL_VERTEX_SHADER (glCreateProgram pf w).2).1] else [])
            ++ (if compileFailed pf GL_FRAGMENT_SHADER fragmentSource
                  (CompileShader pf GL_VERTEX_SHADER vertexSource (glCreateProgram pf w).2).2
                then [(glCreateShader pf GL_FRAGMENT_SHADER
                  (CompileShader pf GL_VERTEX_SHADER vertexSource
                    (glCreateProgram pf w).2).2).1] else [])
            ++ [(CompileShader pf GL_VERTEX_SHADER vertexSource (glCreateProgram pf w).2).1,
                (CompileShader pf GL_FRAGMENT_SHADER fragmentSource
                  (CompileShader pf GL_VERTEX_SHADER vertexSource
                    (glCreateProgram pf w).2).2).1]
      ∧ detachCallsOf ev
          = [((glCreateProgram pf w).1,
              (CompileShader pf GL_VERTEX_SHADER vertexSource (glCreateProgram pf w).2).1),
             ((glCreateProgram pf w).1,
              (CompileShader pf GL_FRAGMENT_SHADER fragmentSource
                (CompileShader pf GL_VERTEX_SHADER vertexSource
                  (glCreateProgram pf w).2).2).1)]
      ∧ ∀ n : GLuint, n ≠ 0 →
          (deleteCallsOf ev).count n = (createdShadersOf ev).count n := by
  obtain ⟨cv, hv, _, hvc, hvd, hvt⟩ := CompileShader_events_summary pf GL_VERTEX_SHADER
    vertexSource (glCreateProgram pf w).2
  obtain ⟨cf, hf, _, hfc, hfd, hft⟩ := CompileShader_events_summary pf GL_FRAGMENT_SHADER
    fragmentSource (CompileShader pf GL_VERTEX_SHADER vertexSource (glCreateProgram pf w).2).2
  have hvs := CompileShader_fst pf GL_VERTEX_SHADER vertexSource (glCreateProgram pf w).2
  have hfs := CompileShader_fst pf GL_FRAGMENT_SHADER fragmentSource
    (CompileShader pf GL_VERTEX_SHADER vertexSource (glCreateProgram pf w).2).2
  have htr : (CreateShader pf vertexSource fragmentSource w).2.trace
      = w.trace ++ ([Event.glCreateProgram (glCreateProgram pf w).1] ++ cv ++ cf
          ++ [Event.glAttachShader (glCreateProgram pf w).1
                (CompileShader pf GL_VERTEX_SHADER vertexSource (glCreateProgram pf w).2).1,
              Event.glAttachShader (glCreateProgram pf w).1
                (CompileShader pf GL_FRAGMENT_SHADER fragmentSource
                  (CompileShader pf GL_VERTEX_SHADER vertexSource
                    (glCreateProgram pf w).2).2).1,
              Event.glLinkProgram (glCreateProgram pf w).1,
              Event.glValidateProgram (glCreateProgram pf w).1,
              Event.glDetachShader (glCreateProgram pf w).1
                (CompileShader pf GL_VERTEX_SHADER vertexSource (glCreateProgram pf w).2).1,
              Event.glDetachShader (glCreateProgram pf w).1
                (CompileShader pf GL_FRAGMENT_SHADER fragmentSource
                  (CompileShader pf GL_VERTEX_SHADER vertexSource
                    (glCreateProgram pf w).2).2).1,
              Event.glDeleteShader
                (CompileShader pf GL_VERTEX_SHADER vertexSource (glCreateProgram pf w).2).1,
              Event.glDeleteShader
                (CompileShader pf GL_FRAGMENT_SHADER fragmentSource
                  (CompileShader pf GL_VERTEX_SHADER vertexSource
                    (glCreateProgram pf w).2).2).1]) := by
    rw [CreateShader_trace, hf, hv, glCreateProgram_trace, glCreateProgram_fst]
    simp only [List.append_assoc]
  have hcr : createdShadersOf ([Event.glCreateProgram (glCreateProgram pf w).1] ++ cv ++ cf
          ++ [Event.glAttachShader (glCreateProgram pf w).1
                (CompileShader pf GL_VERTEX_SHADER vertexSource (glCreateProgram pf w).2).1,
              Event.glAttachShader (glCreateProgram pf w).1
                (CompileShader pf GL_FRAGMENT_SHADER fragmentSource
                  (CompileShader pf GL_VERTEX_SHADER vertexSource
                    (glCreateProgram pf w).2).2).1,
              Event.glLinkProgram (glCreateProgram pf w).1,
              Event.glValidateProgram (glCreateProgram pf w).1,
              Event.glDetachShader (glCreateProgram pf w).1
                (CompileShader pf GL_VERTEX_SHADER vertexSource (glCreateProgram pf w).2).1,
              Event.glDetachShader (glCreateProgram pf w).1
                (CompileShader pf GL_FRAGMENT_SHADER fragmentSource
                  (CompileShader pf GL_VERTEX_SHADER vertexSource
                    (glCreateProgram pf w).2).2).1,
              Event.glDeleteShader
                (CompileShader pf GL_VERTEX_SHADER vertexSource (glCreateProgram pf w).2).1,
              Event.glDeleteShader
                (CompileShader pf GL_FRAGMENT_SHADER fragmentSource
                  (CompileShader pf GL_VERTEX_SHADER vertexSource
                    (glCreateProgram pf w).2).2).1])
      = [(glCreateShader pf GL_VERTEX_SHADER (glCreateProgram pf w).2).1,
         (glCreateShader pf GL_FRAGMENT_SHADER
            (CompileShader pf GL_VERTEX_SHADER vertexSource (glCreateProgram pf w).2).2).1] := by
    rw [createdShadersOf_append, createdShadersOf_append, createdShadersOf_append, hvc, hfc]
    simp [createdShadersOf]
  have hdl : deleteCallsOf ([Event.glCreateProgram (glCreateProgram pf w).1] ++ cv ++ cf
          ++ [Event.glAttachShader (glCreateProgram pf w).1
                (CompileShader pf GL_VERTEX_SHADER vertexSource (glCreateProgram pf w).2).1,
              Event.glAttachShader (glCreateProgram pf w).1
                (CompileShader pf GL_FRAGMENT_SHADER fragmentSource
                  (CompileShader pf GL_VERTEX_SHADER vertexSource
                    (glCreateProgram pf w).2).2).1,
              Event.glLinkProgram (glCreateProgram pf w).1,
              Event.glValidateProgram (glCreateProgram pf w).1,
              Event.glDetachShader (glCreateProgram pf w).1
                (CompileShader pf GL_VERTEX_SHADER vertexSource (glCreateProgram pf w).2).1,
              Event.glDetachShader (glCreateProgram pf w).1
                (CompileShader pf GL_FRAGMENT_SHADER fragmentSource
                  (CompileShader pf GL_VERTEX_SHADER vertexSource
                    (glCreateProgram pf w).2).2).1,
              Event.glDeleteShader
                (CompileShader pf GL_VERTEX_SHADER vertexSource (glCreateProgram pf w).2).1,
              Event.glDeleteShader
                (CompileShader pf GL_FRAGMENT_SHADER fragmentSource
                  (CompileShader pf GL_VERTEX_SHADER vertexSource
                    (glCreateProgram pf w).2).2).1])
      = (if compileFailed pf GL_VERTEX_SHADER vertexSource (glCreateProgram pf w).2
             then [(glCreateShader pf GL_VERTEX_SHADER (glCreateProgram pf w).2).1] else [])
            ++ (if compileFailed pf GL_FRAGMENT_SHADER fragmentSource
                  (CompileShader pf GL_VERTEX_SHADER vertexSource (glCreateProgram pf w).2).2
                then [(glCreateShader pf GL_FRAGMENT_SHADER
                  (CompileShader pf GL_VERTEX_SHADER vertexSource
                    (glCreateProgram pf w).2).2).1] else [])
            ++ [(CompileShader pf GL_VERTEX_SHADER vertexSource (glCreateProgram pf w).2).1,
                (CompileShader pf GL_FRAGMENT_SHADER fragmentSource
                  (CompileShader pf GL_VERTEX_SHADER vertexSource
                    (glCreateProgram pf w).2).2).1] := by
    rw [deleteCallsOf_append, deleteCallsOf_append, deleteCallsOf_append, hvd, hfd]
    simp [deleteCallsOf]
  refine ⟨_, htr, hcr, hvs, hfs, hdl, ?_, ?_⟩
  · rw [detachCallsOf_append, detachCallsOf_append, detachCallsOf_append, hvt, hft]
    simp [detachCallsOf]
  · intro n hn
    rw [hdl, hcr, hvs, hfs]
    have hn' : ¬ (0 = n) := fun h => hn h.symm
    cases compileFailed pf GL_VERTEX_SHADER vertexSource (glCreateProgram pf w).2 <;>
      cases compileFailed pf GL_FRAGMENT_SHADER fragmentSource
        (CompileShader pf GL_VERTEX_SHADER vertexSource (glCreateProgram pf w).2).2 <;>
      simp [List.count_cons, hn, hn']
    rw [Nat.add_comm]

/-! ## The draw phase of the error-handling example -/

theorem ErrorHandling_ParseShaders_eq (input : Str) :
    ErrorHandling.ParseShaders input = ParseShaders input := by
  have hE : ErrorHandling.parseLine = parseLine := rfl
  unfold ErrorHandling.ParseShaders ParseShaders
  rw [splitLoop_eq_runLines, parseLoop_eq_parseLines, parseLines_eq_runLines, hE]

theorem errorHandlingSetup_example (pf : Platform) (dp : DrawPlatform) (w : World) :
    errorHandlingSetup pf dp "#shader vertex\nA\n#shader fragment\nB\n".toList w
      = some ((CreateShader pf "A\n".toList "B\n".toList w).1,
          glUseProgram dp (CreateShader pf "A\n".toList "B\n".toList w).1
            (CreateShader pf "A\n".toList "B\n".toList w).2) := by
  unfold errorHandlingSetup
  rw [ErrorHandling_ParseShaders_eq, ParseShaders_example]
  rfl

theorem signalsOf_polls (q : List GLError) :
    signalsOf (q.map (fun e => Event.glGetError e.val)) = [] := by
  induction q with
  | nil => rfl
  | cons e es ih =>
    simp only [List.map_cons]
    rw [show Event.glGetError e.val :: es.map (fun e => Event.glGetError e.val)
        = [Event.glGetError e.val] ++ es.map (fun e => Event.glGetError e.val) from rfl,
      signalsOf_append, ih]
    rfl

theorem ClearError_signals (w : World) :
    signalsOf (ClearError w).trace = signalsOf w.trace := by
  rw [ClearError_eq w.gl.errors w rfl]
  simp only [signalsOf_append, signalsOf_polls]
  simp [signalsOf]

/-- A wrapped call that leaves no code pending: the check polls once and nothing
else happens. -/
theorem GLCall_quiet {α : Type} (x : World → α × World) (xText file : Str) (line : Int)
    (w : World) (hx : (x (ClearError w)).2.gl.errors = []) :
    GLCall x xText file line w
      = (x (ClearError w)).2.log (Event.glGetError GL_NO_ERROR) := by
  unfold GLCall LogCall
  simp only [glGetError_nil _ hx]
  simp [ASSERT, GL_NO_ERROR]

/-- The signals of `GLCall(x)`: those of `x`, and then `SIGTRAP` exactly when `x`,
started on the drained queue, leaves a code pending. -/
theorem GLCall_signals {α : Type} (x : World → α × World) (xText file : Str) (line : Int)
    (w : World) :
    signalsOf (GLCall x xText file line w).trace
      = signalsOf (x (ClearError w)).2.trace
        ++ (if (x (ClearError w)).2.gl.errors.isEmpty then [] else [SIGTRAP]) := by
  cases hq : (x (ClearError w)).2.gl.errors with
  | nil =>
    rw [GLCall_quiet x xText file line w hq]
    simp [World.log, signalsOf]
  | cons c rest =>
    rw [GLCall_pending x xText file line w c rest hq]
    simp [signalsOf]

theorem alive_of_signals (w : World) (h : signalsOf w.trace = []) : alive w = true := by
  simp [alive, h]

/-- One iteration of the draw loop of the error-handling example, started with no
signal raised: `SIGTRAP` is raised exactly when `glDrawElements`, called on the
drained queue, records an error. -/
theorem errorHandlingFrame_signals (dp : DrawPlatform) (file : Str) (w : World)
    (h : signalsOf w.trace = []) :
    signalsOf (errorHandlingFrame dp file w).trace
      = (if (dp.drawElementsErrors (ClearError (glClear dp w))).isEmpty then []
         else [SIGTRAP]) := by
  have h1 : signalsOf (glClear dp w).trace = [] := by
    rw [show (glClear dp w).trace = w.trace ++ [Event.glClear] from rfl, signalsOf_append, h]
    rfl
  unfold errorHandlingFrame
  simp only []
  rw [stmt_alive _ w (alive_of_signals w h), stmt_alive _ _ (alive_of_signals _ h1),
    GLCall_signals]
  have h2 : signalsOf (glDrawElements dp (ClearError (glClear dp w))).trace = [] := by
    rw [show (glDrawElements dp (ClearError (glClear dp w))).trace
        = (ClearError (glClear dp w)).trace ++ [Event.glDrawElements] from rfl,
      signalsOf_append, ClearError_signals, h1]
    rfl
  have h3 : (glDrawElements dp (ClearError (glClear dp w))).gl.errors
      = dp.drawElementsErrors (ClearError (glClear dp w)) := by
    simp [glDrawElements, World.log, World.failAll, ClearError_errors]
  simp only [h2, h3, List.nil_append]

/-- C25 (as stated, refuted): the error-handling example on a platform where
neither stage of the document compiles and the program does not link. Both
handles are 0, `glUseProgram(1)` is called on the program `CreateShader` returned
and records `GL_INVALID_OPERATION`, and the first wrapped call after it,
`GLCall(glDrawElements(...))`, drains the five pending codes, draws, polls
`GL_NO_ERROR` and raises no signal. -/
theorem errorHandlingMain_failed_stage_undetected :
    (CompileShader unlinkedPlatform GL_VERTEX_SHADER "A\n".toList
        (glCreateProgram unlinkedPlatform emptyWorld).2).1 = 0
    ∧ (CreateShader unlinkedPlatform "A\n".toList "B\n".toList emptyWorld).1 = 1
    ∧ ∃ w' : World,
        errorHandlingMain unlinkedPlatform unlinkedDrawPlatform "main.cpp".toList
          "#shader vertex\nA\n#shader fragment\nB\n".toList 1 emptyWorld = some w'
        ∧ w'.trace
          = (CreateShader unlinkedPlatform "A\n".toList "B\n".toList emptyWorld).2.trace
            ++ [Event.glUseProgram 1,
                Event.glClear,
                Event.glGetError GL_INVALID_VALUE,
                Event.glGetError GL_INVALID_VALUE,
                Event.glGetError GL_INVALID_VALUE,
                Event.glGetError GL_INVALID_VALUE,
                Event.glGetError GL_INVALID_OPERATION,
                Event.glGetError GL_NO_ERROR,
                Event.glDrawElements,
                Event.glGetError GL_NO_ERROR]
        ∧ signalsOf w'.trace = [] := by
  refine ⟨by decide, by decide, ?_⟩
  have hq : (glDrawElements unlinkedDrawPlatform
      (ClearError (glClear unlinkedDrawPlatform
        (glUseProgram unlinkedDrawPlatform
          (CreateShader unlinkedPlatform "A\n".toList "B\n".toList emptyWorld).1
          (CreateShader unlinkedPlatform "A\n".toList "B\n".toList emptyWorld).2)))).gl.errors
      = [] := by
    simp [glDrawElements, World.log, World.failAll, ClearError_errors, unlinkedDrawPlatform]
  unfold errorHandlingMain
  rw [errorHandlingSetup_example]
  simp only [errorHandlingLoop, errorHandlingFrame]
  rw [stmt_alive _ _ (by decide), stmt_alive _ _ (by decide),
    GLCall_quiet _ _ _ _ _ hq]
  refine ⟨_, rfl, ?_, ?_⟩
  · rw [ClearError_eq _ _ rfl]
    decide
  · rw [ClearError_eq _ _ rfl]
    decide

/-- C25 (amended): in the error-handling example, whenever `ParseShaders` has a
result, `glUseProgram` is called on the program `CreateShader` returns, whatever
the compile outcomes, and the statements up to it raise no signal; the first
`GLCall`-wrapped call after the bind, `glDrawElements`, starts on the queue that
`ClearError` has emptied of every code the build and the bind left pending, and
it raises `SIGTRAP` exactly when `glDrawElements` itself records an error. -/
theorem errorHandling_first_wrapped_call (pf : Platform) (dp : DrawPlatform)
    (file fileText : Str) (w : World) (shader : GLuint) (w' : World)
    (hs : errorHandlingSetup pf dp fileText w = some (shader, w'))
    (hq : signalsOf w.trace = []) :
    (∃ (source : ShaderProgramSource) (errs : List Str),
        ErrorHandling.ParseShaders fileText = some (source, errs)
        ∧ shader = (CreateShader pf source.VertexSource source.FragmentSource
            (errs.foldl (fun v t => cerrWrite t v) w)).1
        ∧ w'.trace = (CreateShader pf source.VertexSource source.FragmentSource
            (errs.foldl (fun v t => cerrWrite t v) w)).2.trace ++ [Event.glUseProgram shader])
    ∧ signalsOf w'.trace = []
    ∧ (ClearError (glClear dp w')).gl.errors = []
    ∧ signalsOf (errorHandlingFrame dp file w').trace
        = (if (dp.drawElementsErrors (ClearError (glClear dp w'))).isEmpty then []
           else [SIGTRAP]) := by
  unfold errorHandlingSetup at hs
  cases hp : ErrorHandling.ParseShaders fileText with
  | none =>
    rw [hp] at hs
    simp at hs
  | some q =>
    obtain ⟨source, errs⟩ := q
    rw [hp] at hs
    simp only [Option.some.injEq, Prod.mk.injEq] at hs
    obtain ⟨h1, h2⟩ := hs
    subst h1
    subst h2
    have hsig : signalsOf (glUseProgram dp
        (CreateShader pf source.VertexSource source.FragmentSource
          (errs.foldl (fun v t => cerrWrite t v) w)).1
        (CreateShader pf source.VertexSource source.FragmentSource
          (errs.foldl (fun v t => cerrWrite t v) w)).2).trace = [] := by
      rw [glUseProgram_trace, signalsOf_append, CreateShader_signals, cerrWrites_trace,
        signalsOf_append, signalsOf_cerr, hq]
      rfl
    exact ⟨⟨source, errs, rfl, rfl, rfl⟩, hsig, ClearError_errors _,
      errorHandlingFrame_signals dp file _ hsig⟩

/-- Witness of C25 (amended): the example document on the example platforms, where
neither stage compiles and `glDrawElements` records no error. -/
theorem errorHandling_first_wrapped_call_witness :
    signalsOf emptyWorld.trace = []
    ∧ signalsOf (errorHandlingFrame exampleDrawPlatform "main.cpp".toList
        (glUseProgram exampleDrawPlatform
          (CreateShader examplePlatform "A\n".toList "B\n".toList emptyWorld).1
          (CreateShader examplePlatform "A\n".toList "B\n".toList emptyWorld).2)).trace = [] :=
  ⟨rfl, (errorHandling_first_wrapped_call examplePlatform exampleDrawPlatform
    "main.cpp".toList "#shader vertex\nA\n#shader fragment\nB\n".toList emptyWorld _ _
    (errorHandlingSetup_example examplePlatform exampleDrawPlatform emptyWorld) rfl).2.2.2⟩

/-! ## The stage compiler: a failed compile with an empty log -/

/-- C18 (the code at the failing input): the vertex source `bad` on a platform
whose compiler rejects it with an empty information log. The queried log length
is 0, `glGetShaderInfoLog` is called with a buffer of size 0 and writes nothing,
and the second line `CompileShader` writes to `std::cerr` is what the unwritten
buffer holds followed by a newline, whatever that text is, not the retrieved
(empty) log followed by a newline. -/
theorem CompileShader_empty_log_prints_unwritten_buffer :
    silentPlatform.compile GL_VERTEX_SHADER (cstr "bad".toList) = (false, [])
    ∧ (CompileShader silentPlatform GL_VERTEX_SHADER "bad".toList emptyWorld).2.trace
      = [Event.glCreateShader GL_VERTEX_SHADER 1,
         Event.glShaderSource 1 "bad".toList,
         Event.glCompileShader 1,
         Event.glGetShaderiv 1 GL_COMPILE_STATUS,
         Event.glGetShaderiv 1 GL_INFO_LOG_LENGTH,
         Event.glGetShaderInfoLog 1 0,
         Event.cerr "Failed to compile vertex shader!\n".toList,
         Event.cerr (silentPlatform.uninitText ++ ['\n']),
         Event.glDeleteShader 1]
    ∧ cerrOf (CompileShader silentPlatform GL_VERTEX_SHADER "bad".toList emptyWorld).2.trace
      = ["Failed to compile vertex shader!\n".toList, "?\n".toList]
    ∧ cerrOf (CompileShader silentPlatform GL_VERTEX_SHADER "bad".toList emptyWorld).2.trace
      ≠ ["Failed to compile vertex shader!\n".toList,
         (silentPlatform.compile GL_VERTEX_SHADER (cstr "bad".toList)).2 ++ ['\n']]
    ∧ ∀ u : Str,
        cerrOf (CompileShader { silentPlatform with uninitText := u } GL_VERTEX_SHADER
          "bad".toList emptyWorld).2.trace
        = ["Failed to compile vertex shader!\n".toList, u ++ ['\n']] := by
  refine ⟨rfl, by decide, by decide, by decide, ?_⟩
  intro u
  have h := (CompileShader_cerr { silentPlatform with uninitText := u } GL_VERTEX_SHADER
    "bad".toList emptyWorld (by show (1 : Nat) ≠ 0; decide)).2 rfl
  rw [h]
  rfl

end OpenGLCourse
